import Mathlib

/-! Boulder: validation authority and registration authority

A shallow embedding of `va/validation-authority.go` (the validation authority, VA),
followed by the registration authority (RA) and the web front end (WFE). The sources of
the RA and of the WFE are not part of `src/`: their operations are modelled from the
specification and run on the scenarios of `ra/registration-authority_test.go` and
`wfe/web-front-end_test.go`.

Conventions of the embedding:

* a Go `string` is a Lean `String`; `[]byte(s)` is `bytes s`, the UTF-8 encoding;
  a Go `[]byte` is a `List Nat` of byte values;
* a Go `error` is an `Option String`: `none` is `nil`, `some m` is an error whose
  `Error()` text is `m`;
* `time.Time` and `time.Duration` are `Nat`s (nanoseconds);
* everything outside the program (the network, the clock, the standard library
  digest, the helpers of package `core`) is a field of `World`, and every effect
  of the program (log lines, network calls, the callback into the RA) is
  recorded, in order, as an `Event`.
-/

namespace Boulder

/-! ## Package `core`: the data model -/

/-- Values of `core.AcmeStatus` used by the program. -/
abbrev AcmeStatus := String

def StatusPending : AcmeStatus := "pending"
def StatusValid : AcmeStatus := "valid"
def StatusInvalid : AcmeStatus := "invalid"

def ChallengeTypeSimpleHTTPS : String := "simpleHttps"
def ChallengeTypeDVSNI : String := "dvsni"
def IdentifierDNS : String := "dns"

/-- The Go type `core.AcmeIdentifier`. -/
structure AcmeIdentifier where
  Type_ : String
  Value : String
deriving DecidableEq, Repr

/-- The Go type `core.Challenge`, with the fields the program and its tests use. -/
structure Challenge where
  Type_ : String
  Status : AcmeStatus
  URI : String
  Token : String
  Path : String
  R : String
  S : String
  Nonce : String
deriving DecidableEq, Repr

/-- The zero value of `core.Challenge`. -/
def Challenge.zero : Challenge :=
  { Type_ := "", Status := "", URI := "", Token := "", Path := "", R := "", S := "",
    Nonce := "" }

/-- The Go type `core.Authorization`. -/
structure Authorization where
  ID : String
  RegistrationID : Int
  Identifier : AcmeIdentifier
  Status : AcmeStatus
  Expires : Nat
  Challenges : List Challenge
  Combinations : List (List Int)
deriving DecidableEq, Repr

/-! ## Go primitives -/

/-- The UTF-8 encoding of one character. -/
def utf8 (c : Char) : List Nat :=
  let v := c.toNat
  if v < 128 then [v]
  else if v < 2048 then [192 + v / 64, 128 + v % 64]
  else if v < 65536 then [224 + v / 4096, 128 + v / 64 % 64, 128 + v % 64]
  else [240 + v / 262144, 128 + v / 4096 % 64, 128 + v / 64 % 64, 128 + v % 64]

/-- The Go conversion `[]byte(s)`. -/
def bytes (s : String) : List Nat := s.data.flatMap utf8

/-- The Go builtin `len(s)` of a string: its length in bytes. -/
def len (s : String) : Nat := (bytes s).length

/-- Indexing `xs[i]` with a Go `int`: `none` is the run-time panic "index out of range". -/
def index? {α : Type} (xs : List α) (i : Int) : Option α :=
  if i < 0 then none else xs.get? i.toNat

/-- The assignment `xs[i] = x` (for an index already known to be in range). -/
def setIndex {α : Type} (xs : List α) (i : Int) (x : α) : List α :=
  if i < 0 then xs else xs.set i.toNat x

/-- The Go function `subtle.ConstantTimeByteEq`: 1 if the bytes are equal, 0 otherwise. -/
def ConstantTimeByteEq (x y : Nat) : Int := if x = y then 1 else 0

/-- The accumulator loop of `subtle.ConstantTimeCompare`: `v |= x[i] ^ y[i]`. -/
def xorFold : Nat → List Nat → List Nat → Nat
  | v, a :: x, b :: y => xorFold (v ||| (a ^^^ b)) x y
  | v, _, _ => v

/-- The Go function `subtle.ConstantTimeCompare`. -/
def ConstantTimeCompare (x y : List Nat) : Int :=
  if x.length ≠ y.length then 0
  else ConstantTimeByteEq (xorFold 0 x y) 0

/-- One lowercase hexadecimal digit. -/
def hexDigit (n : Nat) : Char :=
  if n < 10 then Char.ofNat (48 + n) else Char.ofNat (87 + n)

/-- The verb `%x` on a byte sequence: two lowercase digits per byte. -/
def hex : List Nat → List Char
  | [] => []
  | b :: bs => hexDigit (b / 16 % 16) :: hexDigit (b % 16) :: hex bs

/-- The verb `%064x` on a byte sequence: `%x`, padded on the left with zeros to width 64. -/
def sprintf064x (z : List Nat) : String :=
  ⟨List.replicate (64 - (hex z).length) '0' ++ hex z⟩

/-- The constant `time.Second`, in nanoseconds. -/
def Second : Nat := 1000000000

/-! ## The world outside the program -/

/-- The Go type `tls.Config`, with the fields the program sets. -/
structure TLSConfig where
  ServerName : String
  InsecureSkipVerify : Bool
deriving DecidableEq, Repr

/-- The Go type `http.Transport`, with the fields the program sets. -/
structure Transport where
  TLSClientConfig : TLSConfig
  DisableKeepAlives : Bool
deriving DecidableEq, Repr

/-- The Go type `http.Client`. -/
structure Client where
  Transport : Transport
  Timeout : Nat
deriving DecidableEq, Repr

/-- The Go type `net.Dialer`, with the field the program sets. -/
structure Dialer where
  Timeout : Nat
deriving DecidableEq, Repr

/-- The Go type `http.Request`, with the fields the program sets. -/
structure Request where
  Method : String
  URL : String
  Host : String
deriving DecidableEq, Repr

/-- A response body as a reader: the bytes the server delivers, and how the stream
ends (`none`: end of file; `some e`: the read error `e`). -/
structure Body where
  data : List Nat
  err : Option String
deriving DecidableEq, Repr

/-- The Go function `ioutil.ReadAll`: everything up to the end of the stream. -/
def ReadAll (b : Body) : List Nat × Option String := (b.data, b.err)

/-- The Go type `http.Response`, with the fields the program reads. -/
structure Response where
  StatusCode : Int
  Body : Body
deriving DecidableEq, Repr

/-- The Go type `x509.Certificate`, with the field the program reads. -/
structure x509.Certificate where
  DNSNames : List String
deriving DecidableEq, Repr

/-- Everything the validation authority depends on but does not define. -/
structure World where
  /-- The method `core.Challenge.IsSane(completed)`. -/
  IsSane : Challenge → Bool → Bool
  /-- The function `core.B64dec`: unpadded base64url decoding. -/
  B64dec : String → Except String (List Nat)
  /-- The function `sha256.Sum256`; its result type is `[32]byte`. -/
  Sum256 : List Nat → List Nat
  Sum256_size : ∀ data, (Sum256 data).length = 32
  /-- The function `http.NewRequest(method, url, nil)`. -/
  NewRequest : String → String → Except String Request
  /-- The method `http.Client.Do`. -/
  Do : Client → Request → Except String Response
  /-- The function `tls.DialWithDialer(dialer, network, addr, config)`; on success, the
  field `PeerCertificates` of the connection state. -/
  DialWithDialer : Dialer → String → String → TLSConfig → Except String (List x509.Certificate)

/-! ## Package `va` -/

/-- The Go type `ValidationAuthorityImpl`; its `RA` and `log` are the sinks of `Event`s. -/
structure ValidationAuthorityImpl where
  TestMode : Bool
deriving DecidableEq, Repr

/-- The Go type `verificationRequestEvent`, used for audit logging. -/
structure verificationRequestEvent where
  ID : String
  Requester : Int
  Challenge : Challenge
  RequestTime : Nat
  ResponseTime : Nat
  Error : String
deriving DecidableEq, Repr

/-- The effects of the validation authority, in program order. -/
inductive Event where
  /-- The call `va.log.Audit(msg)`. -/
  | Audit (msg : String)
  /-- The call `va.log.Debug(msg)`. -/
  | Debug (msg : String)
  /-- The call `va.log.Notice(msg)`. -/
  | Notice (msg : String)
  /-- The call `va.log.AuditObject(msg, obj)`. -/
  | AuditObject (msg : String) (obj : verificationRequestEvent)
  /-- The call `va.log.Notice(fmt.Sprintf("Validations: %+v", authz))`. -/
  | NoticeValidations (authz : Authorization)
  /-- The call `client.Do(httpRequest)`: the HTTP request goes out. -/
  | Do (client : Client) (req : Request)
  /-- The call `tls.DialWithDialer(dialer, network, addr, config)`: the TLS dial goes out. -/
  | Dial (dialer : Dialer) (network : String) (addr : String) (config : TLSConfig)
  /-- The deferred `conn.Close()`. -/
  | Close
  /-- The call `va.RA.OnValidationUpdate(authz)`. -/
  | OnValidationUpdate (authz : Authorization)
deriving DecidableEq, Repr

/-- What a validation method returns, `(core.Challenge, error)`, and its effects. -/
structure Probe where
  challenge : Challenge
  err : Option String
  events : List Event
deriving DecidableEq, Repr

/-- The Go method `ValidationAuthorityImpl.validateSimpleHTTPS`. -/
def validateSimpleHTTPS (va : ValidationAuthorityImpl) (w : World)
    (identifier : AcmeIdentifier) (input : Challenge) : Probe :=
  let challenge := input
  if len challenge.Path = 0 then
    { challenge := { challenge with Status := StatusInvalid },
      err := some "No path provided for SimpleHTTPS challenge.",
      events := [] }
  else if identifier.Type_ ≠ IdentifierDNS then
    { challenge := { challenge with Status := StatusInvalid },
      err := some "Identifier type for SimpleHTTPS was not DNS",
      events := [] }
  else
    let hostName := if va.TestMode then "localhost:5001" else identifier.Value
    let protocol := if va.TestMode then "http" else "https"
    let url := protocol ++ "://" ++ hostName ++ "/.well-known/acme-challenge/" ++ challenge.Path
    let audit := Event.Audit ("Attempting to validate SimpleHTTPS for " ++ url)
    match w.NewRequest "GET" url with
    | .error e =>
      { challenge := { challenge with Status := StatusInvalid }, err := some e,
        events := [audit] }
    | .ok request =>
      let httpRequest := { request with Host := hostName }
      let tr : Transport :=
        { TLSClientConfig := { ServerName := "", InsecureSkipVerify := true },
          DisableKeepAlives := true }
      let client : Client := { Transport := tr, Timeout := 5 * Second }
      match w.Do client httpRequest with
      | .ok httpResponse =>
        if httpResponse.StatusCode = 200 then
          match ReadAll httpResponse.Body with
          | (_, some readErr) =>
            { challenge := { challenge with Status := StatusInvalid }, err := some readErr,
              events := [audit, Event.Do client httpRequest] }
          | (body, none) =>
            if ConstantTimeCompare body (bytes challenge.Token) = 1 then
              { challenge := { challenge with Status := StatusValid }, err := none,
                events := [audit, Event.Do client httpRequest] }
            else
              { challenge := { challenge with Status := StatusInvalid },
                err := some ("Incorrect token validating SimpleHTTPS for " ++ url),
                events := [audit, Event.Do client httpRequest] }
        else
          { challenge := { challenge with Status := StatusInvalid },
            err := some ("Invalid response from " ++ url ++ ": " ++
              toString httpResponse.StatusCode),
            events := [audit, Event.Do client httpRequest] }
      | .error e =>
        { challenge := { challenge with Status := StatusInvalid }, err := some e,
          events := [audit, Event.Do client httpRequest,
            Event.Debug ("Could not connect to " ++ url ++ ": " ++ e)] }

/-- The constant `DVSNI_SUFFIX` of `validateDvsni`. -/
def DVSNI_SUFFIX : String := ".acme.invalid"

/-- The name `zName` of `validateDvsni`: `fmt.Sprintf("%064x.acme.invalid", z)` for
`z := sha256.Sum256(append(R, S...))`. -/
def zNameOf (w : World) (R S : List Nat) : String :=
  sprintf064x (w.Sum256 (R ++ S)) ++ ".acme.invalid"

/-- The loop of `validateDvsni` over `certs[0].DNSNames`: is some name equal to `zName`
under `subtle.ConstantTimeCompare`? -/
def sanMatches (zName : String) : List String → Bool
  | [] => false
  | name :: names =>
    if ConstantTimeCompare (bytes name) (bytes zName) = 1 then true
    else sanMatches zName names

/-- The Go method `ValidationAuthorityImpl.validateDvsni`. -/
def validateDvsni (va : ValidationAuthorityImpl) (w : World)
    (identifier : AcmeIdentifier) (input : Challenge) : Probe :=
  let challenge := input
  if identifier.Type_ ≠ "dns" then
    { challenge := { challenge with Status := StatusInvalid },
      err := some "Identifier type for DVSNI was not DNS",
      events := [] }
  else
    let nonceName := challenge.Nonce ++ DVSNI_SUFFIX
    match w.B64dec challenge.R with
    | .error e =>
      { challenge := { challenge with Status := StatusInvalid }, err := some e,
        events := [Event.Debug "Failed to decode R value from DVSNI challenge"] }
    | .ok R =>
      match w.B64dec challenge.S with
      | .error e =>
        { challenge := { challenge with Status := StatusInvalid }, err := some e,
          events := [Event.Debug "Failed to decode S value from DVSNI challenge"] }
      | .ok S =>
        let zName := zNameOf w R S
        let hostPort := if va.TestMode then "localhost:5001" else identifier.Value ++ ":443"
        let notice := Event.Notice ("Attempting to validate DVSNI for " ++
          "\x7b" ++ identifier.Type_ ++ " " ++ identifier.Value ++ "\x7d" ++ " " ++
          hostPort ++ " " ++ zName)
        let dialer : Dialer := { Timeout := 5 * Second }
        let config : TLSConfig := { ServerName := nonceName, InsecureSkipVerify := true }
        let dial := Event.Dial dialer "tcp" hostPort config
        match w.DialWithDialer dialer "tcp" hostPort config with
        | .error e =>
          { challenge := { challenge with Status := StatusInvalid }, err := some e,
            events := [notice, dial,
              Event.Debug "Failed to connect to host for DVSNI challenge"] }
        | .ok certs =>
          match certs with
          | [] =>
            { challenge := { challenge with Status := StatusInvalid },
              err := some "No certs presented for DVSNI challenge",
              events := [notice, dial, Event.Close] }
          | cert :: _ =>
            if sanMatches zName cert.DNSNames then
              { challenge := { challenge with Status := StatusValid }, err := none,
                events := [notice, dial, Event.Close] }
            else
              { challenge := { challenge with Status := StatusInvalid },
                err := some "Correct zName not found for DVSNI challenge",
                events := [notice, dial, Event.Close] }

/-- One run of `validate`: its effects, and whether it ended in a run-time panic. -/
structure Run where
  events : List Event
  panicked : Bool
deriving DecidableEq, Repr

/-- The Go method `ValidationAuthorityImpl.validate`; `now` is the value of `time.Now()`. -/
def validate (va : ValidationAuthorityImpl) (w : World) (now : Nat)
    (authz : Authorization) (challengeIndex : Int) : Run :=
  let logEvent : verificationRequestEvent :=
    { ID := authz.ID, Requester := authz.RegistrationID, Challenge := Challenge.zero,
      RequestTime := now, ResponseTime := 0, Error := "" }
  match index? authz.Challenges challengeIndex with
  | none => { events := [], panicked := true }
  | some current =>
    if !(w.IsSane current true) then
      let failed := { current with Status := StatusInvalid }
      let authz1 := { authz with Challenges := setIndex authz.Challenges challengeIndex failed }
      let logEvent1 := { logEvent with
        Error := "Challenge failed sanity check.", Challenge := failed }
      { events := [Event.AuditObject "Validation result" logEvent1,
          Event.NoticeValidations authz1, Event.OnValidationUpdate authz1],
        panicked := false }
    else
      let probe : Probe :=
        if current.Type_ = ChallengeTypeSimpleHTTPS then
          validateSimpleHTTPS va w authz.Identifier current
        else if current.Type_ = ChallengeTypeDVSNI then
          validateDvsni va w authz.Identifier current
        else
          { challenge := current, err := none, events := [] }
      let authz1 :=
        { authz with Challenges := setIndex authz.Challenges challengeIndex probe.challenge }
      let logEvent1 := { logEvent with Challenge := probe.challenge }
      let logEvent2 :=
        match probe.err with
        | some e => { logEvent1 with Error := e }
        | none => logEvent1
      { events := probe.events ++ [Event.AuditObject "Validation result" logEvent2,
          Event.NoticeValidations authz1, Event.OnValidationUpdate authz1],
        panicked := false }

/-- The Go method `ValidationAuthorityImpl.UpdateValidations`: the returned error, and the
arguments of each `validate` it starts with `go`. -/
def UpdateValidations (_va : ValidationAuthorityImpl) (authz : Authorization)
    (challengeIndex : Int) : Option String × List (Authorization × Int) :=
  (none, [(authz, challengeIndex)])

/-- The authorizations handed to `RA.OnValidationUpdate` during a run, in order. -/
def callbacks : List Event → List Authorization
  | [] => []
  | Event.OnValidationUpdate authz :: rest => authz :: callbacks rest
  | _ :: rest => callbacks rest

/-- Does the event touch the network? -/
def Event.isNetwork : Event → Bool
  | Event.Do _ _ => true
  | Event.Dial _ _ _ _ => true
  | _ => false

/-! ### Names for values computed inside the validation methods

These restate local variables of the Go methods so that theorems can mention them. -/

/-- The local `hostName` of `validateSimpleHTTPS`. -/
def hostNameOf (va : ValidationAuthorityImpl) (identifier : AcmeIdentifier) : String :=
  if va.TestMode then "localhost:5001" else identifier.Value

/-- The local `url` of `validateSimpleHTTPS`. -/
def urlOf (va : ValidationAuthorityImpl) (identifier : AcmeIdentifier)
    (challenge : Challenge) : String :=
  (if va.TestMode then "http" else "https") ++ "://" ++ hostNameOf va identifier ++
    "/.well-known/acme-challenge/" ++ challenge.Path

/-- The local `client` of `validateSimpleHTTPS`. -/
def clientOf : Client :=
  { Transport :=
      { TLSClientConfig := { ServerName := "", InsecureSkipVerify := true },
        DisableKeepAlives := true },
    Timeout := 5 * Second }

/-- The local `hostPort` of `validateDvsni`. -/
def hostPortOf (va : ValidationAuthorityImpl) (identifier : AcmeIdentifier) : String :=
  if va.TestMode then "localhost:5001" else identifier.Value ++ ":443"

/-- The dialer that `validateDvsni` passes to `tls.DialWithDialer`. -/
def dialerOf : Dialer := { Timeout := 5 * Second }

/-- The TLS configuration that `validateDvsni` passes to `tls.DialWithDialer`. -/
def configOf (challenge : Challenge) : TLSConfig :=
  { ServerName := challenge.Nonce ++ DVSNI_SUFFIX, InsecureSkipVerify := true }

/-- The outcome of the dial of `validateDvsni`. -/
def dialOf (va : ValidationAuthorityImpl) (w : World) (identifier : AcmeIdentifier)
    (challenge : Challenge) : Except String (List x509.Certificate) :=
  w.DialWithDialer dialerOf "tcp" (hostPortOf va identifier) (configOf challenge)

/-- The outcome of the HTTP exchange of `validateSimpleHTTPS`: the request is built, sent
with `Host` set to `hostName`, and answered. -/
def fetchOf (va : ValidationAuthorityImpl) (w : World) (identifier : AcmeIdentifier)
    (challenge : Challenge) : Except String Response :=
  match w.NewRequest "GET" (urlOf va identifier challenge) with
  | .error e => .error e
  | .ok request => w.Do clientOf { request with Host := hostNameOf va identifier }

/-- The probe that `validate` runs on a challenge that passed the sanity check: the
`switch` on the challenge type, which leaves a challenge of another type as it is. -/
def probeOf (va : ValidationAuthorityImpl) (w : World) (identifier : AcmeIdentifier)
    (current : Challenge) : Probe :=
  if current.Type_ = ChallengeTypeSimpleHTTPS then
    validateSimpleHTTPS va w identifier current
  else if current.Type_ = ChallengeTypeDVSNI then
    validateDvsni va w identifier current
  else
    { challenge := current, err := none, events := [] }

/-- The `Error` fields of the audit records of a run, in order. -/
def auditErrors : List Event → List String
  | [] => []
  | Event.AuditObject _ obj :: rest => obj.Error :: auditErrors rest
  | _ :: rest => auditErrors rest

/-- The network events of a run, in order. -/
def networkEvents (events : List Event) : List Event :=
  events.filter Event.isNetwork

/-- Do two outcomes of a network call carry the same answer? Two successes must return
the same value; two failures count as the same answer whatever the texts of their errors
are, since the network library words an error for the endpoint that was used. -/
def sameAnswer {α : Type} [DecidableEq α] : Except String α → Except String α → Bool
  | .ok x, .ok y => x = y
  | .error _, .error _ => true
  | _, _ => false

/-! ## A concrete world and the fixtures of the tests -/

/-- The value of one character of the URL-safe base64 alphabet. -/
def sextet (c : Char) : Option Nat :=
  let v := c.toNat
  if 65 ≤ v ∧ v ≤ 90 then some (v - 65)
  else if 97 ≤ v ∧ v ≤ 122 then some (v - 71)
  else if 48 ≤ v ∧ v ≤ 57 then some (v + 4)
  else if v = 45 then some 62
  else if v = 95 then some 63
  else none

/-- Bytes from base64 digits: four digits give three bytes, a final group of three gives
two, of two gives one; a single left-over digit is an error. -/
def unsextets : List Nat → Option (List Nat)
  | a :: b :: c :: d :: rest =>
    (unsextets rest).map
      (fun tail => (a * 4 + b / 16) :: (b % 16 * 16 + c / 4) :: (c % 4 * 64 + d) :: tail)
  | [a, b, c] => some [a * 4 + b / 16, b % 16 * 16 + c / 4]
  | [a, b] => some [a * 4 + b / 16]
  | [_] => none
  | [] => some []

/-- Unpadded base64url decoding, the `core.B64dec` of the concrete world. -/
def b64dec (s : String) : Except String (List Nat) :=
  match (s.data.mapM sextet).bind unsextets with
  | some decoded => .ok decoded
  | none => .error "illegal base64 data"

/-- A 32-byte stand-in for the digest in the concrete world (a polynomial hash, not
SHA-256 itself: the theorems hold for every `World`, this one only instantiates them). -/
def testSum256 (data : List Nat) : List Nat :=
  (List.range 32).map (fun i =>
    data.foldl (fun h b => (h * 257 + b + 1) % (2 ^ 256 - 189)) 0 / 256 ^ (31 - i) % 256)

/-- The sanity check of the concrete world: a simpleHttps challenge needs a path. -/
def testIsSane (c : Challenge) (_completed : Bool) : Bool :=
  if c.Type_ = ChallengeTypeSimpleHTTPS then c.Path ≠ "" else true

/-- The first challenge of `AuthzInitial` in `registration-authority_test.go`. -/
def challenge0 : Challenge :=
  { Type_ := "simpleHttps", Status := "pending",
    URI := "http://acme.invalid/authz/60p2Dc_XmUB2UUJBV4wYkF7BJbPD9KlDnUL3SmFMuTE?challenge=0",
    Token := "pDX9vBFJ043_gEc9Wyp8of-SqZMN2H3-fvj5iUgP7mg",
    Path := "", R := "", S := "", Nonce := "" }

/-- The second challenge of `AuthzInitial`: the client has not supplied `S` yet. -/
def challenge1 : Challenge :=
  { Type_ := "dvsni", Status := "pending",
    URI := "http://acme.invalid/authz/60p2Dc_XmUB2UUJBV4wYkF7BJbPD9KlDnUL3SmFMuTE?challenge=0",
    Token := "", Path := "",
    R := "AI83O7gCMPDr4z7OIdl8T6axx6nui4HV1aAFQ5LJvVs", S := "",
    Nonce := "f011c9a0ce1a4fe0f18f2252d64c4239" }

/-- The second challenge once the client has answered it with a value `S` (three bytes);
the fixtures of the tests hold no such answer. -/
def challenge1Answered : Challenge := { challenge1 with S := "AQID" }

/-- The decoded `R` of `challenge1`. -/
def challenge1R : List Nat :=
  [0, 143, 55, 59, 184, 2, 48, 240, 235, 227, 62, 206, 33, 217, 124, 79,
   166, 177, 199, 169, 238, 139, 129, 213, 213, 160, 5, 67, 146, 201, 189, 91]

/-- The fixture `AuthzInitial` of `registration-authority_test.go`, with registration 1. -/
def AuthzInitial : Authorization :=
  { ID := "60p2Dc_XmUB2UUJBV4wYkF7BJbPD9KlDnUL3SmFMuTE",
    Identifier := { Type_ := "dns", Value := "not-example.com" },
    RegistrationID := 1, Status := "pending", Expires := 0,
    Challenges := [challenge0, challenge1],
    Combinations := [[0], [1]] }

/-- The fixture `AuthzUpdated`: `AuthzInitial` with the path of the fixture `Response`. -/
def AuthzUpdated : Authorization :=
  { AuthzInitial with
    Challenges := [{ challenge0 with Path := "Hf5GrX4Q7EBax9hc2jJnfw" }, challenge1] }

/-- A concrete world: the subscriber serves the token of `challenge0` over HTTPS and a
certificate for the `zName` of `challenge1Answered` over TLS; every other endpoint is
down. -/
def testWorld : World :=
  { IsSane := testIsSane,
    B64dec := b64dec,
    Sum256 := testSum256,
    Sum256_size := fun _ => by simp [testSum256],
    NewRequest := fun method url => .ok { Method := method, URL := url, Host := "" },
    Do := fun _ req =>
      if req.URL = "https://not-example.com/.well-known/acme-challenge/Hf5GrX4Q7EBax9hc2jJnfw"
      then .ok { StatusCode := 200, Body := { data := bytes challenge0.Token, err := none } }
      else .error "connection refused",
    DialWithDialer := fun _ _ addr _ =>
      if addr = "not-example.com:443"
      then .ok [{ DNSNames := ["not-example.com",
        sprintf064x (testSum256 (challenge1R ++ [1, 2, 3])) ++ ".acme.invalid"] }]
      else .error "connection refused" }

/-- Challenge 0 of `AuthzUpdated`: the simpleHttps challenge with the client path. -/
def challenge0Updated : Challenge := { challenge0 with Path := "Hf5GrX4Q7EBax9hc2jJnfw" }

/-- The concrete world, except that the subscriber answers every request with 404. -/
def notFoundWorld : World :=
  { testWorld with
    Do := fun _ _ => .ok { StatusCode := 404, Body := { data := [], err := none } } }

/-! ## Package `ra`, modelled from the spec

The registration authority is present in `src/` only through its tests, so its
operations are modelled from sections 3, 4.1, 6 and 7 of the specification. -/

/-- The Go type `jose.JsonWebKey` holding an RSA public key: modulus and exponent. -/
structure JsonWebKey where
  N : Nat
  E : Nat
deriving DecidableEq, Repr

/-- The Go type `core.Registration`. -/
structure Registration where
  ID : Int
  Key : JsonWebKey
  RecoveryToken : String
  Contact : List String
  Agreement : String
deriving DecidableEq, Repr

/-- The Go type `x509.CertificateRequest`, with the fields the checks of §4.1.6 read. -/
structure x509.CertificateRequest where
  PublicKey : JsonWebKey
  CommonName : String
  DNSNames : List String
deriving DecidableEq, Repr

/-- The Go type `core.CertificateRequest`. -/
structure core.CertificateRequest where
  CSR : x509.CertificateRequest
  Authorizations : List String
deriving DecidableEq, Repr

/-- The Go type `core.Certificate`. -/
structure core.Certificate where
  DER : List Nat
deriving DecidableEq, Repr

/-- The error kinds of §7. -/
inductive ErrorKind where
  | malformed
  | unauthorized
  | serverInternal
deriving DecidableEq, Repr

/-- The reasons for which the registration authority refuses a request. -/
inductive RAError where
  /-- The key fails the minimum key size policy. -/
  | keyTooSmall
  /-- The key already matches a stored registration. -/
  | keyInUse
  /-- A contact URI has a scheme outside the allowed set. -/
  | contactScheme
  /-- No registration is stored under the requester id. -/
  | noRegistration
  /-- The CSR contains no SAN DNSName. -/
  | csrNoDNSName
  /-- The CSR public key is the account key of the requester. -/
  | keyEqualsAccountKey
  /-- A listed authorization is missing, of another account, not valid, or expired. -/
  | authorizationUnusable (uri : String)
  /-- A name of the CSR is covered by no listed authorization. -/
  | namesNotCovered
  /-- The storage authority reports the CSR as already denied. -/
  | alreadyDenied
  /-- The requester id is not a positive number. -/
  | invalidRegistrationID
  /-- The policy authority is not willing to issue for the identifier. -/
  | policyRefusal (reason : String)
  /-- The authorization to update is not pending. -/
  | notPending
  /-- The authorization to update has no challenge at the index. -/
  | challengeIndexOutOfRange
  /-- The storage authority failed. -/
  | storage (msg : String)
  /-- The CA signer failed. -/
  | signer (msg : String)
deriving DecidableEq, Repr

/-- Modelled from the spec: the kind of each refusal (§4.1 and §7). -/
def RAError.kind : RAError → ErrorKind
  | .keyTooSmall => .malformed
  | .keyInUse => .malformed
  | .contactScheme => .malformed
  | .noRegistration => .malformed
  | .csrNoDNSName => .malformed
  | .keyEqualsAccountKey => .malformed
  | .authorizationUnusable _ => .unauthorized
  | .namesNotCovered => .unauthorized
  | .alreadyDenied => .unauthorized
  | .invalidRegistrationID => .malformed
  | .policyRefusal _ => .unauthorized
  | .notPending => .malformed
  | .challengeIndexOutOfRange => .malformed
  | .storage _ => .serverInternal
  | .signer _ => .serverInternal

/-- Modelled from the spec: the message of a refusal, where the spec fixes its text. -/
def RAError.detail : RAError → Option String
  | .keyInUse => some "key is already in use"
  | .keyEqualsAccountKey => some "Certificate public key must be different than account key"
  | _ => none

/-! ### Keys, tokens and names -/

/-- Big-endian bytes of a natural number; the first argument bounds the number of steps. -/
def bigEndianFuel : Nat → Nat → List Nat → List Nat
  | 0, _, acc => acc
  | fuel + 1, n, acc =>
    if n = 0 then acc else bigEndianFuel fuel (n / 256) (n % 256 :: acc)

/-- Big-endian bytes of a natural number, without leading zeros. -/
def bigEndian (n : Nat) : List Nat := bigEndianFuel n n []

/-- One character of the URL-safe base64 alphabet. -/
def b64char (v : Nat) : Char :=
  if v < 26 then Char.ofNat (65 + v)
  else if v < 52 then Char.ofNat (71 + v)
  else if v < 62 then Char.ofNat (v - 4)
  else if v = 62 then '-'
  else '_'

/-- The base64 digits of a byte sequence, without padding. -/
def b64chars : List Nat → List Char
  | a :: b :: c :: rest =>
    b64char (a / 4) :: b64char (a % 4 * 16 + b / 16) :: b64char (b % 16 * 4 + c / 64) ::
      b64char (c % 64) :: b64chars rest
  | [a, b] => [b64char (a / 4), b64char (a % 4 * 16 + b / 16), b64char (b % 16 * 4)]
  | [a] => [b64char (a / 4), b64char (a % 4 * 16)]
  | [] => []

/-- Unpadded URL-safe base64, the wire format of §6. -/
def b64enc (data : List Nat) : String := ⟨b64chars data⟩

/-- Counting the bits of a natural number; the first argument bounds the number of steps. -/
def bitLenFuel : Nat → Nat → Nat → Nat
  | 0, _, acc => acc
  | fuel + 1, n, acc => if n = 0 then acc else bitLenFuel fuel (n / 2) (acc + 1)

/-- The size of a modulus in bits. -/
def bitLen (n : Nat) : Nat := bitLenFuel n n 0

/-- Modelled from the spec: the key digest of §4.1.7 (package core is not part of src/),
SHA-256 over the canonical JSON of the members `e`, `kty`, `n` of an RSA key, sorted,
with unpadded base64url integers. -/
def KeyDigest (w : World) (key : JsonWebKey) : List Nat :=
  w.Sum256 (bytes ("\x7b\x22e\x22:\x22" ++ b64enc (bigEndian key.E) ++
    "\x22,\x22kty\x22:\x22RSA\x22,\x22n\x22:\x22" ++ b64enc (bigEndian key.N) ++ "\x22\x7d"))

/-- Modelled from the spec: `core.KeyDigestEquals`, the comparison of keys by digest. -/
def KeyDigestEquals (w : World) (a b : JsonWebKey) : Bool :=
  KeyDigest w a = KeyDigest w b

/-- The bytes drawn from the random source: `rng i` is the `i`-th one. -/
def RandomBytes (rng : Nat → Nat) (n : Nat) : List Nat :=
  (List.range n).map (fun i => rng i % 256)

/-- Modelled from the spec: a fresh server token (§4.1.1, §4.1.3: cryptographically random,
at least 128 bits): 32 random bytes in unpadded base64url. -/
def NewToken (rng : Nat → Nat) : String := b64enc (RandomBytes rng 32)

/-- The scheme of a URI: what precedes the first colon. -/
def schemeOf (uri : String) : String := ⟨uri.data.takeWhile (fun c => c ≠ ':')⟩

/-- The authorization id a URI points to: its last path segment. -/
def authzIDOf (uri : String) : String :=
  ⟨(uri.data.reverse.takeWhile (fun c => c ≠ '/')).reverse⟩

/-- Lower-casing, for the case-insensitive comparison of identifier values (§3). -/
def lower (s : String) : String := ⟨s.data.map Char.toLower⟩

/-- Does the string look like a DNS name: non-empty, of letters, digits, hyphens, dots? -/
def isDNSLike (s : String) : Bool :=
  s ≠ "" ∧ s.data.all (fun c => c.isAlphanum || c = '-' || c = '.')

/-- Modelled from the spec: `namesNeeded` of §4.1.6, the SAN DNSNames of the CSR plus the
CN if present and DNS-like. -/
def namesNeeded (csr : x509.CertificateRequest) : List String :=
  csr.DNSNames ++ (if isDNSLike csr.CommonName then [csr.CommonName] else [])

/-! ### The storage authority -/

/-- A certificate as the storage authority keeps it. -/
structure StoredCertificate where
  DER : List Nat
  RegistrationID : Int
deriving DecidableEq, Repr

/-- Modelled from the spec: the state of the storage authority of §2 and §6
(package sa is not part of src/): registrations, pending and finalized authorizations,
certificates, and the name lists of denied CSRs. -/
structure StorageAuthority where
  registrations : List Registration
  pending : List Authorization
  final : List Authorization
  certificates : List StoredCertificate
  denied : List (List String)
deriving DecidableEq, Repr

/-- Modelled from the spec: `SA.GetRegistration(id)`. -/
def StorageAuthority.GetRegistration (sa : StorageAuthority) (id : Int) :
    Option Registration :=
  sa.registrations.find? (fun r => r.ID = id)

/-- Modelled from the spec: `SA.GetRegistrationByKey(jwk)`, a lookup by key digest. -/
def StorageAuthority.GetRegistrationByKey (sa : StorageAuthority) (w : World)
    (key : JsonWebKey) : Option Registration :=
  sa.registrations.find? (fun r => KeyDigestEquals w r.Key key)

/-- Modelled from the spec: `SA.NewRegistration`; the id is the SA's choice, here the
next free row number. -/
def StorageAuthority.NewRegistration (sa : StorageAuthority) (reg : Registration) :
    Registration × StorageAuthority :=
  let stored := { reg with ID := sa.registrations.length + 1 }
  (stored, { sa with registrations := sa.registrations ++ [stored] })

/-- Modelled from the spec: `SA.GetAuthorization(id)`. -/
def StorageAuthority.GetAuthorization (sa : StorageAuthority) (id : String) :
    Option Authorization :=
  match sa.pending.find? (fun a => a.ID = id) with
  | some a => some a
  | none => sa.final.find? (fun a => a.ID = id)

/-- Modelled from the spec: `SA.UpdatePendingAuthorization`; only an authorization that is
still pending can be updated. -/
def StorageAuthority.UpdatePendingAuthorization (sa : StorageAuthority)
    (authz : Authorization) : Option String × StorageAuthority :=
  if sa.pending.any (fun a => a.ID = authz.ID) then
    (none, { sa with pending := sa.pending.map (fun a => if a.ID = authz.ID then authz else a) })
  else (some "no pending authorization with this id", sa)

/-- Modelled from the spec: `SA.FinalizeAuthorization`, the one-shot move of a pending
authorization to the finalized ones; a second call changes nothing. -/
def StorageAuthority.FinalizeAuthorization (sa : StorageAuthority)
    (authz : Authorization) : Option String × StorageAuthority :=
  if sa.pending.any (fun a => a.ID = authz.ID) then
    (none, { sa with
      pending := sa.pending.filter (fun a => a.ID ≠ authz.ID),
      final := authz :: sa.final })
  else (some "no pending authorization with this id", sa)

/-- Modelled from the spec: `SA.AlreadyDeniedCSR(names)`. -/
def StorageAuthority.AlreadyDeniedCSR (sa : StorageAuthority) (names : List String) : Bool :=
  sa.denied.contains names

/-- Modelled from the spec: `SA.AddCertificate(der, regID)`. -/
def StorageAuthority.AddCertificate (sa : StorageAuthority) (der : List Nat) (regID : Int) :
    StorageAuthority :=
  { sa with certificates := sa.certificates ++ [{ DER := der, RegistrationID := regID }] }

/-! ### The registration authority -/

/-- The Go type `RegistrationAuthorityImpl`: its configuration and its CA signer
`Issue(csr, regID, earliestExpiry)`. -/
structure RegistrationAuthorityImpl where
  AuthzBase : String
  MinKeySize : Nat
  ValidityPeriod : Nat
  ContactSchemes : List String
  IssueCertificate : x509.CertificateRequest → Int → Nat → Except String core.Certificate

/-- Modelled from the spec: the minimum key size policy of §3. -/
def GoodKey (ra : RegistrationAuthorityImpl) (key : JsonWebKey) : Bool :=
  ra.MinKeySize ≤ bitLen key.N

/-- Modelled from the spec: the contact check of §4.1.1. -/
def validateContacts (ra : RegistrationAuthorityImpl) (contacts : List String) : Bool :=
  contacts.all (fun uri => ra.ContactSchemes.contains (schemeOf uri))

/-- Modelled from the spec: `RegistrationAuthorityImpl.NewRegistration` (§4.1.1), whose
source is not part of src/. The agreement is stored as supplied: the test
`TestNewRegistrationNoFieldOverwrite` has the RA accept an agreement that is not the terms
URI, whose check belongs to the front end. -/
def NewRegistration (ra : RegistrationAuthorityImpl) (w : World) (rng : Nat → Nat)
    (sa : StorageAuthority) (input : Registration) :
    Except RAError (Registration × StorageAuthority) :=
  if !GoodKey ra input.Key then .error .keyTooSmall
  else if (sa.GetRegistrationByKey w input.Key).isSome then .error .keyInUse
  else
    let reg : Registration :=
      { ID := 0, Key := input.Key, RecoveryToken := NewToken rng,
        Contact := input.Contact, Agreement := input.Agreement }
    if !validateContacts ra reg.Contact then .error .contactScheme
    else .ok (sa.NewRegistration reg)

/-- Are all the challenges that a combination names valid? An index outside the
challenge list names no valid challenge. -/
def combinationValid (challenges : List Challenge) (combination : List Int) : Bool :=
  combination.all (fun i =>
    match index? challenges i with
    | some c => c.Status = StatusValid
    | none => false)

/-- Modelled from the spec: `RegistrationAuthorityImpl.OnValidationUpdate` (§4.1.5), whose
source is not part of src/; `now` is the value of `time.Now()`. -/
def OnValidationUpdate (ra : RegistrationAuthorityImpl) (now : Nat) (sa : StorageAuthority)
    (authz : Authorization) : Option String × StorageAuthority :=
  if authz.Challenges.any (fun c => c.Status = StatusInvalid) then
    sa.FinalizeAuthorization { authz with Status := StatusInvalid }
  else if authz.Combinations.any (combinationValid authz.Challenges) then
    sa.FinalizeAuthorization
      { authz with Status := StatusValid, Expires := now + ra.ValidityPeriod }
  else
    sa.UpdatePendingAuthorization { authz with Status := StatusPending }

/-- Modelled from the spec: check 3 of §4.1.6; each listed authorization must exist,
belong to the requester, be valid and not be expired. -/
def resolveAuthorizations (sa : StorageAuthority) (now : Nat) (regID : Int) :
    List String → Except RAError (List Authorization)
  | [] => .ok []
  | uri :: rest =>
    match sa.GetAuthorization (authzIDOf uri) with
    | none => .error (.authorizationUnusable uri)
    | some authz =>
      if authz.RegistrationID = regID ∧ authz.Status = StatusValid ∧ now < authz.Expires then
        match resolveAuthorizations sa now regID rest with
        | .ok resolved => .ok (authz :: resolved)
        | .error e => .error e
      else .error (.authorizationUnusable uri)

/-- Is the name, compared case-insensitively, the identifier value of one of these? -/
def nameCovered (authzs : List Authorization) (name : String) : Bool :=
  authzs.any (fun a => lower a.Identifier.Value = lower name)

/-- The earliest expiry of check 6 of §4.1.6. -/
def earliestExpiry : List Authorization → Nat
  | [] => 0
  | [a] => a.Expires
  | a :: rest => min a.Expires (earliestExpiry rest)

/-- Modelled from the spec: `RegistrationAuthorityImpl.NewCertificate` (§4.1.6), whose
source is not part of src/: the ordered checks 1 to 7. -/
def NewCertificate (ra : RegistrationAuthorityImpl) (w : World) (now : Nat)
    (sa : StorageAuthority) (req : core.CertificateRequest) (regID : Int) :
    Except RAError (core.Certificate × StorageAuthority) :=
  if !GoodKey ra req.CSR.PublicKey then .error .keyTooSmall
  else if req.CSR.DNSNames = [] then .error .csrNoDNSName
  else
    match sa.GetRegistration regID with
    | none => .error .noRegistration
    | some registration =>
      if KeyDigestEquals w req.CSR.PublicKey registration.Key then
        .error .keyEqualsAccountKey
      else
        match resolveAuthorizations sa now regID req.Authorizations with
        | .error e => .error e
        | .ok authzs =>
          if !(namesNeeded req.CSR).all (nameCovered authzs) then .error .namesNotCovered
          else if sa.AlreadyDeniedCSR (namesNeeded req.CSR) then .error .alreadyDenied
          else
            match ra.IssueCertificate req.CSR regID (earliestExpiry authzs) with
            | .error msg => .error (.signer msg)
            | .ok cert => .ok (cert, sa.AddCertificate cert.DER regID)

/-! ### The fixtures of `registration-authority_test.go` -/

/-- The fixture `AccountKeyA`. -/
def AccountKeyA : JsonWebKey :=
  { N := 26634547600177008912365441464036882611104634136430581696102639463075266436216946316053845642300166320042915031924501272705275043130211783228252369194856949397782880847235143381529207382262647906987655738647387007320361149854766523417293323739185308113373529512728932838100141612048712597178695720651344295450174895369923383396704334331627261565907266749863744707920606364678231639106403854977302183719246256958550651555767664134467706614553219592981545363271425781391262006405169505726523023628770285432062044391310047445749287563161668548354322560223509946990827691654627968182167826397015368836435965354956581554819,
    E := 65537 }

/-- The fixture `AccountKeyC`. -/
def AccountKeyC : JsonWebKey :=
  { N := 21753411770443700028128104451203955596002614055171743921354349183123211406964791087297790890687279100652324924441513929216578802244560688630684175537968859689364722159425540311148774350859048210768969611497972830985288681991595583128870908707076690115502537774514850221226612338957537518786232525877961243088070154484894610340206681843648953662997846014701203814850279963270956672302391517153161294331904999265668510204241671108635834034980973755866932867515292308885237195866591888849498135662714924440247175435233477735969893426139417009201467622842609969513909590578743970165869264118596714144899734670032122635013,
    E := 65537 }

/-- The public key of the fixture `ExampleCSR`: the modulus in the active `CSR_HEX`. -/
def ExampleCSRKey : JsonWebKey :=
  { N := 20823910864165206925826520201853748815115791471262037366051164086132666742717155718477392104031045543549512477087925406708568488544244385919930918281185378539212995465226944564481952295848777530341824024556797037923833520540734086463188212992998815361892415336179899831640197727806576374459472224582574804750016286042289519916259509234039651792402641679012378584843482854792737938388619085326163154552994000490905468901492610536647725789157257258933955296138598802141993154839937629555712688951272460173305172221847790771101616979237196969553485428438354551241343358854749879772707412177805773710820513269032108460059,
    E := 65537 }

/-- The fixture `ExampleCSR`: CN not-example.com, names not-example.com and
www.not-example.com. -/
def ExampleCSR : x509.CertificateRequest :=
  { PublicKey := ExampleCSRKey, CommonName := "not-example.com",
    DNSNames := ["not-example.com", "www.not-example.com"] }

/-- The registration authority of `initAuthorities`, with the defaults of the spec: keys
of at least 2048 bits, authorizations valid for a year, contacts by mail or telephone;
its signer wraps the modulus of the CSR key. -/
def testRA : RegistrationAuthorityImpl :=
  { AuthzBase := "http://acme.invalid/authz/",
    MinKeySize := 2048,
    ValidityPeriod := 365 * 24 * 3600 * Second,
    ContactSchemes := ["mailto", "tel"],
    IssueCertificate := fun csr _ _ => .ok { DER := 48 :: 130 :: bigEndian csr.PublicKey.N } }

/-- The clock of the fixtures. -/
def testNow : Nat := 1430000000 * Second

/-- The storage of `initAuthorities`: the registration with id 1 and key `AccountKeyA`. -/
def testSA : StorageAuthority :=
  { registrations :=
      [{ ID := 1, Key := AccountKeyA, RecoveryToken := "", Contact := [], Agreement := "" }],
    pending := [], final := [], certificates := [], denied := [] }

/-- The authorization `authzFromVA` of `TestOnValidationUpdate`: `AuthzUpdated` after a
successful simpleHttps challenge. -/
def authzFromVA : Authorization :=
  { AuthzUpdated with
    Challenges := [{ challenge0Updated with Status := StatusValid }, challenge1] }

/-- The fixture `AuthzFinal`: valid for a year from the clock of the fixtures. -/
def AuthzFinal : Authorization :=
  { authzFromVA with Status := "valid", Expires := testNow + 365 * 24 * 3600 * Second }

/-- The input of `TestNewRegistrationNoFieldOverwrite`. -/
def registrationInput : Registration :=
  { ID := 23, Key := AccountKeyC, RecoveryToken := "RecoverMe",
    Contact := ["mailto:foo@letsencrypt.org"], Agreement := "I agreed" }

/-- The CSR of `TestCertificateKeyNotEqualAccountKey`: its key is `AccountKeyA`, the key of
registration 1. -/
def accountKeyCSR : x509.CertificateRequest :=
  { PublicKey := AccountKeyA, CommonName := "", DNSNames := ["www.example.com"] }

/-- The storage of `TestAuthorizationRequired`: registration 1 and the finalized
authorization `AuthzFinal` for not-example.com. -/
def testSAFinal : StorageAuthority := { testSA with final := [AuthzFinal] }

/-- The request of `TestAuthorizationRequired`: `ExampleCSR`, which asks for
not-example.com and www.not-example.com, with the one authorization `AuthzFinal`. -/
def requestOneAuthorization : core.CertificateRequest :=
  { CSR := ExampleCSR,
    Authorizations := ["http://doesnt.matter/60p2Dc_XmUB2UUJBV4wYkF7BJbPD9KlDnUL3SmFMuTE"] }

/-- A random source that only draws zeros. -/
def zeroRng : Nat → Nat := fun _ => 0

/-- The input of `TestNewRegistrationNoFieldOverwrite`, but supplying as recovery token
the very string that the zero source generates. -/
def guessingInput : Registration :=
  { registrationInput with RecoveryToken := "AAAAAAAAAAAAAAAAAAAAAAAAAAAAAAAAAAAAAAAAAAA" }

/-! ### Updates of registrations and authorizations, new authorizations -/

/-- Modelled from the spec: `SA.UpdateRegistration`; the registration stored under the id
is replaced. -/
def StorageAuthority.UpdateRegistration (sa : StorageAuthority) (reg : Registration) :
    Option String × StorageAuthority :=
  if sa.registrations.any (fun r => r.ID = reg.ID) then
    (none, { sa with
      registrations := sa.registrations.map (fun r => if r.ID = reg.ID then reg else r) })
  else (some "no registration with this id", sa)

/-- Modelled from the spec: `SA.NewPendingAuthorization`, which stores the authorization as
pending and returns it. As in the tests (`TestNewCertificate` stores two authorizations
that it built with one id and then refers to them by the ids returned), the id is given
by the storage authority: a fresh token. -/
def StorageAuthority.NewPendingAuthorization (sa : StorageAuthority) (rng : Nat → Nat)
    (authz : Authorization) : Authorization × StorageAuthority :=
  let stored := { authz with ID := NewToken rng }
  (stored, { sa with pending := sa.pending ++ [stored] })

/-- Modelled from the spec: the field-merge policy of §4.1.2; a contact list and an
agreement that the update supplies replace those of the base, nothing else changes. -/
def MergeUpdate (base updates : Registration) : Registration :=
  { base with
    Contact := if updates.Contact = [] then base.Contact else updates.Contact,
    Agreement := if updates.Agreement = "" then base.Agreement else updates.Agreement }

/-- Modelled from the spec: `RegistrationAuthorityImpl.UpdateRegistration` (§4.1.2), whose
source is not part of src/. As on creation, the agreement is stored as supplied: the terms
check is made by the front end (`TestRegistration`, with a mock RA). -/
def UpdateRegistration (sa : StorageAuthority) (base updates : Registration) :
    Except RAError (Registration × StorageAuthority) :=
  match sa.UpdateRegistration (MergeUpdate base updates) with
  | (none, sa1) => .ok (MergeUpdate base updates, sa1)
  | (some msg, _) => .error (.storage msg)

/-- Modelled from the spec: the merge of a client response into a challenge (§4.1.4); a
simpleHttps challenge takes the path, a dvsni challenge takes `S`, nothing else changes. -/
def MergeResponse (current response : Challenge) : Challenge :=
  if current.Type_ = ChallengeTypeSimpleHTTPS then { current with Path := response.Path }
  else if current.Type_ = ChallengeTypeDVSNI then { current with S := response.S }
  else current

/-- Modelled from the spec: `RegistrationAuthorityImpl.UpdateAuthorization` (§4.1.4), whose
source is not part of src/. The third component of the result lists the calls
`VA.UpdateValidations(authz, challengeIndex)` that it makes. -/
def UpdateAuthorization (sa : StorageAuthority) (existing : Authorization)
    (challengeIndex : Int) (response : Challenge) :
    Except RAError (Authorization × StorageAuthority × List (Authorization × Int)) :=
  if existing.Status ≠ StatusPending then .error .notPending
  else
    match index? existing.Challenges challengeIndex with
    | none => .error .challengeIndexOutOfRange
    | some current =>
      let authz :=
        { existing with
          Challenges := setIndex existing.Challenges challengeIndex
            (MergeResponse current response) }
      match sa.UpdatePendingAuthorization authz with
      | (some msg, _) => .error (.storage msg)
      | (none, sa1) => .ok (authz, sa1, [(authz, challengeIndex)])

/-- The policy authority of §6: an external collaborator. `WillingToIssue` answers `none`
when it accepts the identifier and `some reason` when it refuses. -/
structure PolicyAuthority where
  WillingToIssue : AcmeIdentifier → Option String
  ChallengesFor : AcmeIdentifier → List Challenge × List (List Int)

/-- The random source, moved on by `n` draws. -/
def shift (rng : Nat → Nat) (n : Nat) : Nat → Nat := fun i => rng (n + i)

/-- Modelled from the spec: the server-side material of a challenge (§4.1.3); a
simpleHttps challenge gets a token of 32 random bytes in unpadded base64url, a dvsni
challenge gets `R`, 32 random bytes in base64url, and a nonce, 16 random bytes in
hexadecimal. -/
def withMaterial (rng : Nat → Nat) (c : Challenge) : Challenge :=
  if c.Type_ = ChallengeTypeSimpleHTTPS then { c with Token := NewToken rng }
  else if c.Type_ = ChallengeTypeDVSNI then
    { c with R := NewToken rng, Nonce := ⟨hex (RandomBytes (shift rng 32) 16)⟩ }
  else c

/-- The challenges of a new authorization: each with its material, drawn from its own
stretch of the random source, and with the URI `<AuthzBase><id>?challenge=<index>`. -/
def prepareChallenges (authzBase id : String) (rng : Nat → Nat) :
    Nat → List Challenge → List Challenge
  | _, [] => []
  | i, c :: rest =>
    { withMaterial (shift rng (48 * i)) c with
      URI := authzBase ++ id ++ "?challenge=" ++ toString i } ::
      prepareChallenges authzBase id rng (i + 1) rest

/-- Modelled from the spec: `RegistrationAuthorityImpl.NewAuthorization` (§4.1.3), whose
source is not part of src/. The first 32 draws of the random source make the id, the
following ones the material of the challenges. -/
def NewAuthorization (ra : RegistrationAuthorityImpl) (pa : PolicyAuthority)
    (rng : Nat → Nat) (sa : StorageAuthority) (request : Authorization) (regID : Int) :
    Except RAError (Authorization × StorageAuthority) :=
  if regID ≤ 0 then .error .invalidRegistrationID
  else
    match pa.WillingToIssue request.Identifier with
    | some reason => .error (.policyRefusal reason)
    | none =>
      let fresh : Authorization :=
        { ID := "", RegistrationID := regID, Identifier := request.Identifier,
          Status := StatusPending, Expires := 0,
          Challenges := (pa.ChallengesFor request.Identifier).1,
          Combinations := (pa.ChallengesFor request.Identifier).2 }
      let stored := sa.NewPendingAuthorization rng fresh
      let authz :=
        { stored.1 with
          Challenges := prepareChallenges ra.AuthzBase stored.1.ID (shift rng 32) 0
            stored.1.Challenges }
      match stored.2.UpdatePendingAuthorization authz with
      | (some msg, _) => .error (.storage msg)
      | (none, sa1) => .ok (authz, sa1)

/-! ### More fixtures of `registration-authority_test.go` -/

/-- The fixture `ShortKey`: a modulus of 656 bits. -/
def ShortKey : JsonWebKey :=
  { N := 211606580314137919824043818271628651322784923690571347047504165648039497679284546706187229307413046286696348141923574204515511382186931943218659274687587790959554863554995470967755397622114539169379,
    E := 65537 }

/-- The registration that `TestNewRegistrationNoFieldOverwrite` obtains and then updates:
stored under id 2, with the key `AccountKeyC` and a server token. -/
def registrationC : Registration :=
  { ID := 2, Key := AccountKeyC, RecoveryToken := NewToken zeroRng,
    Contact := ["mailto:foo@letsencrypt.org"], Agreement := "I agreed" }

/-- The storage after that registration. -/
def testSATwo : StorageAuthority :=
  { testSA with registrations := testSA.registrations ++ [registrationC] }

/-- The update of `TestNewRegistrationNoFieldOverwrite`: another id, the short key,
another recovery token. -/
def registrationUpdate : Registration :=
  { ID := 33, Key := ShortKey, RecoveryToken := "RecoverMe2", Contact := [],
    Agreement := "" }

/-- The input of `TestNewRegistrationBadKey`. -/
def shortKeyInput : Registration :=
  { ID := 0, Key := ShortKey, RecoveryToken := "",
    Contact := ["mailto:foo@letsencrypt.org"], Agreement := "" }

/-- The fixture `Response` of `TestUpdateAuthorization`. -/
def Response0 : Challenge := { Challenge.zero with Path := "Hf5GrX4Q7EBax9hc2jJnfw" }

/-- The storage of `TestUpdateAuthorization`: `AuthzInitial` is pending. -/
def testSAPending : StorageAuthority := { testSA with pending := [AuthzInitial] }

/-- The fixture `AuthzRequest`. -/
def AuthzRequest : Authorization :=
  { ID := "", RegistrationID := 0,
    Identifier := { Type_ := IdentifierDNS, Value := "not-example.com" },
    Status := "", Expires := 0, Challenges := [], Combinations := [] }

/-- The default policy: every identifier is accepted and gets a simpleHttps and a dvsni
challenge, either of which suffices. -/
def testPA : PolicyAuthority :=
  { WillingToIssue := fun _ => none,
    ChallengesFor := fun _ =>
      ([{ Challenge.zero with Type_ := ChallengeTypeSimpleHTTPS, Status := StatusPending },
        { Challenge.zero with Type_ := ChallengeTypeDVSNI, Status := StatusPending }],
       [[0], [1]]) }

/-! ## The sanity gate, modelled from the spec

The method `core.Challenge.IsSane` is not part of `src/`; §4.2.2 of the specification says
what it checks for the two challenge types. -/

/-- The value of one hexadecimal digit, of either case. -/
def hexVal (c : Char) : Option Nat :=
  let v := c.toNat
  if 48 ≤ v ∧ v ≤ 57 then some (v - 48)
  else if 97 ≤ v ∧ v ≤ 102 then some (v - 87)
  else if 65 ≤ v ∧ v ≤ 70 then some (v - 55)
  else none

/-- Bytes from hexadecimal digits, two per byte; an odd number of digits is an error. -/
def unhex : List Nat → Option (List Nat)
  | a :: b :: rest => (unhex rest).map (fun tail => (a * 16 + b) :: tail)
  | [_] => none
  | [] => some []

/-- Hexadecimal decoding of a string. -/
def hexdec (s : String) : Option (List Nat) := (s.data.mapM hexVal).bind unhex

/-- The byte lengths that the sanity gate expects of the decoded `R`, `S` and nonce. -/
structure DvsniLengths where
  R : Nat
  S : Nat
  Nonce : Nat
deriving DecidableEq, Repr

/-- The lengths of §4.1.3: `R` has 32 bytes and the nonce 16; `S` is taken as long as `R`. -/
def defaultLengths : DvsniLengths := { R := 32, S := 32, Nonce := 16 }

/-- Does the base64url string decode to exactly `n` bytes? -/
def decodesTo (B64dec : String → Except String (List Nat)) (s : String) (n : Nat) : Bool :=
  match B64dec s with
  | .ok decoded => decoded.length = n
  | .error _ => false

/-- Does the hexadecimal string decode to exactly `n` bytes? -/
def hexDecodesTo (s : String) (n : Nat) : Bool :=
  match hexdec s with
  | some decoded => decoded.length = n
  | none => false

/-- Is every character of the string safe in a URL path segment? -/
def urlSafe (s : String) : Bool :=
  s.data.all (fun c => c.isAlphanum || c = '-' || c = '_' || c = '.' || c = '~')

/-- Modelled from the spec: what `core.Challenge.IsSane` checks of a simpleHttps challenge
(§4.2.2): the path is non-empty and URL-safe. -/
def saneSimpleHTTPS (c : Challenge) : Bool :=
  c.Path ≠ "" ∧ urlSafe c.Path

/-- Modelled from the spec: what `core.Challenge.IsSane` checks of a dvsni challenge
(§4.2.2): `R`, `S` and the nonce decode correctly and have the expected lengths. -/
def saneDvsni (lengths : DvsniLengths) (B64dec : String → Except String (List Nat))
    (c : Challenge) : Bool :=
  decodesTo B64dec c.R lengths.R && decodesTo B64dec c.S lengths.S &&
    hexDecodesTo c.Nonce lengths.Nonce

/-- The concrete world with the sanity gate of the spec. -/
def saneWorld : World :=
  { testWorld with
    IsSane := fun c _ =>
      if c.Type_ = ChallengeTypeSimpleHTTPS then saneSimpleHTTPS c
      else if c.Type_ = ChallengeTypeDVSNI then saneDvsni defaultLengths b64dec c
      else true }

/-! ## Package `wfe`, modelled from the spec

The web front end is present in `src/` only through its tests, so the handlers below are
modelled from §4.3 of the specification and from the answers that
`web-front-end_test.go` expects. Each handler tests the method, authenticates the request
(§4.3.1: the JWS, then the payload), resolves the signer key (§4.3.2) and calls the
registration authority. -/

/-- An incoming HTTP request: its method and its body (`none`: no body). -/
structure WebRequest where
  Method : String
  Body : Option String
deriving DecidableEq, Repr

/-- What the front end relies on without defining it: the JWS and JSON libraries. -/
structure WebWorld where
  /-- Reading a body as a flattened JWS and verifying it against the key of its `jwk`
  header (§4.3.1): the signer key and the payload, or `none` when a step fails. -/
  verifyJWS : String → Option (JsonWebKey × String)
  /-- The call `json.Unmarshal(payload, &registration)`; `none` is an error. -/
  unmarshalRegistration : String → Option Registration
  /-- The call `json.Unmarshal(payload, &authorization)`; `none` is an error. -/
  unmarshalAuthorization : String → Option Authorization
  /-- The call `json.Unmarshal(payload, &certificateRequest)`; `none` is an error. -/
  unmarshalCertificateRequest : String → Option core.CertificateRequest

/-- The answers of the front end. -/
inductive WebResponse where
  /-- A problem document `urn:acme:error:<kind>` with a detail. -/
  | problem (kind : ErrorKind) (detail : String)
  /-- The problem document for a refusal of the registration authority. -/
  | refused (e : RAError)
  /-- The answer 201 to new-reg: the registration, with its `Location` and `Link`. -/
  | registrationCreated (reg : Registration)
  /-- The answer 200 to a registration update: the updated registration. -/
  | registrationUpdated (reg : Registration)
  /-- The answer 201 to new-authz: the authorization, with its `Location` and `Link`. -/
  | authorizationCreated (authz : Authorization)
  /-- The answer 201 to new-cert: the certificate, with its `Location` and `Link`. -/
  | certificateIssued (cert : core.Certificate)
deriving DecidableEq, Repr

/-- The name of an error kind in `urn:acme:error:<kind>`. -/
def ErrorKind.name : ErrorKind → String
  | .malformed => "malformed"
  | .unauthorized => "unauthorized"
  | .serverInternal => "serverInternal"

/-- Modelled from the spec: the problem document of §4.3.3, the JSON text with the members
`type` and `detail`. -/
def problemDocument (kind : ErrorKind) (detail : String) : String :=
  "\x7b\x22type\x22:\x22urn:acme:error:" ++ kind.name ++ "\x22,\x22detail\x22:\x22" ++
    detail ++ "\x22\x7d"

/-- The body of a response that is a problem of the front end itself. -/
def WebResponse.document : WebResponse → Option String
  | .problem kind detail => some (problemDocument kind detail)
  | _ => none

/-- The Go type `WebFrontEndImpl`: the current terms URI and the registration authority. -/
structure WebFrontEndImpl where
  SubscriberAgreementURL : String
  RA : RegistrationAuthorityImpl

/-- The detail of the refusal of an agreement that is not the current terms URI. -/
def agreementDetail (supplied current : String) : String :=
  "Provided agreement URL [" ++ supplied ++ "] does not match current agreement URL [" ++
    current ++ "]"

/-- Modelled from the spec: request authentication (§4.3.1), whose source is not part of
src/. The body is read and verified as a JWS, which gives the signer key, and the payload
is parsed with the parser of the endpoint; `what` completes the detail "Error
unmarshaling …" of the endpoint. -/
def authenticate {α : Type} (ww : WebWorld) (unmarshal : String → Option α) (what : String)
    (request : WebRequest) : Except (ErrorKind × String) (JsonWebKey × α) :=
  match request.Body.bind ww.verifyJWS with
  | none => .error (.malformed, "Unable to read/verify body")
  | some (key, payload) =>
    match unmarshal payload with
    | none => .error (.malformed, "Error unmarshaling " ++ what)
    | some parsed => .ok (key, parsed)

/-- Modelled from the spec: registration resolution (§4.3.2) for the endpoints that act on
a specific registration. -/
def resolveRegistration (w : World) (sa : StorageAuthority) (key : JsonWebKey) :
    Except (ErrorKind × String) Registration :=
  match sa.GetRegistrationByKey w key with
  | none => .error (.unauthorized, "No registration exists matching provided key")
  | some registration => .ok registration

/-- Modelled from the spec: `WebFrontEndImpl.NewRegistration` (§4.3, §4.1.1), whose source
is not part of src/. In order: the method, the authentication of the request (§4.3.1), the
resolution of the signer key (§4.3.2), the agreement, and the call of the registration
authority with the signer key as the key of the registration. -/
def WebFrontEndImpl.NewRegistration (wfe : WebFrontEndImpl) (ww : WebWorld) (w : World)
    (rng : Nat → Nat) (sa : StorageAuthority) (request : WebRequest) :
    WebResponse × StorageAuthority :=
  if request.Method ≠ "POST" then (.problem .malformed "Method not allowed", sa)
  else
    match authenticate ww ww.unmarshalRegistration "JSON" request with
    | .error (kind, detail) => (.problem kind detail, sa)
    | .ok (key, init) =>
      if (sa.GetRegistrationByKey w key).isSome then
        (.problem .malformed "Registration key is already in use", sa)
      else if init.Agreement ≠ "" ∧ init.Agreement ≠ wfe.SubscriberAgreementURL then
        (.problem .malformed
          (agreementDetail init.Agreement wfe.SubscriberAgreementURL), sa)
      else
        match Boulder.NewRegistration wfe.RA w rng sa { init with Key := key } with
        | .error e => (.refused e, sa)
        | .ok (reg, sa1) => (.registrationCreated reg, sa1)

/-- Modelled from the spec: `WebFrontEndImpl.Registration` (§4.3), the update of a
registration, whose source is not part of src/. The spec fixes the beginning "Error
unmarshaling" of the detail for a payload that does not parse; "registration" completes
it here. The agreement is checked as on creation (`TestRegistration`). -/
def WebFrontEndImpl.Registration (wfe : WebFrontEndImpl) (ww : WebWorld) (w : World)
    (sa : StorageAuthority) (request : WebRequest) : WebResponse × StorageAuthority :=
  if request.Method ≠ "POST" then (.problem .malformed "Method not allowed", sa)
  else
    match authenticate ww ww.unmarshalRegistration "registration" request with
    | .error (kind, detail) => (.problem kind detail, sa)
    | .ok (key, update) =>
      match resolveRegistration w sa key with
      | .error (kind, detail) => (.problem kind detail, sa)
      | .ok current =>
        if update.Agreement ≠ "" ∧ update.Agreement ≠ wfe.SubscriberAgreementURL then
          (.problem .malformed
            (agreementDetail update.Agreement wfe.SubscriberAgreementURL), sa)
        else
          match Boulder.UpdateRegistration sa current update with
          | .error e => (.refused e, sa)
          | .ok (reg, sa1) => (.registrationUpdated reg, sa1)

/-- Modelled from the spec: `WebFrontEndImpl.NewAuthorization` (§4.3, §4.1.3), whose
source is not part of src/. The registration authority is called with the id of the
registration of the signer key. -/
def WebFrontEndImpl.NewAuthorization (wfe : WebFrontEndImpl) (ww : WebWorld) (w : World)
    (pa : PolicyAuthority) (rng : Nat → Nat) (sa : StorageAuthority) (request : WebRequest) :
    WebResponse × StorageAuthority :=
  if request.Method ≠ "POST" then (.problem .malformed "Method not allowed", sa)
  else
    match authenticate ww ww.unmarshalAuthorization "JSON" request with
    | .error (kind, detail) => (.problem kind detail, sa)
    | .ok (key, init) =>
      match resolveRegistration w sa key with
      | .error (kind, detail) => (.problem kind detail, sa)
      | .ok current =>
        match Boulder.NewAuthorization wfe.RA pa rng sa init current.ID with
        | .error e => (.refused e, sa)
        | .ok (authz, sa1) => (.authorizationCreated authz, sa1)

/-- Modelled from the spec: `WebFrontEndImpl.NewCertificate` (§4.3, §4.1.6), whose source
is not part of src/. The registration authority is called with the id of the registration
of the signer key. -/
def WebFrontEndImpl.NewCertificate (wfe : WebFrontEndImpl) (ww : WebWorld) (w : World)
    (now : Nat) (sa : StorageAuthority) (request : WebRequest) :
    WebResponse × StorageAuthority :=
  if request.Method ≠ "POST" then (.problem .malformed "Method not allowed", sa)
  else
    match authenticate ww ww.unmarshalCertificateRequest "certificate request" request with
    | .error (kind, detail) => (.problem kind detail, sa)
    | .ok (key, init) =>
      match resolveRegistration w sa key with
      | .error (kind, detail) => (.problem kind detail, sa)
      | .ok current =>
        match Boulder.NewCertificate wfe.RA w now sa init current.ID with
        | .error e => (.refused e, sa)
        | .ok (cert, sa1) => (.certificateIssued cert, sa1)

/-- The constant `agreementURL` of `web-front-end_test.go`. -/
def agreementURL : String := "http://example.invalid/terms"

/-- The front end of `setupWFE`, with the registration authority of the fixtures. -/
def testWFE : WebFrontEndImpl := { SubscriberAgreementURL := agreementURL, RA := testRA }

/-- A registration payload with a telephone contact and the given agreement. -/
def payloadWith (agreement : String) : Registration :=
  { ID := 0, Key := { N := 0, E := 0 }, RecoveryToken := "",
    Contact := ["tel:123456789"], Agreement := agreement }

/-- The libraries of the concrete world. Well-signed bodies under the key `AccountKeyC`,
which is not registered, carry the payloads of `TestNewRegistration` (a wrong agreement,
the current terms, the text foo) and one without agreement; well-signed bodies under
`AccountKeyA`, the key of registration 1, carry the current terms, the text foo, an
authorization request and a certificate request; nothing else verifies. -/
def testWeb : WebWorld :=
  { verifyJWS := fun body =>
      if body = "signed:im-bad" then some (AccountKeyC, "im-bad")
      else if body = "signed:terms" then some (AccountKeyC, "terms")
      else if body = "signed:none" then some (AccountKeyC, "none")
      else if body = "signed:foo" then some (AccountKeyC, "foo")
      else if body = "signed by A:terms" then some (AccountKeyA, "terms")
      else if body = "signed by A:foo" then some (AccountKeyA, "foo")
      else if body = "signed by A:authz" then some (AccountKeyA, "authz")
      else if body = "signed by A:cert" then some (AccountKeyA, "cert")
      else none,
    unmarshalRegistration := fun payload =>
      if payload = "im-bad" then some (payloadWith "https://letsencrypt.org/im-bad")
      else if payload = "terms" then some (payloadWith agreementURL)
      else if payload = "none" then some (payloadWith "")
      else none,
    unmarshalAuthorization := fun payload =>
      if payload = "authz" then some AuthzRequest else none,
    unmarshalCertificateRequest := fun payload =>
      if payload = "cert" then some requestOneAuthorization else none }

/-! ### More concrete worlds for the validation authority -/

/-- The concrete world, except that the subscriber answers every request with 200 and the
given body. -/
def bodyWorld (data : List Nat) : World :=
  { testWorld with
    Do := fun _ _ => .ok { StatusCode := 200, Body := { data := data, err := none } } }

/-- A token of `n` letters. -/
def longToken (n : Nat) : String := ⟨List.replicate n 'a'⟩

/-- The concrete world, except that the subscriber presents a chain of two certificates:
the first for its own name only, the second carrying the `zName` of
`challenge1Answered`. -/
def chainWorld : World :=
  { testWorld with
    DialWithDialer := fun _ _ _ _ =>
      .ok [{ DNSNames := ["not-example.com"] },
        { DNSNames := [sprintf064x (testSum256 (challenge1R ++ [1, 2, 3])) ++
            ".acme.invalid"] }] }

/-- A challenge of a type that the validation authority has no probe for, as the one of
`TestChallenge` in `web-front-end_test.go`, pending. -/
def challengeDNS : Challenge :=
  { Challenge.zero with
    Type_ := "dns", Status := StatusPending, URI := "/acme/authz/asdf?challenge=foo" }

/-- The authorization of `TestChallenge`, with that challenge. -/
def AuthzOther : Authorization :=
  { ID := "asdf", Identifier := { Type_ := "dns", Value := "letsencrypt.org" },
    RegistrationID := 1, Status := StatusPending, Expires := 0,
    Challenges := [challengeDNS], Combinations := [] }

/-- The concrete world, except that no endpoint is up and the transport errors name the
endpoint that was tried, as those of `net/http` and `crypto/tls` do. -/
def refusingWorld : World :=
  { testWorld with
    Do := fun _ req => .error ("Get " ++ req.URL ++ ": connection refused"),
    DialWithDialer := fun _ _ addr _ =>
      .error ("dial tcp " ++ addr ++ ": connection refused") }

/-! ## Lemmas on the primitives -/

theorem lor_eq_zero (a b : Nat) : a ||| b = 0 ↔ a = 0 ∧ b = 0 := by
  constructor
  · intro h
    have key : ∀ i, (a.testBit i || b.testBit i) = false := by
      intro i
      have := congrArg (fun n => Nat.testBit n i) h
      simpa [Nat.testBit_or] using this
    constructor
    · apply Nat.eq_of_testBit_eq
      intro i
      have := key i
      simp only [Bool.or_eq_false_iff] at this
      simp [this.1]
    · apply Nat.eq_of_testBit_eq
      intro i
      have := key i
      simp only [Bool.or_eq_false_iff] at this
      simp [this.2]
  · rintro ⟨rfl, rfl⟩
    simp

theorem xorFold_eq_zero (x : List Nat) :
    ∀ (y : List Nat) (v : Nat), x.length = y.length →
      (xorFold v x y = 0 ↔ v = 0 ∧ x = y) := by
  induction x with
  | nil =>
    intro y v h
    cases y with
    | nil => simp [xorFold]
    | cons b y => simp at h
  | cons a x ih =>
    intro y v h
    cases y with
    | nil => simp at h
    | cons b y =>
      have hl : x.length = y.length := by simpa using h
      rw [xorFold, ih y _ hl, lor_eq_zero, Nat.xor_eq_zero]
      constructor
      · rintro ⟨⟨hv, hab⟩, hxy⟩
        exact ⟨hv, by rw [hab, hxy]⟩
      · rintro ⟨hv, hxy⟩
        injection hxy with h1 h2
        exact ⟨⟨hv, h1⟩, h2⟩

/-- The byte comparison answers 1 exactly on equal byte sequences. -/
theorem ConstantTimeCompare_eq_one (x y : List Nat) :
    ConstantTimeCompare x y = 1 ↔ x = y := by
  unfold ConstantTimeCompare ConstantTimeByteEq
  by_cases h : x.length = y.length
  · have := xorFold_eq_zero x y 0 h
    by_cases hz : xorFold 0 x y = 0
    · have hxy := (this.mp hz).2
      simp only [h, ne_eq, not_true_eq_false, if_false, hz, if_true, true_iff]
      exact hxy
    · have hne : x ≠ y := fun hxy => hz (this.mpr ⟨rfl, hxy⟩)
      simp [h, hz, hne]
  · have hne : x ≠ y := fun hxy => h (by rw [hxy])
    simp [h, hne]

theorem utf8_ne_nil (c : Char) : utf8 c ≠ [] := by
  unfold utf8
  simp only []
  split
  · simp
  · split
    · simp
    · split <;> simp

/-- The Go test `len(s) == 0` holds exactly of the empty string. -/
theorem len_eq_zero (s : String) : len s = 0 ↔ s = "" := by
  unfold len bytes
  constructor
  · intro h
    have hd : s.data = [] := by
      cases hs : s.data with
      | nil => rfl
      | cons c cs =>
        rw [hs] at h
        have := utf8_ne_nil c
        cases hu : utf8 c with
        | nil => exact absurd hu this
        | cons b bs => simp [List.flatMap, hu] at h
    exact String.ext hd
  · rintro rfl
    rfl

theorem sanMatches_iff (zName : String) (names : List String) :
    sanMatches zName names = true ↔ ∃ name ∈ names, bytes name = bytes zName := by
  induction names with
  | nil => simp [sanMatches]
  | cons name names ih =>
    unfold sanMatches
    by_cases h : ConstantTimeCompare (bytes name) (bytes zName) = 1
    · have := (ConstantTimeCompare_eq_one _ _).mp h
      simp only [h, if_true, true_iff]
      exact ⟨name, List.mem_cons_self _ _, this⟩
    · have hne : bytes name ≠ bytes zName :=
        fun he => h ((ConstantTimeCompare_eq_one _ _).mpr he)
      simp [h, hne, ih]

theorem hex_length (z : List Nat) : (hex z).length = 2 * z.length := by
  induction z with
  | nil => rfl
  | cons b bs ih => simp [hex, ih]; omega

/-- The characters that `%x` can produce. -/
theorem hexDigit_mem (n : Nat) (h : n < 16) : hexDigit n ∈ "0123456789abcdef".data := by
  interval_cases n <;> decide

theorem hex_mem (z : List Nat) : ∀ ch ∈ hex z, ch ∈ "0123456789abcdef".data := by
  induction z with
  | nil => simp [hex]
  | cons b bs ih =>
    intro ch hch
    simp only [hex, List.mem_cons] at hch
    rcases hch with rfl | rfl | hch
    · exact hexDigit_mem _ (Nat.mod_lt _ (by decide))
    · exact hexDigit_mem _ (Nat.mod_lt _ (by decide))
    · exact ih ch hch

theorem sprintf064x_eq (z : List Nat) (h : z.length = 32) : sprintf064x z = ⟨hex z⟩ := by
  unfold sprintf064x
  have : (hex z).length = 64 := by rw [hex_length, h]
  simp [this]

theorem index?_eq_some_iff {α : Type} (xs : List α) (i : Int) (x : α) :
    index? xs i = some x ↔ 0 ≤ i ∧ xs.get? i.toNat = some x := by
  unfold index?
  by_cases h : i < 0
  · simp [h]
  · simp [h, not_lt.mp h]

theorem index?_isSome {α : Type} (xs : List α) (i : Int) (h0 : 0 ≤ i)
    (h1 : i < xs.length) : ∃ x, index? xs i = some x := by
  have hlt : i.toNat < xs.length := by omega
  refine ⟨xs.get ⟨i.toNat, hlt⟩, ?_⟩
  rw [index?_eq_some_iff]
  exact ⟨h0, List.get?_eq_get hlt⟩

theorem index?_setIndex_self {α : Type} (xs : List α) (i : Int) (x y : α)
    (h : index? xs i = some y) : index? (setIndex xs i x) i = some x := by
  rw [index?_eq_some_iff] at h
  obtain ⟨h0, hg⟩ := h
  have hlt : i.toNat < xs.length := by
    rcases List.get?_eq_some.mp hg with ⟨hl, _⟩
    exact hl
  unfold index? setIndex
  simp [not_lt.mpr h0, hlt]

theorem index?_setIndex_ne {α : Type} (xs : List α) (i j : Int) (x : α) (h : j ≠ i) :
    index? (setIndex xs i x) j = index? xs j := by
  unfold index? setIndex
  by_cases hj : j < 0
  · simp [hj]
  · by_cases hi : i < 0
    · simp [hi]
    · have : i.toNat ≠ j.toNat := by omega
      simp [hj, hi, List.getElem?_set_ne this]

theorem length_setIndex {α : Type} (xs : List α) (i : Int) (x : α) :
    (setIndex xs i x).length = xs.length := by
  unfold setIndex
  split <;> simp

/-! ## Lemmas on the validation methods -/

theorem callbacks_append (xs ys : List Event) :
    callbacks (xs ++ ys) = callbacks xs ++ callbacks ys := by
  induction xs with
  | nil => rfl
  | cons e xs ih => cases e <;> simp [callbacks, ih]

/-- The HTTP probe never calls back into the RA. -/
theorem validateSimpleHTTPS_callbacks (va : ValidationAuthorityImpl) (w : World)
    (identifier : AcmeIdentifier) (input : Challenge) :
    callbacks (validateSimpleHTTPS va w identifier input).events = [] := by
  unfold validateSimpleHTTPS
  simp only []
  repeat' split
  all_goals simp [callbacks]

/-- The TLS probe never calls back into the RA. -/
theorem validateDvsni_callbacks (va : ValidationAuthorityImpl) (w : World)
    (identifier : AcmeIdentifier) (input : Challenge) :
    callbacks (validateDvsni va w identifier input).events = [] := by
  unfold validateDvsni
  simp only []
  repeat' split
  all_goals simp [callbacks]

/-- The HTTP probe returns its input challenge with, at most, another status. -/
theorem validateSimpleHTTPS_challenge (va : ValidationAuthorityImpl) (w : World)
    (identifier : AcmeIdentifier) (input : Challenge) :
    (validateSimpleHTTPS va w identifier input).challenge =
      { input with Status := (validateSimpleHTTPS va w identifier input).challenge.Status } := by
  unfold validateSimpleHTTPS
  simp only []
  repeat' split
  all_goals rfl

/-- The TLS probe returns its input challenge with, at most, another status. -/
theorem validateDvsni_challenge (va : ValidationAuthorityImpl) (w : World)
    (identifier : AcmeIdentifier) (input : Challenge) :
    (validateDvsni va w identifier input).challenge =
      { input with Status := (validateDvsni va w identifier input).challenge.Status } := by
  unfold validateDvsni
  simp only []
  repeat' split
  all_goals rfl

/-! ## The validation authority: dispatch and callback -/

/-- Claim C1: for every authorization and every in-range challenge index, one run of
`validate` ends without a panic and calls `RA.OnValidationUpdate` exactly once, whatever
branch it takes (sanity failure, either probe, unsupported type, probe error); and one
`UpdateValidations` starts exactly one such run and returns no error. -/
theorem validate_calls_OnValidationUpdate_once (va : ValidationAuthorityImpl) (w : World)
    (now : Nat) (authz : Authorization) (challengeIndex : Int)
    (h0 : 0 ≤ challengeIndex) (h1 : challengeIndex < authz.Challenges.length) :
    (validate va w now authz challengeIndex).panicked = false ∧
    (callbacks (validate va w now authz challengeIndex).events).length = 1 ∧
    UpdateValidations va authz challengeIndex = (none, [(authz, challengeIndex)]) := by
  obtain ⟨current, hc⟩ := index?_isSome authz.Challenges challengeIndex h0 h1
  refine ⟨?_, ?_, rfl⟩
  · unfold validate
    simp only [hc]
    split <;> rfl
  · unfold validate
    simp only [hc]
    split
    · simp [callbacks]
    · simp only [callbacks_append]
      split
      · simp [validateSimpleHTTPS_callbacks, callbacks]
      · split
        · simp [validateDvsni_callbacks, callbacks]
        · simp [callbacks]

/-- Witness of C1 on the fixture `AuthzUpdated`, challenge 0, in the concrete world. -/
theorem validate_calls_OnValidationUpdate_once_witness :
    (validate { TestMode := false } testWorld 5 AuthzUpdated 0).panicked = false ∧
    (callbacks (validate { TestMode := false } testWorld 5 AuthzUpdated 0).events).length = 1 ∧
    UpdateValidations { TestMode := false } AuthzUpdated 0 = (none, [(AuthzUpdated, 0)]) :=
  validate_calls_OnValidationUpdate_once { TestMode := false } testWorld 5 AuthzUpdated 0
    (by decide) (by decide)

/-- Claim C9: when the dispatched challenge fails `IsSane(true)`, `validate` sets its
status to invalid, runs no probe (its only effects are the audit record, the notice and
the callback; nothing touches the network) and hands the authorization with the invalid
challenge to `RA.OnValidationUpdate`. -/
theorem validate_sanity_failure (va : ValidationAuthorityImpl) (w : World) (now : Nat)
    (authz : Authorization) (challengeIndex : Int) (current : Challenge)
    (hc : index? authz.Challenges challengeIndex = some current)
    (hs : w.IsSane current true = false) :
    ∃ authz1 : Authorization,
      authz1 =
        { authz with
          Challenges := setIndex authz.Challenges challengeIndex
            { current with Status := StatusInvalid } } ∧
      index? authz1.Challenges challengeIndex = some { current with Status := StatusInvalid } ∧
      (validate va w now authz challengeIndex).events =
        [Event.AuditObject "Validation result"
            { ID := authz.ID, Requester := authz.RegistrationID,
              Challenge := { current with Status := StatusInvalid },
              RequestTime := now, ResponseTime := 0,
              Error := "Challenge failed sanity check." },
          Event.NoticeValidations authz1, Event.OnValidationUpdate authz1] ∧
      (∀ e ∈ (validate va w now authz challengeIndex).events, e.isNetwork = false) ∧
      callbacks (validate va w now authz challengeIndex).events = [authz1] := by
  refine ⟨_, rfl, index?_setIndex_self _ _ _ _ hc, ?_⟩
  have hev : (validate va w now authz challengeIndex).events =
      [Event.AuditObject "Validation result"
          { ID := authz.ID, Requester := authz.RegistrationID,
            Challenge := { current with Status := StatusInvalid },
            RequestTime := now, ResponseTime := 0,
            Error := "Challenge failed sanity check." },
        Event.NoticeValidations
          { authz with
            Challenges := setIndex authz.Challenges challengeIndex
              { current with Status := StatusInvalid } },
        Event.OnValidationUpdate
          { authz with
            Challenges := setIndex authz.Challenges challengeIndex
              { current with Status := StatusInvalid } }] := by
    unfold validate
    simp [hc, hs]
  refine ⟨hev, ?_, ?_⟩
  · intro e he
    rw [hev] at he
    simp only [List.mem_cons, List.mem_singleton, List.not_mem_nil, or_false] at he
    rcases he with rfl | rfl | rfl <;> rfl
  · rw [hev]
    rfl

/-- Witness of C9: challenge 0 of `AuthzInitial` has no path yet and fails the sanity
check of the concrete world. -/
theorem validate_sanity_failure_witness :
    ∃ authz1 : Authorization,
      authz1 =
        { AuthzInitial with
          Challenges := setIndex AuthzInitial.Challenges 0
            { challenge0 with Status := StatusInvalid } } ∧
      index? authz1.Challenges 0 = some { challenge0 with Status := StatusInvalid } ∧
      (validate { TestMode := false } testWorld 5 AuthzInitial 0).events =
        [Event.AuditObject "Validation result"
            { ID := AuthzInitial.ID, Requester := AuthzInitial.RegistrationID,
              Challenge := { challenge0 with Status := StatusInvalid },
              RequestTime := 5, ResponseTime := 0,
              Error := "Challenge failed sanity check." },
          Event.NoticeValidations authz1, Event.OnValidationUpdate authz1] ∧
      (∀ e ∈ (validate { TestMode := false } testWorld 5 AuthzInitial 0).events,
        e.isNetwork = false) ∧
      callbacks (validate { TestMode := false } testWorld 5 AuthzInitial 0).events = [authz1] :=
  validate_sanity_failure { TestMode := false } testWorld 5 AuthzInitial 0 challenge0
    (by decide) (by decide)

/-- Claim C10: the authorization that `validate` hands to `RA.OnValidationUpdate` equals
the input in ID, RegistrationID, Identifier, Status, Expires and Combinations, has as many
challenges, agrees with the input on every challenge but the dispatched one, and the
dispatched challenge itself differs from the input at most in its status. -/
theorem validate_frame (va : ValidationAuthorityImpl) (w : World) (now : Nat)
    (authz : Authorization) (challengeIndex : Int)
    (h0 : 0 ≤ challengeIndex) (h1 : challengeIndex < authz.Challenges.length) :
    ∃ authz1 : Authorization,
      callbacks (validate va w now authz challengeIndex).events = [authz1] ∧
      authz1.ID = authz.ID ∧ authz1.RegistrationID = authz.RegistrationID ∧
      authz1.Identifier = authz.Identifier ∧ authz1.Status = authz.Status ∧
      authz1.Expires = authz.Expires ∧ authz1.Combinations = authz.Combinations ∧
      authz1.Challenges.length = authz.Challenges.length ∧
      (∀ j : Int, j ≠ challengeIndex →
        index? authz1.Challenges j = index? authz.Challenges j) ∧
      ∃ current updated : Challenge,
        index? authz.Challenges challengeIndex = some current ∧
        index? authz1.Challenges challengeIndex = some updated ∧
        updated = { current with Status := updated.Status } := by
  obtain ⟨current, hc⟩ := index?_isSome authz.Challenges challengeIndex h0 h1
  have key : ∃ updated : Challenge,
      updated = { current with Status := updated.Status } ∧
      callbacks (validate va w now authz challengeIndex).events =
        [{ authz with Challenges := setIndex authz.Challenges challengeIndex updated }] := by
    unfold validate
    simp only [hc]
    split
    · exact ⟨{ current with Status := StatusInvalid }, rfl, rfl⟩
    · simp only [callbacks_append]
      split
      · exact ⟨_, validateSimpleHTTPS_challenge va w authz.Identifier current,
          by simp [validateSimpleHTTPS_callbacks, callbacks]⟩
      · split
        · exact ⟨_, validateDvsni_challenge va w authz.Identifier current,
            by simp [validateDvsni_callbacks, callbacks]⟩
        · exact ⟨current, rfl, by simp [callbacks]⟩
  obtain ⟨updated, hu, hcb⟩ := key
  refine ⟨_, hcb, rfl, rfl, rfl, rfl, rfl, rfl, length_setIndex _ _ _, ?_, ?_⟩
  · intro j hj
    exact index?_setIndex_ne _ _ _ _ hj
  · exact ⟨current, updated, hc, index?_setIndex_self _ _ _ _ hc, hu⟩

/-- Witness of C10 on the fixture `AuthzUpdated`, challenge 1 (the dvsni challenge). -/
theorem validate_frame_witness :
    ∃ authz1 : Authorization,
      callbacks (validate { TestMode := false } testWorld 5 AuthzUpdated 1).events = [authz1] ∧
      authz1.ID = AuthzUpdated.ID ∧ authz1.RegistrationID = AuthzUpdated.RegistrationID ∧
      authz1.Identifier = AuthzUpdated.Identifier ∧ authz1.Status = AuthzUpdated.Status ∧
      authz1.Expires = AuthzUpdated.Expires ∧
      authz1.Combinations = AuthzUpdated.Combinations ∧
      authz1.Challenges.length = AuthzUpdated.Challenges.length ∧
      (∀ j : Int, j ≠ 1 → index? authz1.Challenges j = index? AuthzUpdated.Challenges j) ∧
      ∃ current updated : Challenge,
        index? AuthzUpdated.Challenges 1 = some current ∧
        index? authz1.Challenges 1 = some updated ∧
        updated = { current with Status := updated.Status } :=
  validate_frame { TestMode := false } testWorld 5 AuthzUpdated 1 (by decide) (by decide)

/-! ## The validation authority: the two probes -/

theorem StatusValid_ne_StatusInvalid : StatusValid ≠ StatusInvalid := by decide

/-- Claim C2: for a DNS identifier and a challenge with a non-empty path,
`validateSimpleHTTPS` returns status valid exactly when the GET completed without error,
the status code is 200, the body was read without error and the body bytes are the bytes
of the token; in every other case it returns status invalid. -/
theorem validateSimpleHTTPS_valid_iff (va : ValidationAuthorityImpl) (w : World)
    (identifier : AcmeIdentifier) (input : Challenge)
    (hid : identifier.Type_ = IdentifierDNS) (hp : input.Path ≠ "") :
    ((validateSimpleHTTPS va w identifier input).challenge.Status = StatusValid ↔
      ∃ response : Response,
        fetchOf va w identifier input = .ok response ∧ response.StatusCode = 200 ∧
        (ReadAll response.Body).2 = none ∧
        (ReadAll response.Body).1 = bytes input.Token) ∧
    ((validateSimpleHTTPS va w identifier input).challenge.Status = StatusInvalid ↔
      ¬ ∃ response : Response,
        fetchOf va w identifier input = .ok response ∧ response.StatusCode = 200 ∧
        (ReadAll response.Body).2 = none ∧
        (ReadAll response.Body).1 = bytes input.Token) := by
  have hlen : len input.Path ≠ 0 := fun h => hp ((len_eq_zero _).mp h)
  have hne := StatusValid_ne_StatusInvalid
  have close_invalid : ∀ (st : AcmeStatus) (P : Prop), st = StatusInvalid → ¬ P →
      (st = StatusValid ↔ P) ∧ (st = StatusInvalid ↔ ¬ P) := by
    intro st P hst hP
    subst hst
    exact ⟨⟨fun h => absurd h.symm hne, fun h => absurd h hP⟩, ⟨fun _ => hP, fun _ => rfl⟩⟩
  have close_valid : ∀ (st : AcmeStatus) (P : Prop), st = StatusValid → P →
      (st = StatusValid ↔ P) ∧ (st = StatusInvalid ↔ ¬ P) := by
    intro st P hst hP
    subst hst
    exact ⟨⟨fun _ => hP, fun _ => rfl⟩, ⟨fun h => absurd h hne, fun h => absurd hP h⟩⟩
  unfold validateSimpleHTTPS fetchOf urlOf hostNameOf clientOf
  simp only [hlen, hid, if_false, ne_eq, not_true_eq_false]
  cases hreq : w.NewRequest "GET"
      ((if va.TestMode = true then "http" else "https") ++ "://" ++
        (if va.TestMode = true then "localhost:5001" else identifier.Value) ++
        "/.well-known/acme-challenge/" ++ input.Path) with
  | error e =>
    apply close_invalid _ _ rfl
    rintro ⟨response, h, _⟩
    cases h
  | ok request =>
    simp only []
    cases hdo : w.Do
        { Transport :=
            { TLSClientConfig := { ServerName := "", InsecureSkipVerify := true },
              DisableKeepAlives := true },
          Timeout := 5 * Second }
        { request with
          Host := if va.TestMode = true then "localhost:5001" else identifier.Value } with
    | error e =>
      apply close_invalid _ _ rfl
      rintro ⟨response, h, _⟩
      cases h
    | ok response =>
      simp only []
      by_cases hcode : response.StatusCode = 200
      · rw [if_pos hcode]
        unfold ReadAll
        cases herr : response.Body.err with
        | some readErr =>
          apply close_invalid _ _ rfl
          rintro ⟨response1, h, _, h2, _⟩
          cases h
          rw [herr] at h2
          cases h2
        | none =>
          simp only []
          by_cases hcmp : ConstantTimeCompare response.Body.data (bytes input.Token) = 1
          · rw [if_pos hcmp]
            apply close_valid _ _ rfl
            exact ⟨response, rfl, hcode, herr, (ConstantTimeCompare_eq_one _ _).mp hcmp⟩
          · rw [if_neg hcmp]
            apply close_invalid _ _ rfl
            rintro ⟨response1, h, _, _, h3⟩
            cases h
            exact hcmp ((ConstantTimeCompare_eq_one _ _).mpr h3)
      · rw [if_neg hcode]
        apply close_invalid _ _ rfl
        rintro ⟨response1, h, h1, _⟩
        cases h
        exact hcode h1

/-- Witness of C2: in the concrete world the subscriber serves the token of challenge 0
at the challenge URL, and the probe answers valid. -/
theorem validateSimpleHTTPS_valid_iff_witness :
    AuthzUpdated.Identifier.Type_ = IdentifierDNS ∧ challenge0Updated.Path ≠ "" ∧
    (validateSimpleHTTPS { TestMode := false } testWorld AuthzUpdated.Identifier
      challenge0Updated).challenge.Status = StatusValid ∧
    (validateSimpleHTTPS { TestMode := true } testWorld AuthzUpdated.Identifier
      challenge0Updated).challenge.Status = StatusInvalid :=
  ⟨by decide, by decide,
    (validateSimpleHTTPS_valid_iff { TestMode := false } testWorld AuthzUpdated.Identifier
      challenge0Updated (by decide) (by decide)).1.mpr
      ⟨{ StatusCode := 200, Body := { data := bytes challenge0.Token, err := none } },
        rfl, rfl, rfl, rfl⟩,
    by decide⟩

/-- Claim C3: for a DNS identifier and a dvsni challenge whose `R` and `S` decode,
`validateDvsni` returns status valid and a nil error when the dial succeeds, a peer
certificate is presented and one of the `DNSNames` of the first one has the bytes of
`zName`; it returns status invalid and a non-nil error when the dial fails (a timeout is
a dial error), when no certificate is presented, and when no such name has those bytes. -/
theorem validateDvsni_outcome (va : ValidationAuthorityImpl) (w : World)
    (identifier : AcmeIdentifier) (input : Challenge) (R S : List Nat)
    (hid : identifier.Type_ = "dns")
    (hR : w.B64dec input.R = .ok R) (hS : w.B64dec input.S = .ok S) :
    (∀ (cert : x509.Certificate) (rest : List x509.Certificate),
      dialOf va w identifier input = .ok (cert :: rest) →
      (∃ name ∈ cert.DNSNames, bytes name = bytes (zNameOf w R S)) →
      (validateDvsni va w identifier input).challenge.Status = StatusValid ∧
      (validateDvsni va w identifier input).err = none) ∧
    (∀ e : String, dialOf va w identifier input = .error e →
      (validateDvsni va w identifier input).challenge.Status = StatusInvalid ∧
      (validateDvsni va w identifier input).err ≠ none) ∧
    (dialOf va w identifier input = .ok [] →
      (validateDvsni va w identifier input).challenge.Status = StatusInvalid ∧
      (validateDvsni va w identifier input).err ≠ none) ∧
    (∀ (cert : x509.Certificate) (rest : List x509.Certificate),
      dialOf va w identifier input = .ok (cert :: rest) →
      (∀ name ∈ cert.DNSNames, bytes name ≠ bytes (zNameOf w R S)) →
      (validateDvsni va w identifier input).challenge.Status = StatusInvalid ∧
      (validateDvsni va w identifier input).err ≠ none) := by
  unfold dialOf hostPortOf dialerOf configOf
  refine ⟨?_, ?_, ?_, ?_⟩
  · intro cert rest hdial hsan
    have hm : sanMatches (zNameOf w R S) cert.DNSNames = true :=
      (sanMatches_iff _ _).mpr hsan
    unfold validateDvsni
    simp only [hid, ne_eq, not_true_eq_false, if_false, hR, hS, hdial, hm, if_true]
    exact ⟨trivial, trivial⟩
  · intro e hdial
    unfold validateDvsni
    simp only [hid, ne_eq, not_true_eq_false, if_false, hR, hS, hdial]
    exact ⟨trivial, by simp⟩
  · intro hdial
    unfold validateDvsni
    simp only [hid, ne_eq, not_true_eq_false, if_false, hR, hS, hdial]
    exact ⟨trivial, by simp⟩
  · intro cert rest hdial hsan
    have hm : sanMatches (zNameOf w R S) cert.DNSNames = false := by
      cases h : sanMatches (zNameOf w R S) cert.DNSNames with
      | false => rfl
      | true =>
        obtain ⟨name, hmem, hb⟩ := (sanMatches_iff _ _).mp h
        exact absurd hb (hsan name hmem)
    unfold validateDvsni
    simp only [hid, ne_eq, not_true_eq_false, if_false, hR, hS, hdial, hm,
      Bool.false_eq_true]
    exact ⟨trivial, by simp⟩

/-- Witness of C3: in the concrete world the subscriber presents a certificate carrying
the `zName` of the answered dvsni challenge, and the probe answers valid with a nil
error. -/
theorem validateDvsni_outcome_witness :
    AuthzUpdated.Identifier.Type_ = "dns" ∧
    testWorld.B64dec challenge1Answered.R = .ok challenge1R ∧
    testWorld.B64dec challenge1Answered.S = .ok [1, 2, 3] ∧
    (validateDvsni { TestMode := false } testWorld AuthzUpdated.Identifier
      challenge1Answered).challenge.Status = StatusValid ∧
    (validateDvsni { TestMode := false } testWorld AuthzUpdated.Identifier
      challenge1Answered).err = none :=
  ⟨by decide, rfl, rfl,
    (validateDvsni_outcome { TestMode := false } testWorld AuthzUpdated.Identifier
      challenge1Answered challenge1R [1, 2, 3] (by decide) rfl rfl).1
      { DNSNames := ["not-example.com",
          sprintf064x (testSum256 (challenge1R ++ [1, 2, 3])) ++ ".acme.invalid"] }
      [] rfl
      ⟨sprintf064x (testSum256 (challenge1R ++ [1, 2, 3])) ++ ".acme.invalid",
        by simp, rfl⟩⟩

theorem length_mk_append (cs : List Char) (s : String) :
    (String.mk cs ++ s).length = cs.length + s.length := by
  simp [String.length_append]

/-- The digit that `%x` writes for a nibble is the character at that place of the
lowercase alphabet. -/
theorem hexDigit_get? (n : Nat) (h : n < 16) :
    "0123456789abcdef".data.get? n = some (hexDigit n) := by
  interval_cases n <;> rfl

/-- The characters that `%x` writes for the byte at place `i`: at `2 * i` the digit of its
high nibble, at `2 * i + 1` the digit of its low nibble. -/
theorem hex_get? (z : List Nat) :
    ∀ (i b : Nat), z.get? i = some b →
      (hex z).get? (2 * i) = some (hexDigit (b / 16 % 16)) ∧
      (hex z).get? (2 * i + 1) = some (hexDigit (b % 16)) := by
  induction z with
  | nil =>
    intro i b h
    simp at h
  | cons a z ih =>
    intro i b h
    cases i with
    | zero =>
      simp only [List.get?] at h
      cases h
      exact ⟨rfl, rfl⟩
    | succ i =>
      simp only [List.get?] at h
      have h2 := ih i b h
      have e1 : 2 * (i + 1) = (2 * i) + 1 + 1 := by omega
      have e2 : 2 * (i + 1) + 1 = (2 * i + 1) + 1 + 1 := by omega
      rw [e2, e1]
      simpa only [hex, List.get?] using h2

/-- Reading back a digit that `%x` wrote gives the nibble. -/
theorem hexVal_hexDigit (n : Nat) (h : n < 16) : hexVal (hexDigit n) = some n := by
  interval_cases n <;> rfl

/-- Decoding what `%x` wrote gives back the bytes. -/
theorem hexdec_hex (z : List Nat) : hexdec ⟨hex z⟩ = some (z.map (fun b => b % 256)) := by
  have h2 : unhex (z.flatMap (fun b => [b / 16 % 16, b % 16])) =
      some (z.map (fun b => b % 256)) := by
    induction z with
    | nil => rfl
    | cons b z ih =>
      show unhex (b / 16 % 16 :: b % 16 :: z.flatMap (fun b => [b / 16 % 16, b % 16])) = _
      have hb : b / 16 % 16 * 16 + b % 16 = b % 256 := by omega
      rw [unhex, ih, hb]
      rfl
  have h1 : (hex z).mapM hexVal = some (z.flatMap (fun b => [b / 16 % 16, b % 16])) := by
    clear h2
    induction z with
    | nil => rfl
    | cons b z ih =>
      simp only [hex, List.mapM_cons, ih, List.flatMap_cons,
        hexVal_hexDigit (b / 16 % 16) (Nat.mod_lt _ (by decide)),
        hexVal_hexDigit (b % 16) (Nat.mod_lt _ (by decide))]
      rfl
  show ((hex z).mapM hexVal).bind unhex = _
  rw [h1]
  exact h2

/-- Claim C8: when `R` and `S` decode, the `zName` of `validateDvsni` is the lowercase
hexadecimal encoding (64 characters) of the SHA-256 digest of the decoded `R` followed by
the decoded `S`, followed by ".acme.invalid"; it has length 77; and it is this name,
a function of the decoded `R` and `S` alone, that the method announces in its notice and
that every run on the same `R` and `S` compares the certificate names with, whatever the
nonce, the identifier value and `TestMode` of that run. The encoding is spelled out: the
characters of `zName` at the places `2 * i` and `2 * i + 1` are the digits, in the alphabet
0123456789abcdef, of the high and of the low nibble of byte `i` of the digest, and
decoding the first 64 characters of `zName` as hexadecimal gives back the digest. -/
theorem validateDvsni_zName (va : ValidationAuthorityImpl) (w : World)
    (identifier : AcmeIdentifier) (input : Challenge) (R S : List Nat)
    (hid : identifier.Type_ = "dns")
    (hR : w.B64dec input.R = .ok R) (hS : w.B64dec input.S = .ok S) :
    zNameOf w R S = String.mk (hex (w.Sum256 (R ++ S))) ++ ".acme.invalid" ∧
    (hex (w.Sum256 (R ++ S))).length = 64 ∧
    (∀ ch ∈ hex (w.Sum256 (R ++ S)), ch ∈ "0123456789abcdef".data) ∧
    (zNameOf w R S).length = 77 ∧
    (validateDvsni va w identifier input).events.head? =
      some (Event.Notice ("Attempting to validate DVSNI for " ++
        "\x7b" ++ identifier.Type_ ++ " " ++ identifier.Value ++ "\x7d" ++ " " ++
        hostPortOf va identifier ++ " " ++
        (String.mk (hex (w.Sum256 (R ++ S))) ++ ".acme.invalid"))) ∧
    (∀ (va1 : ValidationAuthorityImpl) (identifier1 : AcmeIdentifier) (input1 : Challenge),
      identifier1.Type_ = "dns" → input1.R = input.R → input1.S = input.S →
      ∀ (cert : x509.Certificate) (rest : List x509.Certificate),
      dialOf va1 w identifier1 input1 = .ok (cert :: rest) →
      ((validateDvsni va1 w identifier1 input1).challenge.Status = StatusValid ↔
        ∃ name ∈ cert.DNSNames,
          bytes name = bytes (String.mk (hex (w.Sum256 (R ++ S))) ++ ".acme.invalid"))) ∧
    (∀ (i b : Nat), (w.Sum256 (R ++ S)).get? i = some b →
      (zNameOf w R S).data.get? (2 * i) = "0123456789abcdef".data.get? (b / 16 % 16) ∧
      (zNameOf w R S).data.get? (2 * i + 1) = "0123456789abcdef".data.get? (b % 16)) ∧
    hexdec ⟨(zNameOf w R S).data.take 64⟩ =
      some ((w.Sum256 (R ++ S)).map (fun b => b % 256)) := by
  have hz : zNameOf w R S = String.mk (hex (w.Sum256 (R ++ S))) ++ ".acme.invalid" := by
    unfold zNameOf
    rw [sprintf064x_eq _ (w.Sum256_size _)]
  have h64 : (hex (w.Sum256 (R ++ S))).length = 64 := by
    rw [hex_length, w.Sum256_size]
  refine ⟨hz, h64, hex_mem _, ?_, ?_, ?_, ?_, ?_⟩
  · rw [hz, length_mk_append, h64]
    rfl
  · rw [← hz]
    unfold validateDvsni hostPortOf
    simp only [hid, ne_eq, not_true_eq_false, if_false, hR, hS]
    repeat' split
    all_goals rfl
  · intro va1 identifier1 input1 hid1 hR1 hS1 cert rest hdial
    rw [← hR1] at hR
    rw [← hS1] at hS
    rw [← hz, ← sanMatches_iff]
    unfold dialOf hostPortOf dialerOf configOf at hdial
    unfold validateDvsni
    simp only [hid1, ne_eq, not_true_eq_false, if_false, hR, hS, hdial]
    cases hm : sanMatches (zNameOf w R S) cert.DNSNames with
    | true => simp
    | false => simp [StatusValid_ne_StatusInvalid.symm]
  · intro i b hb
    have hi : i < 32 := by
      have := (List.get?_eq_some.mp hb).1
      rw [w.Sum256_size] at this
      exact this
    have hd : (zNameOf w R S).data = hex (w.Sum256 (R ++ S)) ++ ".acme.invalid".data := by
      rw [hz]
      rfl
    have hg := hex_get? (w.Sum256 (R ++ S)) i b hb
    have l1 : 2 * i < (hex (w.Sum256 (R ++ S))).length := by omega
    have l2 : 2 * i + 1 < (hex (w.Sum256 (R ++ S))).length := by omega
    have t1 := hexDigit_get? (b / 16 % 16) (Nat.mod_lt _ (by decide))
    have t2 := hexDigit_get? (b % 16) (Nat.mod_lt _ (by decide))
    rw [hd, t1, t2]
    simp only [List.get?_eq_getElem?] at hg ⊢
    rw [List.getElem?_append_left l1, List.getElem?_append_left l2]
    exact hg
  · have hd : (zNameOf w R S).data.take 64 = hex (w.Sum256 (R ++ S)) := by
      rw [hz]
      show (hex (w.Sum256 (R ++ S)) ++ ".acme.invalid".data).take 64 = _
      rw [List.take_left' h64]
    rw [hd]
    exact hexdec_hex _

/-- Witness of C8 on the answered dvsni challenge: both values decode, the name has 77
characters, and its first 64 decode to the digest. -/
theorem validateDvsni_zName_witness :
    AuthzUpdated.Identifier.Type_ = "dns" ∧
    testWorld.B64dec challenge1Answered.R = .ok challenge1R ∧
    testWorld.B64dec challenge1Answered.S = .ok [1, 2, 3] ∧
    (zNameOf testWorld challenge1R [1, 2, 3]).length = 77 ∧
    hexdec ⟨(zNameOf testWorld challenge1R [1, 2, 3]).data.take 64⟩ =
      some ((testWorld.Sum256 (challenge1R ++ [1, 2, 3])).map (fun b => b % 256)) :=
  have h := validateDvsni_zName { TestMode := false } testWorld AuthzUpdated.Identifier
    challenge1Answered challenge1R [1, 2, 3] (by decide) rfl rfl
  ⟨by decide, rfl, rfl, h.2.2.2.1, h.2.2.2.2.2.2.2⟩

/-! ## The registration authority -/

theorem find?_filter_ID_ne (l : List Authorization) (id : String) :
    (l.filter (fun a => a.ID ≠ id)).find? (fun a => a.ID = id) = none := by
  induction l with
  | nil => rfl
  | cons a l ih =>
    by_cases h : a.ID = id
    · simp [List.filter, h, ih]
    · simp [List.filter, h, List.find?, ih]

theorem find?_map_replace (l : List Authorization) (authz : Authorization)
    (h : ∃ old ∈ l, old.ID = authz.ID) :
    (l.map (fun a => if a.ID = authz.ID then authz else a)).find?
      (fun a => a.ID = authz.ID) = some authz := by
  induction l with
  | nil => simp at h
  | cons a l ih =>
    by_cases ha : a.ID = authz.ID
    · simp [List.find?, ha]
    · have h1 : ∃ old ∈ l, old.ID = authz.ID := by
        obtain ⟨old, hmem, hid⟩ := h
        rcases List.mem_cons.mp hmem with rfl | hm
        · exact absurd hid ha
        · exact ⟨old, hm, hid⟩
      simp [List.find?, ha, ih h1]

theorem any_ID_of_mem (l : List Authorization) (id : String)
    (h : ∃ old ∈ l, old.ID = id) : l.any (fun a => a.ID = id) = true := by
  obtain ⟨old, hmem, hid⟩ := h
  exact List.any_eq_true.mpr ⟨old, hmem, by simp [hid]⟩

/-- Finalizing a pending authorization stores it, finalized, under its id. -/
theorem FinalizeAuthorization_pending (sa : StorageAuthority) (authz : Authorization)
    (h : ∃ old ∈ sa.pending, old.ID = authz.ID) :
    (sa.FinalizeAuthorization authz).1 = none ∧
    (sa.FinalizeAuthorization authz).2.GetAuthorization authz.ID = some authz ∧
    authz ∈ (sa.FinalizeAuthorization authz).2.final ∧
    ∀ a ∈ (sa.FinalizeAuthorization authz).2.pending, a.ID ≠ authz.ID := by
  have hany := any_ID_of_mem _ _ h
  unfold StorageAuthority.FinalizeAuthorization
  rw [if_pos hany]
  refine ⟨rfl, ?_, ?_, ?_⟩
  · unfold StorageAuthority.GetAuthorization
    simp only []
    rw [find?_filter_ID_ne]
    simp [List.find?]
  · simp
  · intro a ha
    simp only [List.mem_filter] at ha
    simpa using ha.2

/-- Updating a pending authorization stores it, still pending, under its id. -/
theorem UpdatePendingAuthorization_pending (sa : StorageAuthority) (authz : Authorization)
    (h : ∃ old ∈ sa.pending, old.ID = authz.ID) :
    (sa.UpdatePendingAuthorization authz).1 = none ∧
    (sa.UpdatePendingAuthorization authz).2.GetAuthorization authz.ID = some authz ∧
    authz ∈ (sa.UpdatePendingAuthorization authz).2.pending ∧
    (sa.UpdatePendingAuthorization authz).2.final = sa.final := by
  have hany := any_ID_of_mem _ _ h
  unfold StorageAuthority.UpdatePendingAuthorization
  rw [if_pos hany]
  refine ⟨rfl, ?_, ?_, rfl⟩
  · unfold StorageAuthority.GetAuthorization
    simp only []
    rw [find?_map_replace _ _ h]
  · obtain ⟨old, hmem, hid⟩ := h
    exact List.mem_map.mpr ⟨old, hmem, by simp [hid]⟩

theorem combinationValid_iff (challenges : List Challenge) (combination : List Int) :
    combinationValid challenges combination = true ↔
      ∀ i ∈ combination, ∃ c, index? challenges i = some c ∧ c.Status = StatusValid := by
  unfold combinationValid
  rw [List.all_eq_true]
  constructor
  · intro h i hi
    have := h i hi
    cases hc : index? challenges i with
    | none => simp [hc] at this
    | some c => exact ⟨c, rfl, by simpa [hc] using this⟩
  · intro h i hi
    obtain ⟨c, hc, hs⟩ := h i hi
    simp [hc, hs]

/-- Claim C4: for an authorization that the storage authority holds as pending,
`OnValidationUpdate` finalizes it as invalid if some challenge is invalid; otherwise it
finalizes it as valid, with the non-zero expiry `now + ValidityPeriod`, if some combination
has all of its indexed challenges valid; otherwise it keeps it pending and stores the
challenge statuses it was given. -/
theorem OnValidationUpdate_rules (ra : RegistrationAuthorityImpl) (now : Nat)
    (sa : StorageAuthority) (authz : Authorization)
    (hp : ∃ old ∈ sa.pending, old.ID = authz.ID) (hv : 0 < ra.ValidityPeriod) :
    (OnValidationUpdate ra now sa authz).1 = none ∧
    ((∃ c ∈ authz.Challenges, c.Status = StatusInvalid) →
      (OnValidationUpdate ra now sa authz).2.GetAuthorization authz.ID =
        some { authz with Status := StatusInvalid } ∧
      { authz with Status := StatusInvalid } ∈ (OnValidationUpdate ra now sa authz).2.final ∧
      ∀ a ∈ (OnValidationUpdate ra now sa authz).2.pending, a.ID ≠ authz.ID) ∧
    ((¬ ∃ c ∈ authz.Challenges, c.Status = StatusInvalid) →
      (∃ combination ∈ authz.Combinations, ∀ i ∈ combination,
        ∃ c, index? authz.Challenges i = some c ∧ c.Status = StatusValid) →
      (OnValidationUpdate ra now sa authz).2.GetAuthorization authz.ID =
        some { authz with Status := StatusValid, Expires := now + ra.ValidityPeriod } ∧
      now + ra.ValidityPeriod ≠ 0 ∧
      { authz with Status := StatusValid, Expires := now + ra.ValidityPeriod } ∈
        (OnValidationUpdate ra now sa authz).2.final ∧
      ∀ a ∈ (OnValidationUpdate ra now sa authz).2.pending, a.ID ≠ authz.ID) ∧
    ((¬ ∃ c ∈ authz.Challenges, c.Status = StatusInvalid) →
      (¬ ∃ combination ∈ authz.Combinations, ∀ i ∈ combination,
        ∃ c, index? authz.Challenges i = some c ∧ c.Status = StatusValid) →
      (OnValidationUpdate ra now sa authz).2.GetAuthorization authz.ID =
        some { authz with Status := StatusPending } ∧
      { authz with Status := StatusPending } ∈ (OnValidationUpdate ra now sa authz).2.pending ∧
      (OnValidationUpdate ra now sa authz).2.final = sa.final) := by
  have hinv : authz.Challenges.any (fun c => c.Status = StatusInvalid) = true ↔
      ∃ c ∈ authz.Challenges, c.Status = StatusInvalid := by
    simp [List.any_eq_true]
  have hcomb : authz.Combinations.any (combinationValid authz.Challenges) = true ↔
      ∃ combination ∈ authz.Combinations, ∀ i ∈ combination,
        ∃ c, index? authz.Challenges i = some c ∧ c.Status = StatusValid := by
    rw [List.any_eq_true]
    constructor
    · rintro ⟨combination, hm, hc⟩
      exact ⟨combination, hm, (combinationValid_iff _ _).mp hc⟩
    · rintro ⟨combination, hm, hc⟩
      exact ⟨combination, hm, (combinationValid_iff _ _).mpr hc⟩
  have fin := FinalizeAuthorization_pending sa { authz with Status := StatusInvalid } hp
  have fin2 := FinalizeAuthorization_pending sa
    { authz with Status := StatusValid, Expires := now + ra.ValidityPeriod } hp
  have upd := UpdatePendingAuthorization_pending sa { authz with Status := StatusPending } hp
  unfold OnValidationUpdate
  by_cases h1 : authz.Challenges.any (fun c => c.Status = StatusInvalid) = true
  · rw [if_pos h1]
    exact ⟨fin.1, fun _ => fin.2, fun hn => absurd (hinv.mp h1) hn,
      fun hn => absurd (hinv.mp h1) hn⟩
  · rw [if_neg h1]
    by_cases h2 : authz.Combinations.any (combinationValid authz.Challenges) = true
    · rw [if_pos h2]
      exact ⟨fin2.1, fun hi => absurd (hinv.mpr hi) h1,
        fun _ _ => ⟨fin2.2.1, by omega, fin2.2.2⟩,
        fun _ hn => absurd (hcomb.mp h2) hn⟩
    · rw [if_neg h2]
      exact ⟨upd.1, fun hi => absurd (hinv.mpr hi) h1,
        fun _ hc => absurd (hcomb.mpr hc) h2, fun _ _ => upd.2⟩

/-- Witness of C4, the scenario of `TestOnValidationUpdate`: with combinations `[[0],[1]]`
and challenge 0 valid, the stored authorization becomes valid. -/
theorem OnValidationUpdate_rules_witness :
    authzFromVA.Combinations = [[0], [1]] ∧
    (index? authzFromVA.Challenges 0).map (fun c => c.Status) = some StatusValid ∧
    ((OnValidationUpdate testRA testNow { testSA with pending := [AuthzUpdated] }
      authzFromVA).2.GetAuthorization authzFromVA.ID).map (fun a => a.Status) =
        some StatusValid :=
  ⟨rfl, by decide, by
    rw [((OnValidationUpdate_rules testRA testNow { testSA with pending := [AuthzUpdated] }
      authzFromVA ⟨AuthzUpdated, by simp, rfl⟩ (by decide)).2.2.1 (by decide)
      ⟨[0], by decide, by decide⟩).1]
    rfl⟩

/-! ## The registration authority: issuance -/

theorem resolveAuthorizations_error (sa : StorageAuthority) (now : Nat) (regID : Int)
    (uris : List String) (e : RAError)
    (h : resolveAuthorizations sa now regID uris = .error e) :
    e.kind = ErrorKind.unauthorized := by
  induction uris with
  | nil => simp [resolveAuthorizations] at h
  | cons uri rest ih =>
    unfold resolveAuthorizations at h
    split at h
    · cases h
      rfl
    · split at h
      · split at h
        · cases h
        · cases h
          exact ih (by assumption)
      · cases h
        rfl

theorem resolveAuthorizations_ok (sa : StorageAuthority) (now : Nat) (regID : Int)
    (uris : List String) :
    ∀ authzs, resolveAuthorizations sa now regID uris = .ok authzs →
      ∀ a ∈ authzs, ∃ uri ∈ uris, sa.GetAuthorization (authzIDOf uri) = some a ∧
        a.RegistrationID = regID ∧ a.Status = StatusValid ∧ now < a.Expires := by
  induction uris with
  | nil =>
    intro authzs h a ha
    simp [resolveAuthorizations] at h
    subst h
    simp at ha
  | cons uri rest ih =>
    intro authzs h a ha
    unfold resolveAuthorizations at h
    split at h
    · cases h
    · rename_i authz hget
      split at h
      · rename_i husable
        split at h
        · rename_i resolved hrest
          cases h
          rcases List.mem_cons.mp ha with rfl | hmem
          · exact ⟨uri, List.mem_cons_self _ _, hget, husable⟩
          · obtain ⟨u, hu, hg⟩ := ih resolved hrest a hmem
            exact ⟨u, List.mem_cons_of_mem _ hu, hg⟩
        · cases h
      · cases h

/-- When check 3 passes, every listed URI names a stored authorization of the requester
that is valid and not expired. -/
theorem resolveAuthorizations_all (sa : StorageAuthority) (now : Nat) (regID : Int)
    (uris : List String) :
    ∀ authzs, resolveAuthorizations sa now regID uris = .ok authzs →
      ∀ uri ∈ uris, ∃ a, sa.GetAuthorization (authzIDOf uri) = some a ∧
        a.RegistrationID = regID ∧ a.Status = StatusValid ∧ now < a.Expires := by
  induction uris with
  | nil =>
    intro authzs _ uri huri
    cases huri
  | cons first rest ih =>
    intro authzs h uri huri
    unfold resolveAuthorizations at h
    split at h
    · cases h
    · rename_i authz hget
      split at h
      · rename_i husable
        split at h
        · rename_i resolved hrest
          rcases List.mem_cons.mp huri with rfl | hmem
          · exact ⟨authz, hget, husable⟩
          · exact ih resolved hrest uri hmem
        · cases h
      · cases h

/-- Claim C5, as amended: for a request whose CSR passes check 1 (a key of sufficient size,
at least one SAN DNSName) and whose key has the digest of the account key of the stored
registration `regID`, `NewCertificate` fails with the message "Certificate public key must
be different than account key", whatever authorizations are listed; and no request whose
CSR key has the digest of the account key is ever answered with a certificate. -/
theorem NewCertificate_account_key (ra : RegistrationAuthorityImpl) (w : World) (now : Nat)
    (sa : StorageAuthority) (req : core.CertificateRequest) (regID : Int)
    (registration : Registration)
    (hkey : GoodKey ra req.CSR.PublicKey = true) (hnames : req.CSR.DNSNames ≠ [])
    (hreg : sa.GetRegistration regID = some registration)
    (hdigest : KeyDigestEquals w req.CSR.PublicKey registration.Key = true) :
    (∃ e, NewCertificate ra w now sa req regID = .error e ∧
      e.detail = some "Certificate public key must be different than account key" ∧
      e.kind = ErrorKind.malformed) ∧
    (∀ authorizations : List String,
      NewCertificate ra w now sa { req with Authorizations := authorizations } regID =
        NewCertificate ra w now sa req regID) ∧
    (∀ (other : core.CertificateRequest),
      KeyDigestEquals w other.CSR.PublicKey registration.Key = true →
      ∀ issued, NewCertificate ra w now sa other regID ≠ .ok issued) := by
  have hrun : ∀ authorizations : List String,
      NewCertificate ra w now sa { req with Authorizations := authorizations } regID =
        .error .keyEqualsAccountKey := by
    intro authorizations
    unfold NewCertificate
    simp [hkey, hnames, hreg, hdigest]
  have hself : NewCertificate ra w now sa req regID = .error .keyEqualsAccountKey :=
    hrun req.Authorizations
  refine ⟨⟨_, hself, rfl, rfl⟩, ?_, ?_⟩
  · intro authorizations
    rw [hrun, hself]
  · intro other hother issued
    unfold NewCertificate
    simp only [hreg, hother, if_true]
    split
    · simp
    · split <;> simp

/-- Witness of C5, the scenario of `TestCertificateKeyNotEqualAccountKey`: a CSR for
www.example.com under the key of registration 1 is refused with the key message. -/
theorem NewCertificate_account_key_witness :
    GoodKey testRA accountKeyCSR.PublicKey = true ∧ accountKeyCSR.DNSNames ≠ [] ∧
    KeyDigestEquals testWorld accountKeyCSR.PublicKey AccountKeyA = true ∧
    ∃ e, NewCertificate testRA testWorld testNow testSA
        { CSR := accountKeyCSR, Authorizations := ["http://doesnt.matter/unknown"] } 1 =
          .error e ∧
      e.detail = some "Certificate public key must be different than account key" ∧
      e.kind = ErrorKind.malformed :=
  ⟨by decide!, by decide, by decide!,
    (NewCertificate_account_key testRA testWorld testNow testSA
      { CSR := accountKeyCSR, Authorizations := ["http://doesnt.matter/unknown"] } 1
      { ID := 1, Key := AccountKeyA, RecoveryToken := "", Contact := [], Agreement := "" }
      (by decide!) (by decide) rfl (by decide!)).1⟩

/-- Counterexample to C5 as stated: a CSR under the account key of registration 1 but
without any SAN DNSName is refused by check 1, before the key comparison, and the refusal
does not carry the key message. -/
theorem NewCertificate_account_key_counterexample :
    KeyDigestEquals testWorld AccountKeyA AccountKeyA = true ∧
    testSA.GetRegistration 1 =
      some { ID := 1, Key := AccountKeyA, RecoveryToken := "", Contact := [],
             Agreement := "" } ∧
    NewCertificate testRA testWorld testNow testSA
      { CSR := { PublicKey := AccountKeyA, CommonName := "", DNSNames := [] },
        Authorizations := [] } 1 = .error .csrNoDNSName ∧
    RAError.csrNoDNSName.detail ≠
      some "Certificate public key must be different than account key" := by
  refine ⟨by decide!, rfl, ?_, by decide⟩
  unfold NewCertificate
  have hk : GoodKey testRA AccountKeyA = true := by decide!
  simp [hk]

theorem nameCovered_iff (authzs : List Authorization) (name : String) :
    nameCovered authzs name = true ↔
      ∃ a ∈ authzs, lower a.Identifier.Value = lower name := by
  unfold nameCovered
  simp [List.any_eq_true]

/-- Claim C6, as amended: `NewCertificate` returns an error whenever some name requested
by the CSR (a SAN DNSName, or the CN if DNS-like) is not, compared case-insensitively, the
identifier value of a resolved authorization, that is of an authorization that a listed
URI names in the storage and that belongs to `regID`, is valid and is not expired; the
error is of kind unauthorized when the request passes checks 1 and 2; and for every
issued certificate each listed URI names such an authorization and each requested name is
the identifier value of one of them. -/
theorem NewCertificate_names_covered (ra : RegistrationAuthorityImpl) (w : World)
    (now : Nat) (sa : StorageAuthority) (req : core.CertificateRequest) (regID : Int) :
    ((∃ name ∈ namesNeeded req.CSR, ∀ uri ∈ req.Authorizations, ∀ a,
        sa.GetAuthorization (authzIDOf uri) = some a →
        a.RegistrationID = regID → a.Status = StatusValid → now < a.Expires →
        lower a.Identifier.Value ≠ lower name) →
      ∃ e, NewCertificate ra w now sa req regID = .error e ∧
        (∀ registration, GoodKey ra req.CSR.PublicKey = true → req.CSR.DNSNames ≠ [] →
          sa.GetRegistration regID = some registration →
          KeyDigestEquals w req.CSR.PublicKey registration.Key = false →
          e.kind = ErrorKind.unauthorized)) ∧
    (∀ issued, NewCertificate ra w now sa req regID = .ok issued →
      (∀ uri ∈ req.Authorizations, ∃ a,
        sa.GetAuthorization (authzIDOf uri) = some a ∧
        a.RegistrationID = regID ∧ a.Status = StatusValid ∧ now < a.Expires) ∧
      (∀ name ∈ namesNeeded req.CSR, ∃ uri ∈ req.Authorizations, ∃ a,
        sa.GetAuthorization (authzIDOf uri) = some a ∧
        a.RegistrationID = regID ∧ a.Status = StatusValid ∧ now < a.Expires ∧
        lower a.Identifier.Value = lower name)) := by
  have covered : ∀ authzs, resolveAuthorizations sa now regID req.Authorizations = .ok authzs →
      (namesNeeded req.CSR).all (nameCovered authzs) = true →
      ∀ name ∈ namesNeeded req.CSR, ∃ uri ∈ req.Authorizations, ∃ a,
        sa.GetAuthorization (authzIDOf uri) = some a ∧
        a.RegistrationID = regID ∧ a.Status = StatusValid ∧ now < a.Expires ∧
        lower a.Identifier.Value = lower name := by
    intro authzs hres hall name hname
    have h1 := List.all_eq_true.mp hall name hname
    obtain ⟨a, ha, hl⟩ := (nameCovered_iff _ _).mp h1
    obtain ⟨uri, huri, hget, hr, hs, he⟩ :=
      resolveAuthorizations_ok sa now regID _ authzs hres a ha
    exact ⟨uri, huri, a, hget, hr, hs, he, hl⟩
  constructor
  · rintro ⟨name, hname, hnot⟩
    unfold NewCertificate
    by_cases hkey : GoodKey ra req.CSR.PublicKey = true
    · by_cases hnames : req.CSR.DNSNames = []
      · exact ⟨.csrNoDNSName, by simp [hkey, hnames], fun _ _ h => absurd hnames h⟩
      · cases hreg : sa.GetRegistration regID with
        | none => exact ⟨.noRegistration, by simp [hkey, hnames], fun _ _ _ h => by cases h⟩
        | some registration =>
          by_cases hdigest : KeyDigestEquals w req.CSR.PublicKey registration.Key = true
          · refine ⟨.keyEqualsAccountKey, by simp [hkey, hnames, hdigest], ?_⟩
            intro r _ _ hr hd
            cases hr
            rw [hdigest] at hd
            cases hd
          · cases hres : resolveAuthorizations sa now regID req.Authorizations with
            | error e =>
              exact ⟨e, by simp [hkey, hnames, hdigest],
                fun _ _ _ _ _ => resolveAuthorizations_error sa now regID _ e hres⟩
            | ok authzs =>
              by_cases hall : (namesNeeded req.CSR).all (nameCovered authzs) = true
              · obtain ⟨uri, huri, a, hget, hr, hs, he, hl⟩ :=
                  covered authzs hres hall name hname
                exact absurd hl (hnot uri huri a hget hr hs he)
              · exact ⟨.namesNotCovered, by simp [hkey, hnames, hdigest, hall],
                  fun _ _ _ _ _ => rfl⟩
    · exact ⟨.keyTooSmall, by simp [hkey], fun _ h => absurd h hkey⟩
  · intro issued hok
    unfold NewCertificate at hok
    split at hok
    · cases hok
    · split at hok
      · cases hok
      · split at hok
        · cases hok
        · split at hok
          · cases hok
          · split at hok
            · cases hok
            · rename_i authzs hres
              split at hok
              · cases hok
              · rename_i hall
                exact ⟨resolveAuthorizations_all sa now regID _ authzs hres,
                  covered authzs hres (by simpa using hall)⟩

/-- Witness of C6, the scenario of `TestAuthorizationRequired`: `ExampleCSR` asks for
not-example.com and www.not-example.com, the one listed authorization covers the first
only, and the request is refused as unauthorized; with no authorization listed it is
refused as well. -/
theorem NewCertificate_names_covered_witness :
    (∃ e, NewCertificate testRA testWorld testNow testSAFinal requestOneAuthorization 1 =
        .error e ∧ e.kind = ErrorKind.unauthorized) ∧
    (∃ e, NewCertificate testRA testWorld testNow testSAFinal
        { CSR := ExampleCSR, Authorizations := [] } 1 = .error e) := by
  constructor
  · obtain ⟨e, he, hk⟩ :=
      (NewCertificate_names_covered testRA testWorld testNow testSAFinal
        requestOneAuthorization 1).1
        ⟨"www.not-example.com", by decide, by
          intro uri huri a hget _ _ _
          simp only [requestOneAuthorization, List.mem_singleton] at huri
          subst huri
          have : a = AuthzFinal := by
            have h2 : testSAFinal.GetAuthorization
                (authzIDOf "http://doesnt.matter/60p2Dc_XmUB2UUJBV4wYkF7BJbPD9KlDnUL3SmFMuTE") =
                some AuthzFinal := by decide
            rw [h2] at hget
            exact (Option.some.inj hget).symm
          subst this
          decide⟩
    exact ⟨e, he, hk _ (by decide!) (by decide) rfl (by decide!)⟩
  · obtain ⟨e, he, _⟩ :=
      (NewCertificate_names_covered testRA testWorld testNow testSAFinal
        { CSR := ExampleCSR, Authorizations := [] } 1).1
        ⟨"www.not-example.com", by decide, by
          intro uri huri
          cases huri⟩
    exact ⟨e, he⟩

/-- Counterexample to C6 as stated: the CSR asks for www.example.com, no authorization is
listed, and its key is the account key of registration 1; the request is refused by check
2, with an error of kind malformed, not unauthorized. -/
theorem NewCertificate_names_covered_counterexample :
    (∃ name ∈ namesNeeded accountKeyCSR,
      ∀ uri ∈ ([] : List String), ∀ a,
        testSA.GetAuthorization (authzIDOf uri) = some a →
        lower a.Identifier.Value ≠ lower name) ∧
    NewCertificate testRA testWorld testNow testSA
      { CSR := accountKeyCSR, Authorizations := [] } 1 = .error .keyEqualsAccountKey ∧
    RAError.keyEqualsAccountKey.kind ≠ ErrorKind.unauthorized := by
  refine ⟨⟨"www.example.com", by decide, fun uri huri => by cases huri⟩, ?_, by decide⟩
  have hk : GoodKey testRA AccountKeyA = true := by decide!
  have hd : KeyDigestEquals testWorld AccountKeyA AccountKeyA = true := by decide!
  have hr : testSA.GetRegistration 1 =
      some { ID := 1, Key := AccountKeyA, RecoveryToken := "", Contact := [],
             Agreement := "" } := rfl
  unfold NewCertificate
  simp [accountKeyCSR, hk, hr, hd]

/-! ## The registration authority: registrations -/

theorem b64chars_length : ∀ data : List Nat,
    (b64chars data).length = (4 * data.length + 2) / 3
  | [] => rfl
  | [_] => by simp [b64chars]
  | [_, _] => by simp [b64chars]
  | _ :: _ :: _ :: rest => by
    simp only [b64chars, List.length_cons, b64chars_length rest]
    omega

/-- A fresh token has 43 characters. -/
theorem NewToken_length (rng : Nat → Nat) : (NewToken rng).length = 43 := by
  unfold NewToken b64enc
  show (b64chars (RandomBytes rng 32)).length = 43
  rw [b64chars_length]
  simp [RandomBytes]

theorem NewToken_ne_empty (rng : Nat → Nat) : NewToken rng ≠ "" := by
  intro h
  have := NewToken_length rng
  rw [h] at this
  cases this

/-- Claim C7, as amended: for every input that `NewRegistration` accepts, the id of the
result is the storage authority's choice and its recovery token is the freshly generated
one, whatever id and recovery token the input supplies (they are ignored without error);
the token is non-empty and differs from the supplied one unless the supplied string is
that very token (so it differs from every supplied string that has not 43 characters);
the key, hence its digest, and the contact list of the input are preserved. -/
theorem NewRegistration_server_fields (ra : RegistrationAuthorityImpl) (w : World)
    (rng : Nat → Nat) (sa : StorageAuthority) (input result : Registration)
    (sa1 : StorageAuthority)
    (h : NewRegistration ra w rng sa input = .ok (result, sa1)) :
    result.ID = (sa.NewRegistration input).1.ID ∧
    result.RecoveryToken = NewToken rng ∧
    result.RecoveryToken ≠ "" ∧
    (result.RecoveryToken ≠ input.RecoveryToken ↔ input.RecoveryToken ≠ NewToken rng) ∧
    (input.RecoveryToken.length ≠ 43 → result.RecoveryToken ≠ input.RecoveryToken) ∧
    (∀ (id : Int) (token : String),
      NewRegistration ra w rng sa { input with ID := id, RecoveryToken := token } =
        .ok (result, sa1)) ∧
    result.Key = input.Key ∧ KeyDigestEquals w result.Key input.Key = true ∧
    result.Contact = input.Contact := by
  have hrun : ∀ (id : Int) (token : String),
      NewRegistration ra w rng sa { input with ID := id, RecoveryToken := token } =
        NewRegistration ra w rng sa input := by
    intro id token
    rfl
  have h0 := h
  unfold NewRegistration at h
  split at h
  · cases h
  · split at h
    · cases h
    · simp only [] at h
      split at h
      · cases h
      · injection h with h
        injection h with hres hsa
        subst hres
        refine ⟨rfl, rfl, ?_, ?_, ?_, ?_, rfl, ?_, rfl⟩
        · show NewToken rng ≠ ""
          exact NewToken_ne_empty rng
        · show NewToken rng ≠ input.RecoveryToken ↔ input.RecoveryToken ≠ NewToken rng
          exact ⟨fun hne heq => hne heq.symm, fun hne heq => hne heq.symm⟩
        · intro hlen heq
          have heq2 : NewToken rng = input.RecoveryToken := heq
          rw [← heq2, NewToken_length] at hlen
          exact hlen rfl
        · intro id token
          rw [hrun id token]
          exact h0
        · show KeyDigestEquals w input.Key input.Key = true
          simp [KeyDigestEquals]

/-- Witness of C7, the scenario of `TestNewRegistrationNoFieldOverwrite`: the input with
id 23 and recovery token "RecoverMe" is accepted, stored under id 2, with another
token. -/
theorem NewRegistration_server_fields_witness :
    ∃ result sa1,
      NewRegistration testRA testWorld zeroRng testSA registrationInput = .ok (result, sa1) ∧
      result.ID = 2 ∧ result.RecoveryToken ≠ "RecoverMe" ∧ result.RecoveryToken ≠ "" ∧
      result.Contact = ["mailto:foo@letsencrypt.org"] := by
  have hk : GoodKey testRA AccountKeyC = true := by decide!
  have hu : (testSA.GetRegistrationByKey testWorld AccountKeyC).isSome = false := by decide!
  have hc : validateContacts testRA ["mailto:foo@letsencrypt.org"] = true := by decide
  have hrun : NewRegistration testRA testWorld zeroRng testSA registrationInput =
      .ok (testSA.NewRegistration
        { ID := 0, Key := AccountKeyC, RecoveryToken := NewToken zeroRng,
          Contact := ["mailto:foo@letsencrypt.org"], Agreement := "I agreed" }) := by
    unfold NewRegistration
    simp [registrationInput, hk, hu, hc]
  have hfields := NewRegistration_server_fields testRA testWorld zeroRng testSA
    registrationInput _ _ hrun
  exact ⟨_, _, hrun, rfl, hfields.2.2.2.2.1 (by decide), hfields.2.2.1, rfl⟩

/-- Counterexample to C7 as stated: the random source draws zeros and the input supplies
the 43 characters that this gives as its recovery token; the input is accepted and the
recovery token of the result is equal to the supplied one. -/
theorem NewRegistration_server_fields_counterexample :
    ∃ result sa1,
      NewRegistration testRA testWorld zeroRng testSA guessingInput = .ok (result, sa1) ∧
      result.RecoveryToken = guessingInput.RecoveryToken := by
  have hk : GoodKey testRA AccountKeyC = true := by decide!
  have hu : (testSA.GetRegistrationByKey testWorld AccountKeyC).isSome = false := by decide!
  have hc : validateContacts testRA ["mailto:foo@letsencrypt.org"] = true := by decide
  have hrun : NewRegistration testRA testWorld zeroRng testSA guessingInput =
      .ok (testSA.NewRegistration
        { ID := 0, Key := AccountKeyC, RecoveryToken := NewToken zeroRng,
          Contact := ["mailto:foo@letsencrypt.org"], Agreement := "I agreed" }) := by
    unfold NewRegistration
    simp [guessingInput, registrationInput, hk, hu, hc]
  refine ⟨_, _, hrun, ?_⟩
  show NewToken zeroRng = "AAAAAAAAAAAAAAAAAAAAAAAAAAAAAAAAAAAAAAAAAAA"
  decide

/-! ## The validation authority: what a failure leaves behind -/

theorem auditErrors_append (xs ys : List Event) :
    auditErrors (xs ++ ys) = auditErrors xs ++ auditErrors ys := by
  induction xs with
  | nil => rfl
  | cons e xs ih => cases e <;> simp [auditErrors, ih]

/-- The HTTP probe writes no audit record. -/
theorem validateSimpleHTTPS_auditErrors (va : ValidationAuthorityImpl) (w : World)
    (identifier : AcmeIdentifier) (input : Challenge) :
    auditErrors (validateSimpleHTTPS va w identifier input).events = [] := by
  unfold validateSimpleHTTPS
  simp only []
  repeat' split
  all_goals simp [auditErrors]

/-- The TLS probe writes no audit record. -/
theorem validateDvsni_auditErrors (va : ValidationAuthorityImpl) (w : World)
    (identifier : AcmeIdentifier) (input : Challenge) :
    auditErrors (validateDvsni va w identifier input).events = [] := by
  unfold validateDvsni
  simp only []
  repeat' split
  all_goals simp [auditErrors]

/-- A probe of `validate` neither calls back into the RA nor writes an audit record. -/
theorem probeOf_silent (va : ValidationAuthorityImpl) (w : World)
    (identifier : AcmeIdentifier) (current : Challenge) :
    callbacks (probeOf va w identifier current).events = [] ∧
    auditErrors (probeOf va w identifier current).events = [] := by
  unfold probeOf
  split
  · exact ⟨validateSimpleHTTPS_callbacks _ _ _ _, validateSimpleHTTPS_auditErrors _ _ _ _⟩
  · split
    · exact ⟨validateDvsni_callbacks _ _ _ _, validateDvsni_auditErrors _ _ _ _⟩
    · exact ⟨rfl, rfl⟩

/-- An HTTP probe that returns an error returns the input challenge with status invalid. -/
theorem validateSimpleHTTPS_err (va : ValidationAuthorityImpl) (w : World)
    (identifier : AcmeIdentifier) (input : Challenge) (e : String)
    (h : (validateSimpleHTTPS va w identifier input).err = some e) :
    (validateSimpleHTTPS va w identifier input).challenge =
      { input with Status := StatusInvalid } := by
  revert h
  unfold validateSimpleHTTPS
  simp only []
  repeat' split
  all_goals intro h
  all_goals first
    | rfl
    | exact absurd h (by simp)

/-- A TLS probe that returns an error returns the input challenge with status invalid. -/
theorem validateDvsni_err (va : ValidationAuthorityImpl) (w : World)
    (identifier : AcmeIdentifier) (input : Challenge) (e : String)
    (h : (validateDvsni va w identifier input).err = some e) :
    (validateDvsni va w identifier input).challenge =
      { input with Status := StatusInvalid } := by
  revert h
  unfold validateDvsni
  simp only []
  repeat' split
  all_goals intro h
  all_goals first
    | rfl
    | exact absurd h (by simp)

theorem probeOf_err (va : ValidationAuthorityImpl) (w : World)
    (identifier : AcmeIdentifier) (current : Challenge) (e : String)
    (h : (probeOf va w identifier current).err = some e) :
    (probeOf va w identifier current).challenge = { current with Status := StatusInvalid } := by
  revert h
  unfold probeOf
  split
  · exact validateSimpleHTTPS_err va w identifier current e
  · split
    · exact validateDvsni_err va w identifier current e
    · intro h
      cases h

/-- The trace of `validate` on a challenge that passed the sanity check: the events of
the probe, the audit record with the error text of the probe, the notice, the callback. -/
theorem validate_events_probe (va : ValidationAuthorityImpl) (w : World) (now : Nat)
    (authz : Authorization) (challengeIndex : Int) (current : Challenge)
    (hc : index? authz.Challenges challengeIndex = some current)
    (hs : w.IsSane current true = true) :
    (validate va w now authz challengeIndex).events =
      (probeOf va w authz.Identifier current).events ++
        [Event.AuditObject "Validation result"
            { ID := authz.ID, Requester := authz.RegistrationID,
              Challenge := (probeOf va w authz.Identifier current).challenge,
              RequestTime := now, ResponseTime := 0,
              Error := (probeOf va w authz.Identifier current).err.getD "" },
          Event.NoticeValidations
            { authz with
              Challenges := setIndex authz.Challenges challengeIndex
                (probeOf va w authz.Identifier current).challenge },
          Event.OnValidationUpdate
            { authz with
              Challenges := setIndex authz.Challenges challengeIndex
                (probeOf va w authz.Identifier current).challenge }] := by
  unfold validate probeOf
  simp only [hc, hs, Bool.not_true, Bool.false_eq_true, if_false]
  generalize (if current.Type_ = ChallengeTypeSimpleHTTPS then
      validateSimpleHTTPS va w authz.Identifier current
    else if current.Type_ = ChallengeTypeDVSNI then
      validateDvsni va w authz.Identifier current
    else ({ challenge := current, err := none, events := [] } : Probe)) = P
  obtain ⟨c, err, evs⟩ := P
  cases err <;> rfl

/-- Claim C11, as amended: whenever the sanity check or a probe fails for the dispatched
challenge, the challenge inside the authorization handed to `RA.OnValidationUpdate` is the
input challenge with status invalid, and nothing else changed; the descriptive error of
the failure is written to the audit record of the run, not into the challenge. -/
theorem validate_failure_recorded (va : ValidationAuthorityImpl) (w : World) (now : Nat)
    (authz : Authorization) (challengeIndex : Int) (current : Challenge)
    (hc : index? authz.Challenges challengeIndex = some current) :
    index? (setIndex authz.Challenges challengeIndex { current with Status := StatusInvalid })
      challengeIndex = some { current with Status := StatusInvalid } ∧
    (w.IsSane current true = false →
      callbacks (validate va w now authz challengeIndex).events =
        [{ authz with
           Challenges := setIndex authz.Challenges challengeIndex
             { current with Status := StatusInvalid } }] ∧
      auditErrors (validate va w now authz challengeIndex).events =
        ["Challenge failed sanity check."]) ∧
    (w.IsSane current true = true →
      ∀ e, (probeOf va w authz.Identifier current).err = some e →
      callbacks (validate va w now authz challengeIndex).events =
        [{ authz with
           Challenges := setIndex authz.Challenges challengeIndex
             { current with Status := StatusInvalid } }] ∧
      auditErrors (validate va w now authz challengeIndex).events = [e]) := by
  refine ⟨index?_setIndex_self _ _ _ _ hc, ?_, ?_⟩
  · intro hs
    unfold validate
    simp [hc, hs, callbacks, auditErrors]
  · intro hs e he
    rw [validate_events_probe va w now authz challengeIndex current hc hs]
    rw [callbacks_append, auditErrors_append, (probeOf_silent _ _ _ _).1,
      (probeOf_silent _ _ _ _).2, probeOf_err va w authz.Identifier current e he, he]
    exact ⟨rfl, rfl⟩

/-- Witness of C11: with `TestMode` on, the concrete world refuses the connection; the
challenge handed over is challenge 0 with status invalid, the error is in the audit
record. -/
theorem validate_failure_recorded_witness :
    callbacks (validate { TestMode := true } testWorld 5 AuthzUpdated 0).events =
      [{ AuthzUpdated with
         Challenges := setIndex AuthzUpdated.Challenges 0
           { challenge0Updated with Status := StatusInvalid } }] ∧
    auditErrors (validate { TestMode := true } testWorld 5 AuthzUpdated 0).events =
      ["connection refused"] :=
  (validate_failure_recorded { TestMode := true } testWorld 5 AuthzUpdated 0
    challenge0Updated (by decide)).2.2 (by decide) "connection refused" (by decide)

/-- Counterexample to C11 as stated: one world refuses the connection, another answers
404; the two failures have different error details, both written to the audit record,
and hand the very same authorization to the RA: challenge 0 with status invalid and no
other change, so the challenge does not carry the detail. -/
theorem validate_failure_recorded_counterexample :
    auditErrors (validate { TestMode := true } testWorld 5 AuthzUpdated 0).events =
      ["connection refused"] ∧
    auditErrors (validate { TestMode := true } notFoundWorld 5 AuthzUpdated 0).events =
      ["Invalid response from " ++
        "http://localhost:5001/.well-known/acme-challenge/Hf5GrX4Q7EBax9hc2jJnfw: 404"] ∧
    callbacks (validate { TestMode := true } testWorld 5 AuthzUpdated 0).events =
      callbacks (validate { TestMode := true } notFoundWorld 5 AuthzUpdated 0).events ∧
    callbacks (validate { TestMode := true } testWorld 5 AuthzUpdated 0).events =
      [{ AuthzUpdated with
         Challenges := [{ challenge0Updated with Status := StatusInvalid }, challenge1] }] := by
  decide

/-- Claim C17: for every identifier and every challenge whose path is empty,
`validateSimpleHTTPS` returns status invalid and a non-nil error, with no effect at all:
no request is built or sent, whatever the world. -/
theorem validateSimpleHTTPS_empty_path (va : ValidationAuthorityImpl) (w : World)
    (identifier : AcmeIdentifier) (input : Challenge) (hp : input.Path = "") :
    validateSimpleHTTPS va w identifier input =
      { challenge := { input with Status := StatusInvalid },
        err := some "No path provided for SimpleHTTPS challenge.",
        events := [] } ∧
    (validateSimpleHTTPS va w identifier input).challenge.Status = StatusInvalid ∧
    (validateSimpleHTTPS va w identifier input).err ≠ none ∧
    networkEvents (validateSimpleHTTPS va w identifier input).events = [] ∧
    ∀ w1 : World, validateSimpleHTTPS va w1 identifier input =
      validateSimpleHTTPS va w identifier input := by
  have hlen : len input.Path = 0 := (len_eq_zero _).mpr hp
  have key : ∀ w1 : World, validateSimpleHTTPS va w1 identifier input =
      { challenge := { input with Status := StatusInvalid },
        err := some "No path provided for SimpleHTTPS challenge.",
        events := [] } := by
    intro w1
    unfold validateSimpleHTTPS
    simp [hlen]
  refine ⟨key w, ?_, ?_, ?_, ?_⟩
  · rw [key w]
  · rw [key w]
    simp
  · rw [key w]
    rfl
  · intro w1
    rw [key w1, key w]

/-- Witness of C17: challenge 0 of `AuthzInitial` has no path yet. -/
theorem validateSimpleHTTPS_empty_path_witness :
    challenge0.Path = "" ∧
    validateSimpleHTTPS { TestMode := false } testWorld AuthzInitial.Identifier challenge0 =
      { challenge := { challenge0 with Status := StatusInvalid },
        err := some "No path provided for SimpleHTTPS challenge.",
        events := [] } :=
  ⟨rfl, (validateSimpleHTTPS_empty_path { TestMode := false } testWorld
    AuthzInitial.Identifier challenge0 rfl).1⟩

/-- Claim C19: with `TestMode` off, a DNS identifier and a non-empty path,
`validateSimpleHTTPS` builds its GET for exactly the URL "https://" ++ identifier.Value ++
"/.well-known/acme-challenge/" ++ challenge.Path, sets the `Host` of the request to
identifier.Value, and sends that request and no other. -/
theorem validateSimpleHTTPS_request (va : ValidationAuthorityImpl) (w : World)
    (identifier : AcmeIdentifier) (input : Challenge)
    (htm : va.TestMode = false) (hid : identifier.Type_ = IdentifierDNS)
    (hp : input.Path ≠ "") :
    urlOf va identifier input =
      "https://" ++ identifier.Value ++ "/.well-known/acme-challenge/" ++ input.Path ∧
    hostNameOf va identifier = identifier.Value ∧
    (∀ e, w.NewRequest "GET"
        ("https://" ++ identifier.Value ++ "/.well-known/acme-challenge/" ++ input.Path) =
          .error e →
      networkEvents (validateSimpleHTTPS va w identifier input).events = []) ∧
    (∀ request, w.NewRequest "GET"
        ("https://" ++ identifier.Value ++ "/.well-known/acme-challenge/" ++ input.Path) =
          .ok request →
      networkEvents (validateSimpleHTTPS va w identifier input).events =
        [Event.Do clientOf { request with Host := identifier.Value }] ∧
      (request.Method = "GET" →
        request.URL =
          "https://" ++ identifier.Value ++ "/.well-known/acme-challenge/" ++ input.Path →
        networkEvents (validateSimpleHTTPS va w identifier input).events =
          [Event.Do clientOf
            { Method := "GET",
              URL := "https://" ++ identifier.Value ++ "/.well-known/acme-challenge/" ++
                input.Path,
              Host := identifier.Value }])) := by
  have hlen : len input.Path ≠ 0 := fun h => hp ((len_eq_zero _).mp h)
  have hurl : urlOf va identifier input =
      "https://" ++ identifier.Value ++ "/.well-known/acme-challenge/" ++ input.Path := by
    unfold urlOf hostNameOf
    simp only [htm, Bool.false_eq_true, if_false]
    rfl
  have hhost : hostNameOf va identifier = identifier.Value := by
    unfold hostNameOf
    simp [htm]
  have hsent : ∀ request, w.NewRequest "GET"
      ("https://" ++ identifier.Value ++ "/.well-known/acme-challenge/" ++ input.Path) =
        .ok request →
      networkEvents (validateSimpleHTTPS va w identifier input).events =
        [Event.Do clientOf { request with Host := identifier.Value }] := by
    intro request hreq
    have hreq1 : w.NewRequest "GET" ("https" ++ "://" ++ identifier.Value ++
        "/.well-known/acme-challenge/" ++ input.Path) = .ok request := hreq
    unfold validateSimpleHTTPS
    simp only [hlen, hid, htm, if_false, ne_eq, not_true_eq_false, Bool.false_eq_true, hreq1]
    repeat' split
    all_goals rfl
  refine ⟨hurl, hhost, ?_, ?_⟩
  · intro e hreq
    have hreq1 : w.NewRequest "GET" ("https" ++ "://" ++ identifier.Value ++
        "/.well-known/acme-challenge/" ++ input.Path) = .error e := hreq
    unfold validateSimpleHTTPS
    simp only [hlen, hid, htm, if_false, ne_eq, not_true_eq_false, Bool.false_eq_true, hreq1]
    rfl
  · intro request hreq
    refine ⟨hsent request hreq, ?_⟩
    intro hm hu
    rw [hsent request hreq, ← hm, ← hu]

/-- Witness of C19: the request that the probe of challenge 0 of `AuthzUpdated` sends. -/
theorem validateSimpleHTTPS_request_witness :
    networkEvents (validateSimpleHTTPS { TestMode := false } testWorld
        AuthzUpdated.Identifier challenge0Updated).events =
      [Event.Do clientOf
        { Method := "GET",
          URL := "https://not-example.com/.well-known/acme-challenge/Hf5GrX4Q7EBax9hc2jJnfw",
          Host := "not-example.com" }] :=
  ((validateSimpleHTTPS_request { TestMode := false } testWorld AuthzUpdated.Identifier
    challenge0Updated rfl (by decide) (by decide)).2.2.2
    { Method := "GET",
      URL := "https://not-example.com/.well-known/acme-challenge/Hf5GrX4Q7EBax9hc2jJnfw",
      Host := "" } rfl).2 rfl rfl

/-- Claim C20: with `TestMode` off, a DNS identifier and a dvsni challenge whose `R` and
`S` decode, `validateDvsni` dials exactly identifier.Value ++ ":443", over tcp, with the
TLS `ServerName` challenge.Nonce ++ ".acme.invalid", certificate verification disabled
and a dial timeout of 5 seconds; it opens no other connection, and its outcome depends on
the network through the answer to this dial only. -/
theorem validateDvsni_dial (va : ValidationAuthorityImpl) (w : World)
    (identifier : AcmeIdentifier) (input : Challenge) (R S : List Nat)
    (htm : va.TestMode = false) (hid : identifier.Type_ = "dns")
    (hR : w.B64dec input.R = .ok R) (hS : w.B64dec input.S = .ok S) :
    networkEvents (validateDvsni va w identifier input).events =
      [Event.Dial { Timeout := 5 * Second } "tcp" (identifier.Value ++ ":443")
        { ServerName := input.Nonce ++ ".acme.invalid", InsecureSkipVerify := true }] ∧
    5 * Second = 5000000000 ∧
    dialOf va w identifier input =
      w.DialWithDialer { Timeout := 5 * Second } "tcp" (identifier.Value ++ ":443")
        { ServerName := input.Nonce ++ ".acme.invalid", InsecureSkipVerify := true } ∧
    ∀ w1 : World, w1.B64dec = w.B64dec → w1.Sum256 = w.Sum256 →
      w1.DialWithDialer { Timeout := 5 * Second } "tcp" (identifier.Value ++ ":443")
          { ServerName := input.Nonce ++ ".acme.invalid", InsecureSkipVerify := true } =
        w.DialWithDialer { Timeout := 5 * Second } "tcp" (identifier.Value ++ ":443")
          { ServerName := input.Nonce ++ ".acme.invalid", InsecureSkipVerify := true } →
      validateDvsni va w1 identifier input = validateDvsni va w identifier input := by
  refine ⟨?_, rfl, ?_, ?_⟩
  · unfold validateDvsni
    simp only [hid, ne_eq, not_true_eq_false, if_false, hR, hS, htm, Bool.false_eq_true]
    repeat' split
    all_goals rfl
  · unfold dialOf hostPortOf dialerOf configOf
    simp only [htm, Bool.false_eq_true, if_false]
    rfl
  · intro w1 hb hsum hdial
    have hz : zNameOf w1 R S = zNameOf w R S := by
      unfold zNameOf
      rw [hsum]
    have hR1 : w1.B64dec input.R = .ok R := by rw [hb]; exact hR
    have hS1 : w1.B64dec input.S = .ok S := by rw [hb]; exact hS
    have hdial1 : w1.DialWithDialer { Timeout := 5 * Second } "tcp" (identifier.Value ++ ":443")
          { ServerName := input.Nonce ++ DVSNI_SUFFIX, InsecureSkipVerify := true } =
        w.DialWithDialer { Timeout := 5 * Second } "tcp" (identifier.Value ++ ":443")
          { ServerName := input.Nonce ++ DVSNI_SUFFIX, InsecureSkipVerify := true } := hdial
    unfold validateDvsni
    simp only [hid, ne_eq, not_true_eq_false, if_false, hR, hS, hR1, hS1, htm,
      Bool.false_eq_true, hz, hdial1]

/-- Witness of C20: the dial that the probe of the answered dvsni challenge makes. -/
theorem validateDvsni_dial_witness :
    networkEvents (validateDvsni { TestMode := false } testWorld AuthzUpdated.Identifier
        challenge1Answered).events =
      [Event.Dial { Timeout := 5 * Second } "tcp" "not-example.com:443"
        { ServerName := "f011c9a0ce1a4fe0f18f2252d64c4239.acme.invalid",
          InsecureSkipVerify := true }] :=
  (validateDvsni_dial { TestMode := false } testWorld AuthzUpdated.Identifier
    challenge1Answered challenge1R [1, 2, 3] rfl (by decide) rfl rfl).1

/-! ## The validation authority: the sanity gate of a dvsni challenge -/

theorem validateDvsni_networkEvents_of_decode_error (va : ValidationAuthorityImpl)
    (w : World) (identifier : AcmeIdentifier) (input : Challenge)
    (h : (∃ e, w.B64dec input.R = .error e) ∨ (∃ e, w.B64dec input.S = .error e)) :
    (validateDvsni va w identifier input).challenge.Status = StatusInvalid ∧
    networkEvents (validateDvsni va w identifier input).events = [] := by
  unfold validateDvsni
  simp only []
  split
  · exact ⟨rfl, rfl⟩
  · split
    · exact ⟨rfl, rfl⟩
    · rename_i r hr
      split
      · exact ⟨rfl, rfl⟩
      · rename_i s hs
        rcases h with ⟨e, he⟩ | ⟨e, he⟩
        · rw [hr] at he
          cases he
        · rw [hs] at he
          cases he

theorem decodesTo_false (B64dec : String → Except String (List Nat)) (s : String) (n : Nat)
    (h : ∀ decoded, B64dec s = .ok decoded → decoded.length ≠ n) :
    decodesTo B64dec s n = false := by
  unfold decodesTo
  cases hd : B64dec s with
  | error e => rfl
  | ok decoded => simp [h decoded hd]

theorem hexDecodesTo_false (s : String) (n : Nat)
    (h : ∀ decoded, hexdec s = some decoded → decoded.length ≠ n) :
    hexDecodesTo s n = false := by
  unfold hexDecodesTo
  cases hd : hexdec s with
  | none => rfl
  | some decoded => simp [h decoded hd]

/-- Claim C18: with the sanity gate of §4.2.2, whenever `R`, `S` or the nonce of the
dispatched dvsni challenge fails to decode or decodes to another length than expected,
`validate` hands the challenge over with status invalid and touches the network not at
all; and `validateDvsni` itself, whenever `R` or `S` fails to decode, returns status
invalid without dialing. -/
theorem validate_dvsni_sanity (lengths : DvsniLengths) (va : ValidationAuthorityImpl)
    (w : World) (now : Nat) (authz : Authorization) (challengeIndex : Int)
    (current : Challenge)
    (hc : index? authz.Challenges challengeIndex = some current)
    (hsane : w.IsSane current true = saneDvsni lengths w.B64dec current)
    (hbad : (∀ decoded, w.B64dec current.R = .ok decoded → decoded.length ≠ lengths.R) ∨
      (∀ decoded, w.B64dec current.S = .ok decoded → decoded.length ≠ lengths.S) ∨
      (∀ decoded, hexdec current.Nonce = some decoded → decoded.length ≠ lengths.Nonce)) :
    callbacks (validate va w now authz challengeIndex).events =
      [{ authz with
         Challenges := setIndex authz.Challenges challengeIndex
           { current with Status := StatusInvalid } }] ∧
    index? (setIndex authz.Challenges challengeIndex { current with Status := StatusInvalid })
      challengeIndex = some { current with Status := StatusInvalid } ∧
    networkEvents (validate va w now authz challengeIndex).events = [] ∧
    ∀ (identifier : AcmeIdentifier) (input : Challenge),
      (∃ e, w.B64dec input.R = .error e) ∨ (∃ e, w.B64dec input.S = .error e) →
      (validateDvsni va w identifier input).challenge.Status = StatusInvalid ∧
      networkEvents (validateDvsni va w identifier input).events = [] := by
  have hs : w.IsSane current true = false := by
    rw [hsane]
    unfold saneDvsni
    rcases hbad with h | h | h
    · simp [decodesTo_false _ _ _ h]
    · simp [decodesTo_false _ _ _ h]
    · simp [hexDecodesTo_false _ _ h]
  refine ⟨?_, index?_setIndex_self _ _ _ _ hc, ?_,
    fun identifier input h =>
      validateDvsni_networkEvents_of_decode_error va w identifier input h⟩
  · unfold validate
    simp [hc, hs, callbacks]
  · unfold validate
    simp [hc, hs, networkEvents, Event.isNetwork]

/-- Witness of C18: the dvsni challenge of the fixtures carries no `S` yet, which decodes
to no byte at all, not 32; with the sanity gate of the spec the challenge is handed over
invalid and nothing is dialed. -/
theorem validate_dvsni_sanity_witness :
    callbacks (validate { TestMode := false } saneWorld 5 AuthzUpdated 1).events =
      [{ AuthzUpdated with
         Challenges := setIndex AuthzUpdated.Challenges 1
           { challenge1 with Status := StatusInvalid } }] ∧
    networkEvents (validate { TestMode := false } saneWorld 5 AuthzUpdated 1).events = [] :=
  have h := validate_dvsni_sanity defaultLengths { TestMode := false } saneWorld 5
    AuthzUpdated 1 challenge1 (by decide) (by decide)
    (Or.inr (Or.inl (by
      intro decoded hd
      have h3 : saneWorld.B64dec challenge1.S = .ok [] := rfl
      rw [h3] at hd
      cases hd
      decide)))
  ⟨h.1, h.2.2.1⟩

/-! ## The registration authority: updates and new authorizations -/

theorem find?_map_replace_registration (l : List Registration) (reg : Registration)
    (h : ∃ stored ∈ l, stored.ID = reg.ID) :
    (l.map (fun r => if r.ID = reg.ID then reg else r)).find?
      (fun r => r.ID = reg.ID) = some reg := by
  induction l with
  | nil => simp at h
  | cons a l ih =>
    by_cases ha : a.ID = reg.ID
    · simp [List.find?, ha]
    · have h1 : ∃ stored ∈ l, stored.ID = reg.ID := by
        obtain ⟨stored, hmem, hid⟩ := h
        rcases List.mem_cons.mp hmem with rfl | hm
        · exact absurd hid ha
        · exact ⟨stored, hm, hid⟩
      simp [List.find?, ha, ih h1]

/-- Claim C12: for every base registration that is stored and every update,
`UpdateRegistration` succeeds; the result has the id, the key (hence the key digest) and
the recovery token of the base, whatever id, key and recovery token the update carries;
its contact list and its agreement are those of the base or those of the update; and it
is what the storage authority then holds under the id. -/
theorem UpdateRegistration_server_fields (sa : StorageAuthority)
    (base updates : Registration)
    (h : ∃ stored ∈ sa.registrations, stored.ID = base.ID) :
    ∃ result sa1, UpdateRegistration sa base updates = .ok (result, sa1) ∧
      result.ID = base.ID ∧ result.Key = base.Key ∧
      (∀ w : World, KeyDigestEquals w result.Key base.Key = true) ∧
      result.RecoveryToken = base.RecoveryToken ∧
      (result.Contact = base.Contact ∨ result.Contact = updates.Contact) ∧
      (result.Agreement = base.Agreement ∨ result.Agreement = updates.Agreement) ∧
      sa1.GetRegistration base.ID = some result := by
  have hany : sa.registrations.any (fun r => r.ID = (MergeUpdate base updates).ID) = true := by
    obtain ⟨stored, hmem, hid⟩ := h
    exact List.any_eq_true.mpr ⟨stored, hmem, by simpa [MergeUpdate] using hid⟩
  have hrun : UpdateRegistration sa base updates =
      .ok (MergeUpdate base updates,
        { sa with
          registrations := sa.registrations.map
            (fun r => if r.ID = (MergeUpdate base updates).ID then MergeUpdate base updates
              else r) }) := by
    unfold UpdateRegistration StorageAuthority.UpdateRegistration
    rw [if_pos hany]
  refine ⟨_, _, hrun, rfl, rfl, ?_, rfl, ?_, ?_, ?_⟩
  · intro w
    simp [KeyDigestEquals, MergeUpdate]
  · unfold MergeUpdate
    by_cases hc : updates.Contact = []
    · exact Or.inl (by simp [hc])
    · exact Or.inr (by simp [hc])
  · unfold MergeUpdate
    by_cases hc : updates.Agreement = ""
    · exact Or.inl (by simp [hc])
    · exact Or.inr (by simp [hc])
  · unfold StorageAuthority.GetRegistration
    exact find?_map_replace_registration sa.registrations (MergeUpdate base updates) h

/-- Witness of C12, the scenario of `TestNewRegistrationNoFieldOverwrite`: the update
carries id 33, the short key and the token "RecoverMe2"; the result keeps id 2, the key
`AccountKeyC` and the server token. -/
theorem UpdateRegistration_server_fields_witness :
    ∃ result sa1, UpdateRegistration testSATwo registrationC registrationUpdate =
        .ok (result, sa1) ∧
      result.ID = 2 ∧ result.Key = AccountKeyC ∧
      result.RecoveryToken = registrationC.RecoveryToken := by
  obtain ⟨result, sa1, hrun, hid, hkey, _, htok, _⟩ :=
    UpdateRegistration_server_fields testSATwo registrationC registrationUpdate
      ⟨registrationC, by simp [testSATwo], rfl⟩
  exact ⟨result, sa1, hrun, hid, hkey, htok⟩

theorem MergeResponse_server_fields (current response : Challenge) :
    (MergeResponse current response).Type_ = current.Type_ ∧
    (MergeResponse current response).Status = current.Status ∧
    (MergeResponse current response).URI = current.URI ∧
    (MergeResponse current response).Token = current.Token ∧
    (MergeResponse current response).R = current.R ∧
    (MergeResponse current response).Nonce = current.Nonce := by
  unfold MergeResponse
  split
  · exact ⟨rfl, rfl, rfl, rfl, rfl, rfl⟩
  · split <;> exact ⟨rfl, rfl, rfl, rfl, rfl, rfl⟩

/-- Claim C13: for an authorization with status pending that the storage authority holds
as pending, and an index in range, `UpdateAuthorization` merges into that challenge the
client field of its type only (the path of a simpleHttps challenge, the `S` of a dvsni
challenge), leaves type, status, URI, token, `R` and nonce as they were, changes nothing
else in the authorization, persists the result, calls `VA.UpdateValidations` exactly once,
with the result and the index, and returns the result, which is what the storage
authority then holds. -/
theorem UpdateAuthorization_merge (sa : StorageAuthority) (existing : Authorization)
    (challengeIndex : Int) (response current : Challenge)
    (hs : existing.Status = StatusPending)
    (hc : index? existing.Challenges challengeIndex = some current)
    (hp : ∃ old ∈ sa.pending, old.ID = existing.ID) :
    ∃ authz sa1,
      UpdateAuthorization sa existing challengeIndex response =
        .ok (authz, sa1, [(authz, challengeIndex)]) ∧
      authz.ID = existing.ID ∧ authz.Identifier = existing.Identifier ∧
      authz.Status = existing.Status ∧ authz.RegistrationID = existing.RegistrationID ∧
      authz.Expires = existing.Expires ∧ authz.Combinations = existing.Combinations ∧
      authz.Challenges.length = existing.Challenges.length ∧
      (∀ j : Int, j ≠ challengeIndex →
        index? authz.Challenges j = index? existing.Challenges j) ∧
      index? authz.Challenges challengeIndex = some (MergeResponse current response) ∧
      (current.Type_ = ChallengeTypeSimpleHTTPS →
        MergeResponse current response = { current with Path := response.Path }) ∧
      (current.Type_ = ChallengeTypeDVSNI →
        MergeResponse current response = { current with S := response.S }) ∧
      (MergeResponse current response).Type_ = current.Type_ ∧
      (MergeResponse current response).Status = current.Status ∧
      (MergeResponse current response).URI = current.URI ∧
      (MergeResponse current response).Token = current.Token ∧
      (MergeResponse current response).R = current.R ∧
      (MergeResponse current response).Nonce = current.Nonce ∧
      sa1.GetAuthorization authz.ID = some authz ∧ authz ∈ sa1.pending := by
  have upd := UpdatePendingAuthorization_pending sa
    { existing with
      Challenges := setIndex existing.Challenges challengeIndex
        (MergeResponse current response) } hp
  have hrun : UpdateAuthorization sa existing challengeIndex response =
      .ok ({ existing with
              Challenges := setIndex existing.Challenges challengeIndex
                (MergeResponse current response) },
        (sa.UpdatePendingAuthorization
          { existing with
            Challenges := setIndex existing.Challenges challengeIndex
              (MergeResponse current response) }).2,
        [({ existing with
              Challenges := setIndex existing.Challenges challengeIndex
                (MergeResponse current response) }, challengeIndex)]) := by
    have hs1 : ¬ (existing.Status ≠ StatusPending) := fun hn => hn hs
    unfold UpdateAuthorization
    rw [if_neg hs1]
    simp only [hc]
    split
    · rename_i msg sa2 heq
      have h1 := upd.1
      rw [heq] at h1
      cases h1
    · rename_i sa2 heq
      rw [heq]
  have hm := MergeResponse_server_fields current response
  refine ⟨_, _, hrun, rfl, rfl, rfl, rfl, rfl, rfl, length_setIndex _ _ _, ?_,
    index?_setIndex_self _ _ _ _ hc, ?_, ?_, hm.1, hm.2.1, hm.2.2.1, hm.2.2.2.1,
    hm.2.2.2.2.1, hm.2.2.2.2.2, upd.2.1, upd.2.2.1⟩
  · intro j hj
    exact index?_setIndex_ne _ _ _ _ hj
  · intro ht
    unfold MergeResponse
    rw [if_pos ht]
  · intro ht
    unfold MergeResponse
    have hne : current.Type_ ≠ ChallengeTypeSimpleHTTPS := by
      rw [ht]
      decide
    rw [if_neg hne, if_pos ht]

/-- Witness of C13, the scenario of `TestUpdateAuthorization`: the response with the path
is merged into challenge 0 of `AuthzInitial`, and the validation authority is called once
with `AuthzUpdated`. -/
theorem UpdateAuthorization_merge_witness :
    ∃ sa1, UpdateAuthorization testSAPending AuthzInitial 0 Response0 =
      .ok (AuthzUpdated, sa1, [(AuthzUpdated, 0)]) ∧
      sa1.GetAuthorization AuthzUpdated.ID = some AuthzUpdated := by
  obtain ⟨authz, sa1, hrun, _, _, _, _, _, _, _, _, _, _, _, _, _, _, _, _, _, hget, _⟩ :=
    UpdateAuthorization_merge testSAPending AuthzInitial 0 Response0 challenge0 rfl
      (by decide) ⟨AuthzInitial, by simp [testSAPending], rfl⟩
  have hauthz : authz = AuthzUpdated := by
    have h2 : UpdateAuthorization testSAPending AuthzInitial 0 Response0 =
        .ok (AuthzUpdated, (testSAPending.UpdatePendingAuthorization AuthzUpdated).2,
          [(AuthzUpdated, 0)]) := by
      unfold UpdateAuthorization
      rfl
    rw [h2] at hrun
    injection hrun with hrun
    injection hrun with h3 _
    exact h3.symm
  subst hauthz
  exact ⟨sa1, hrun, hget⟩

/-- Claim C14: for every registration input whose key has a modulus of fewer bits than
the minimum key size, `NewRegistration` returns an error of kind malformed; no
registration results, for any state of the storage authority. -/
theorem NewRegistration_short_key (ra : RegistrationAuthorityImpl) (w : World)
    (rng : Nat → Nat) (sa : StorageAuthority) (input : Registration)
    (h : bitLen input.Key.N < ra.MinKeySize) :
    NewRegistration ra w rng sa input = .error .keyTooSmall ∧
    RAError.keyTooSmall.kind = ErrorKind.malformed ∧
    ∀ created, NewRegistration ra w rng sa input ≠ .ok created := by
  have hk : GoodKey ra input.Key = false := by
    unfold GoodKey
    simp [h]
  have hrun : NewRegistration ra w rng sa input = .error .keyTooSmall := by
    unfold NewRegistration
    simp [hk]
  refine ⟨hrun, rfl, ?_⟩
  intro created hc
  rw [hrun] at hc
  cases hc

/-- Witness of C14, the scenario of `TestNewRegistrationBadKey`: the short key has 656
bits, the minimum is 2048. -/
theorem NewRegistration_short_key_witness :
    bitLen shortKeyInput.Key.N < testRA.MinKeySize ∧
    NewRegistration testRA testWorld zeroRng testSA shortKeyInput = .error .keyTooSmall :=
  ⟨by decide!,
    (NewRegistration_short_key testRA testWorld zeroRng testSA shortKeyInput
      (by decide!)).1⟩

theorem withMaterial_Type (rng : Nat → Nat) (c : Challenge) :
    (withMaterial rng c).Type_ = c.Type_ ∧ (withMaterial rng c).Status = c.Status := by
  unfold withMaterial
  split
  · exact ⟨rfl, rfl⟩
  · split <;> exact ⟨rfl, rfl⟩

theorem prepareChallenges_Type (authzBase id : String) (rng : Nat → Nat)
    (challenges : List Challenge) :
    ∀ i, (prepareChallenges authzBase id rng i challenges).map (fun c => c.Type_) =
      challenges.map (fun c => c.Type_) := by
  induction challenges with
  | nil =>
    intro i
    rfl
  | cons c rest ih =>
    intro i
    simp only [prepareChallenges, List.map_cons, ih (i + 1)]
    rw [(withMaterial_Type _ c).1]

/-- Claim C15: `NewAuthorization` refuses the registration id 0 with an error of kind
malformed; for a positive registration id and an identifier that the policy authority
accepts it returns an authorization with status pending, that registration id, the
requested identifier, and challenges of the types of the policy authority's challenges,
in their order, with its combinations; and this authorization is what the storage
authority then holds, as pending, under its id. -/
theorem NewAuthorization_rules (ra : RegistrationAuthorityImpl) (pa : PolicyAuthority)
    (rng : Nat → Nat) (sa : StorageAuthority) (request : Authorization) :
    NewAuthorization ra pa rng sa request 0 = .error .invalidRegistrationID ∧
    RAError.invalidRegistrationID.kind = ErrorKind.malformed ∧
    ∀ regID : Int, 0 < regID → pa.WillingToIssue request.Identifier = none →
      ∃ authz sa1, NewAuthorization ra pa rng sa request regID = .ok (authz, sa1) ∧
        authz.Status = StatusPending ∧ authz.RegistrationID = regID ∧
        authz.Identifier = request.Identifier ∧
        authz.Challenges.map (fun c => c.Type_) =
          (pa.ChallengesFor request.Identifier).1.map (fun c => c.Type_) ∧
        authz.Combinations = (pa.ChallengesFor request.Identifier).2 ∧
        sa1.GetAuthorization authz.ID = some authz ∧ authz ∈ sa1.pending := by
  refine ⟨rfl, rfl, ?_⟩
  intro regID hpos hwilling
  have hreg : ¬ regID ≤ 0 := not_le.mpr hpos
  have upd := UpdatePendingAuthorization_pending
    (sa.NewPendingAuthorization rng
      { ID := "", RegistrationID := regID, Identifier := request.Identifier,
        Status := StatusPending, Expires := 0,
        Challenges := (pa.ChallengesFor request.Identifier).1,
        Combinations := (pa.ChallengesFor request.Identifier).2 }).2
    { ID := NewToken rng, RegistrationID := regID, Identifier := request.Identifier,
      Status := StatusPending, Expires := 0,
      Challenges := prepareChallenges ra.AuthzBase (NewToken rng) (shift rng 32) 0
        (pa.ChallengesFor request.Identifier).1,
      Combinations := (pa.ChallengesFor request.Identifier).2 }
    ⟨{ ID := NewToken rng, RegistrationID := regID, Identifier := request.Identifier,
       Status := StatusPending, Expires := 0,
       Challenges := (pa.ChallengesFor request.Identifier).1,
       Combinations := (pa.ChallengesFor request.Identifier).2 },
      by simp [StorageAuthority.NewPendingAuthorization], rfl⟩
  have hrun : NewAuthorization ra pa rng sa request regID =
      .ok ({ ID := NewToken rng, RegistrationID := regID, Identifier := request.Identifier,
             Status := StatusPending, Expires := 0,
             Challenges := prepareChallenges ra.AuthzBase (NewToken rng) (shift rng 32) 0
               (pa.ChallengesFor request.Identifier).1,
             Combinations := (pa.ChallengesFor request.Identifier).2 },
        ((sa.NewPendingAuthorization rng
          { ID := "", RegistrationID := regID, Identifier := request.Identifier,
            Status := StatusPending, Expires := 0,
            Challenges := (pa.ChallengesFor request.Identifier).1,
            Combinations := (pa.ChallengesFor request.Identifier).2 }).2.UpdatePendingAuthorization
          { ID := NewToken rng, RegistrationID := regID, Identifier := request.Identifier,
            Status := StatusPending, Expires := 0,
            Challenges := prepareChallenges ra.AuthzBase (NewToken rng) (shift rng 32) 0
              (pa.ChallengesFor request.Identifier).1,
            Combinations := (pa.ChallengesFor request.Identifier).2 }).2) := by
    unfold NewAuthorization
    rw [if_neg hreg]
    simp only [hwilling]
    split
    · rename_i msg sa2 heq
      have h1 := upd.1
      have h2 : (some msg, sa2).1 = none := by
        rw [← heq]
        exact h1
      cases h2
    · rename_i sa2 heq
      have h2 : ((sa.NewPendingAuthorization rng
          { ID := "", RegistrationID := regID, Identifier := request.Identifier,
            Status := StatusPending, Expires := 0,
            Challenges := (pa.ChallengesFor request.Identifier).1,
            Combinations := (pa.ChallengesFor request.Identifier).2 }).2.UpdatePendingAuthorization
          { ID := NewToken rng, RegistrationID := regID, Identifier := request.Identifier,
            Status := StatusPending, Expires := 0,
            Challenges := prepareChallenges ra.AuthzBase (NewToken rng) (shift rng 32) 0
              (pa.ChallengesFor request.Identifier).1,
            Combinations := (pa.ChallengesFor request.Identifier).2 }).2 = sa2 := by
        have h3 := congrArg Prod.snd heq
        exact h3
      rw [h2]
      rfl
  exact ⟨_, _, hrun, rfl, rfl, rfl, prepareChallenges_Type _ _ _ _ 0, rfl, upd.2.1,
    upd.2.2.1⟩

/-- Witness of C15, the scenario of `TestNewAuthorization`: registration id 0 is refused;
for registration 1 and not-example.com the default policy gives a pending authorization
with a simpleHttps and then a dvsni challenge. -/
theorem NewAuthorization_rules_witness :
    NewAuthorization testRA testPA zeroRng testSA AuthzRequest 0 =
      .error .invalidRegistrationID ∧
    ∃ authz sa1, NewAuthorization testRA testPA zeroRng testSA AuthzRequest 1 =
        .ok (authz, sa1) ∧
      authz.Status = StatusPending ∧ authz.RegistrationID = 1 ∧
      authz.Identifier = AuthzRequest.Identifier ∧
      authz.Challenges.map (fun c => c.Type_) =
        [ChallengeTypeSimpleHTTPS, ChallengeTypeDVSNI] ∧
      sa1.GetAuthorization authz.ID = some authz := by
  have h := NewAuthorization_rules testRA testPA zeroRng testSA AuthzRequest
  obtain ⟨authz, sa1, hrun, hst, hreg, hid, hty, _, hget, _⟩ := h.2.2 1 (by decide) rfl
  exact ⟨h.1, authz, sa1, hrun, hst, hreg, hid, hty, hget⟩

/-! ## The web front end: the agreement of a new registration -/

/-- A registration that `NewRegistration` creates carries the agreement of the input and
is among the stored ones. -/
theorem NewRegistration_Agreement (ra : RegistrationAuthorityImpl) (w : World)
    (rng : Nat → Nat) (sa : StorageAuthority) (input result : Registration)
    (sa1 : StorageAuthority)
    (h : NewRegistration ra w rng sa input = .ok (result, sa1)) :
    result.Agreement = input.Agreement ∧ result ∈ sa1.registrations := by
  unfold NewRegistration at h
  split at h
  · cases h
  · split at h
    · cases h
    · simp only [] at h
      split at h
      · cases h
      · injection h with h
        injection h with hres hsa
        subst hres
        subst hsa
        exact ⟨rfl, by simp [StorageAuthority.NewRegistration]⟩

/-- Claim C16: when a new-reg request carries a verified payload whose agreement is
neither empty nor the current terms URI, the front end rejects it as malformed and stores
nothing; if the request is a POST under a key not yet registered, the detail is "Provided
agreement URL [<supplied>] does not match current agreement URL [<current>]". An empty
agreement, and one equal to the current terms URI, pass this check: the outcome is that
of the registration authority, and a registration that is created carries the agreement
of the payload unchanged and is stored. -/
theorem NewRegistration_agreement (wfe : WebFrontEndImpl) (ww : WebWorld) (w : World)
    (rng : Nat → Nat) (sa : StorageAuthority) (request : WebRequest) (body : String)
    (key : JsonWebKey) (payload : String) (init : Registration)
    (hbody : request.Body = some body) (hjws : ww.verifyJWS body = some (key, payload))
    (hjson : ww.unmarshalRegistration payload = some init) :
    (init.Agreement ≠ "" → init.Agreement ≠ wfe.SubscriberAgreementURL →
      (∃ detail, wfe.NewRegistration ww w rng sa request =
        (.problem .malformed detail, sa)) ∧
      (request.Method = "POST" → (sa.GetRegistrationByKey w key).isSome = false →
        wfe.NewRegistration ww w rng sa request =
          (.problem .malformed
            ("Provided agreement URL [" ++ init.Agreement ++
              "] does not match current agreement URL [" ++ wfe.SubscriberAgreementURL ++
              "]"), sa))) ∧
    (init.Agreement = "" ∨ init.Agreement = wfe.SubscriberAgreementURL →
      request.Method = "POST" → (sa.GetRegistrationByKey w key).isSome = false →
      wfe.NewRegistration ww w rng sa request =
        match NewRegistration wfe.RA w rng sa { init with Key := key } with
        | .error e => (.refused e, sa)
        | .ok (reg, sa1) => (.registrationCreated reg, sa1)) ∧
    (∀ reg sa1, wfe.NewRegistration ww w rng sa request = (.registrationCreated reg, sa1) →
      reg.Agreement = init.Agreement ∧
      (init.Agreement = "" ∨ init.Agreement = wfe.SubscriberAgreementURL) ∧
      reg ∈ sa1.registrations) := by
  have hverify : request.Body.bind ww.verifyJWS = some (key, payload) := by
    rw [hbody]
    exact hjws
  have hauth : authenticate ww ww.unmarshalRegistration "JSON" request = .ok (key, init) := by
    unfold authenticate
    simp only [hverify, hjson]
  refine ⟨?_, ?_, ?_⟩
  · intro h1 h2
    have hbad : init.Agreement ≠ "" ∧ init.Agreement ≠ wfe.SubscriberAgreementURL := ⟨h1, h2⟩
    constructor
    · unfold WebFrontEndImpl.NewRegistration
      split
      · exact ⟨_, rfl⟩
      · simp only [hauth]
        split
        · exact ⟨_, rfl⟩
        · exact ⟨_, rfl⟩
    · intro hpost hfree
      have hm : ¬ request.Method ≠ "POST" := fun hn => hn hpost
      unfold WebFrontEndImpl.NewRegistration
      rw [if_neg hm]
      simp only [hauth, hfree, Bool.false_eq_true, if_false]
      rw [if_pos hbad]
      rfl
  · intro hgood hpost hfree
    have hm : ¬ request.Method ≠ "POST" := fun hn => hn hpost
    have hok : ¬ (init.Agreement ≠ "" ∧ init.Agreement ≠ wfe.SubscriberAgreementURL) := by
      rintro ⟨h1, h2⟩
      rcases hgood with h | h
      · exact h1 h
      · exact h2 h
    unfold WebFrontEndImpl.NewRegistration
    rw [if_neg hm]
    simp only [hauth, hfree, Bool.false_eq_true, if_false]
    rw [if_neg hok]
  · intro reg sa1 hcreated
    unfold WebFrontEndImpl.NewRegistration at hcreated
    split at hcreated
    · cases hcreated
    · simp only [hauth] at hcreated
      split at hcreated
      · cases hcreated
      · split at hcreated
        · cases hcreated
        · rename_i hok
          split at hcreated
          · cases hcreated
          · rename_i reg1 sa2 hra
            injection hcreated with h1 h2
            injection h1 with h1
            subst h1
            subst h2
            have hagr := NewRegistration_Agreement _ _ _ _ _ _ _ hra
            refine ⟨hagr.1, ?_, hagr.2⟩
            by_cases he : init.Agreement = ""
            · exact Or.inl he
            · by_cases ht : init.Agreement = wfe.SubscriberAgreementURL
              · exact Or.inr ht
              · exact absurd ⟨he, ht⟩ hok

/-- Witness of C16, the scenario of `TestNewRegistration` of the front end: the agreement
https://letsencrypt.org/im-bad is refused with the detail of the test, and the current
terms URI is accepted and stored unchanged. -/
theorem NewRegistration_agreement_witness :
    testWFE.NewRegistration testWeb testWorld zeroRng testSA
        { Method := "POST", Body := some "signed:im-bad" } =
      (.problem .malformed
        ("Provided agreement URL [https://letsencrypt.org/im-bad] does not match current " ++
          "agreement URL [http://example.invalid/terms]"), testSA) ∧
    ∃ reg sa1, testWFE.NewRegistration testWeb testWorld zeroRng testSA
        { Method := "POST", Body := some "signed:terms" } = (.registrationCreated reg, sa1) ∧
      reg.Agreement = agreementURL ∧ reg ∈ sa1.registrations := by
  have hfree : (testSA.GetRegistrationByKey testWorld AccountKeyC).isSome = false := by
    decide!
  have hk : GoodKey testRA AccountKeyC = true := by decide!
  have hc : validateContacts testRA ["tel:123456789"] = true := by decide
  constructor
  · exact ((NewRegistration_agreement testWFE testWeb testWorld zeroRng testSA
      { Method := "POST", Body := some "signed:im-bad" } "signed:im-bad" AccountKeyC "im-bad"
      (payloadWith "https://letsencrypt.org/im-bad") rfl rfl rfl).1
      (by decide) (by decide)).2 rfl hfree
  · have hra : NewRegistration testRA testWorld zeroRng testSA
        { payloadWith agreementURL with Key := AccountKeyC } =
        .ok (testSA.NewRegistration
          { ID := 0, Key := AccountKeyC, RecoveryToken := NewToken zeroRng,
            Contact := ["tel:123456789"], Agreement := agreementURL }) := by
      unfold NewRegistration
      simp [payloadWith, hk, hfree, hc]
    have hrun : testWFE.NewRegistration testWeb testWorld zeroRng testSA
        { Method := "POST", Body := some "signed:terms" } =
        (.registrationCreated (testSA.NewRegistration
          { ID := 0, Key := AccountKeyC, RecoveryToken := NewToken zeroRng,
            Contact := ["tel:123456789"], Agreement := agreementURL }).1,
          (testSA.NewRegistration
          { ID := 0, Key := AccountKeyC, RecoveryToken := NewToken zeroRng,
            Contact := ["tel:123456789"], Agreement := agreementURL }).2) := by
      unfold WebFrontEndImpl.NewRegistration
      have hauth : authenticate testWeb testWeb.unmarshalRegistration "JSON"
          { Method := "POST", Body := some "signed:terms" } =
          .ok (AccountKeyC, payloadWith agreementURL) := rfl
      have hagree : ¬ ((payloadWith agreementURL).Agreement ≠ "" ∧
          (payloadWith agreementURL).Agreement ≠ testWFE.SubscriberAgreementURL) :=
        fun h => h.2 rfl
      have hra1 : NewRegistration testWFE.RA testWorld zeroRng testSA
          { payloadWith agreementURL with Key := AccountKeyC } =
          .ok (testSA.NewRegistration
            { ID := 0, Key := AccountKeyC, RecoveryToken := NewToken zeroRng,
              Contact := ["tel:123456789"], Agreement := agreementURL }) := hra
      simp only [ne_eq, not_true_eq_false, if_false, hauth, hfree, Bool.false_eq_true]
      rw [if_neg hagree, hra1]
    have hfields := (NewRegistration_agreement testWFE testWeb testWorld zeroRng testSA
      { Method := "POST", Body := some "signed:terms" } "signed:terms" AccountKeyC "terms"
      (payloadWith agreementURL) rfl rfl rfl).2.2 _ _ hrun
    exact ⟨_, _, hrun, hfields.1, hfields.2.2⟩

/-! ## The validation authority: what the probes return -/

theorem setIndex_self {α : Type} (xs : List α) (i : Int) (x : α)
    (h : index? xs i = some x) : setIndex xs i x = xs := by
  rw [index?_eq_some_iff] at h
  obtain ⟨h0, hg⟩ := h
  unfold setIndex
  rw [if_neg (not_lt.mpr h0)]
  generalize i.toNat = n at hg
  induction xs generalizing n with
  | nil => rfl
  | cons a xs ih =>
    cases n with
    | zero =>
      simp only [List.get?] at hg
      cases hg
      rfl
    | succ n =>
      simp only [List.get?] at hg
      simp only [List.set, ih n hg]

/-- The status that the HTTP probe returns is valid or invalid, and it is valid exactly
when the returned error is nil. -/
theorem validateSimpleHTTPS_status (va : ValidationAuthorityImpl) (w : World)
    (identifier : AcmeIdentifier) (input : Challenge) :
    ((validateSimpleHTTPS va w identifier input).challenge.Status = StatusValid ∨
      (validateSimpleHTTPS va w identifier input).challenge.Status = StatusInvalid) ∧
    ((validateSimpleHTTPS va w identifier input).err = none ↔
      (validateSimpleHTTPS va w identifier input).challenge.Status = StatusValid) := by
  have hne : ¬ StatusInvalid = StatusValid := by decide
  unfold validateSimpleHTTPS
  simp only []
  repeat' split
  all_goals simp [hne]

/-- The status that the TLS probe returns is valid or invalid, and it is valid exactly
when the returned error is nil. -/
theorem validateDvsni_status (va : ValidationAuthorityImpl) (w : World)
    (identifier : AcmeIdentifier) (input : Challenge) :
    ((validateDvsni va w identifier input).challenge.Status = StatusValid ∨
      (validateDvsni va w identifier input).challenge.Status = StatusInvalid) ∧
    ((validateDvsni va w identifier input).err = none ↔
      (validateDvsni va w identifier input).challenge.Status = StatusValid) := by
  have hne : ¬ StatusInvalid = StatusValid := by decide
  unfold validateDvsni
  simp only []
  repeat' split
  all_goals simp [hne]

/-- Claim C26: for every identifier, challenge, `TestMode` and world (network outcome),
`validateSimpleHTTPS` and `validateDvsni` each return a challenge whose status is valid
or invalid, whatever the status of the input, and a nil error exactly when the status is
valid. -/
theorem probes_status_and_error (va : ValidationAuthorityImpl) (w : World)
    (identifier : AcmeIdentifier) (input : Challenge) :
    (((validateSimpleHTTPS va w identifier input).challenge.Status = StatusValid ∨
        (validateSimpleHTTPS va w identifier input).challenge.Status = StatusInvalid) ∧
      ((validateSimpleHTTPS va w identifier input).err = none ↔
        (validateSimpleHTTPS va w identifier input).challenge.Status = StatusValid)) ∧
    (((validateDvsni va w identifier input).challenge.Status = StatusValid ∨
        (validateDvsni va w identifier input).challenge.Status = StatusInvalid) ∧
      ((validateDvsni va w identifier input).err = none ↔
        (validateDvsni va w identifier input).challenge.Status = StatusValid)) ∧
    (validateSimpleHTTPS va w identifier input).challenge.Status ≠ StatusPending ∧
    (validateDvsni va w identifier input).challenge.Status ≠ StatusPending := by
  have h1 := validateSimpleHTTPS_status va w identifier input
  have h2 := validateDvsni_status va w identifier input
  have hv : StatusValid ≠ StatusPending := by decide
  have hi : StatusInvalid ≠ StatusPending := by decide
  refine ⟨h1, h2, ?_, ?_⟩
  · rcases h1.1 with h | h <;> rw [h]
    · exact hv
    · exact hi
  · rcases h2.1 with h | h <;> rw [h]
    · exact hv
    · exact hi

/-- Claim C27: for every input, the challenge returned by `validateSimpleHTTPS` and by
`validateDvsni` is the input challenge with, at most, another status: type, URI, token,
path, `R`, `S` and nonce are those of the input. -/
theorem probes_frame (va : ValidationAuthorityImpl) (w : World)
    (identifier : AcmeIdentifier) (input : Challenge) :
    ((validateSimpleHTTPS va w identifier input).challenge =
        { input with
          Status := (validateSimpleHTTPS va w identifier input).challenge.Status } ∧
      (validateSimpleHTTPS va w identifier input).challenge.Type_ = input.Type_ ∧
      (validateSimpleHTTPS va w identifier input).challenge.URI = input.URI ∧
      (validateSimpleHTTPS va w identifier input).challenge.Token = input.Token ∧
      (validateSimpleHTTPS va w identifier input).challenge.Path = input.Path ∧
      (validateSimpleHTTPS va w identifier input).challenge.R = input.R ∧
      (validateSimpleHTTPS va w identifier input).challenge.S = input.S ∧
      (validateSimpleHTTPS va w identifier input).challenge.Nonce = input.Nonce) ∧
    ((validateDvsni va w identifier input).challenge =
        { input with Status := (validateDvsni va w identifier input).challenge.Status } ∧
      (validateDvsni va w identifier input).challenge.Type_ = input.Type_ ∧
      (validateDvsni va w identifier input).challenge.URI = input.URI ∧
      (validateDvsni va w identifier input).challenge.Token = input.Token ∧
      (validateDvsni va w identifier input).challenge.Path = input.Path ∧
      (validateDvsni va w identifier input).challenge.R = input.R ∧
      (validateDvsni va w identifier input).challenge.S = input.S ∧
      (validateDvsni va w identifier input).challenge.Nonce = input.Nonce) := by
  have h1 := validateSimpleHTTPS_challenge va w identifier input
  have h2 := validateDvsni_challenge va w identifier input
  constructor
  · refine ⟨h1, ?_, ?_, ?_, ?_, ?_, ?_, ?_⟩ <;> rw [h1]
  · refine ⟨h2, ?_, ?_, ?_, ?_, ?_, ?_, ?_⟩ <;> rw [h2]

/-! ## The validation authority: dispatch, certificate chain, index -/

/-- Claim C28: when the dispatched challenge passes the sanity check and its type is
neither simpleHttps nor dvsni, `validate` runs no probe (nothing touches the network and
nothing is logged before the audit record), leaves the challenge and so the whole
authorization unchanged, records an empty error, and hands the authorization to
`RA.OnValidationUpdate` once. -/
theorem validate_unsupported_type (va : ValidationAuthorityImpl) (w : World) (now : Nat)
    (authz : Authorization) (challengeIndex : Int) (current : Challenge)
    (hc : index? authz.Challenges challengeIndex = some current)
    (hs : w.IsSane current true = true)
    (h1 : current.Type_ ≠ ChallengeTypeSimpleHTTPS)
    (h2 : current.Type_ ≠ ChallengeTypeDVSNI) :
    validate va w now authz challengeIndex =
      { events :=
          [Event.AuditObject "Validation result"
            { ID := authz.ID, Requester := authz.RegistrationID, Challenge := current,
              RequestTime := now, ResponseTime := 0, Error := "" },
            Event.NoticeValidations authz, Event.OnValidationUpdate authz],
        panicked := false } ∧
    probeOf va w authz.Identifier current =
      { challenge := current, err := none, events := [] } ∧
    networkEvents (validate va w now authz challengeIndex).events = [] ∧
    auditErrors (validate va w now authz challengeIndex).events = [""] ∧
    callbacks (validate va w now authz challengeIndex).events = [authz] := by
  have hset : setIndex authz.Challenges challengeIndex current = authz.Challenges :=
    setIndex_self _ _ _ hc
  have hrun : validate va w now authz challengeIndex =
      { events :=
          [Event.AuditObject "Validation result"
            { ID := authz.ID, Requester := authz.RegistrationID, Challenge := current,
              RequestTime := now, ResponseTime := 0, Error := "" },
            Event.NoticeValidations authz, Event.OnValidationUpdate authz],
        panicked := false } := by
    unfold validate
    simp only [hc, hs, h1, h2, Bool.not_true, Bool.false_eq_true, if_false, hset,
      List.nil_append]
  have hprobe : probeOf va w authz.Identifier current =
      { challenge := current, err := none, events := [] } := by
    unfold probeOf
    rw [if_neg h1, if_neg h2]
  refine ⟨hrun, hprobe, ?_, ?_, ?_⟩
  · rw [hrun]
    rfl
  · rw [hrun]
    rfl
  · rw [hrun]
    rfl

/-- Witness of C28: the challenge of type "dns" of `TestChallenge` stays pending, and the
authorization is handed over as it came. -/
theorem validate_unsupported_type_witness :
    callbacks (validate { TestMode := false } testWorld 5 AuthzOther 0).events =
      [AuthzOther] ∧
    index? AuthzOther.Challenges 0 = some challengeDNS ∧
    challengeDNS.Status = StatusPending ∧
    auditErrors (validate { TestMode := false } testWorld 5 AuthzOther 0).events = [""] :=
  have h := validate_unsupported_type { TestMode := false } testWorld 5 AuthzOther 0
    challengeDNS (by decide) (by decide) (by decide) (by decide)
  ⟨h.2.2.2.2, by decide, rfl, h.2.2.2.1⟩

/-- Claim C29: `validateDvsni` looks at the first peer certificate only; when the dial
succeeds and no name among the `DNSNames` of the first certificate has the bytes of
`zName`, the result is status invalid with the error "Correct zName not found for DVSNI
challenge", whatever the later certificates of the chain carry. -/
theorem validateDvsni_first_certificate (va : ValidationAuthorityImpl) (w : World)
    (identifier : AcmeIdentifier) (input : Challenge) (R S : List Nat)
    (cert : x509.Certificate) (rest : List x509.Certificate)
    (hid : identifier.Type_ = "dns")
    (hR : w.B64dec input.R = .ok R) (hS : w.B64dec input.S = .ok S)
    (hdial : dialOf va w identifier input = .ok (cert :: rest))
    (hno : ∀ name ∈ cert.DNSNames, bytes name ≠ bytes (zNameOf w R S)) :
    (validateDvsni va w identifier input).challenge = { input with Status := StatusInvalid } ∧
    (validateDvsni va w identifier input).err =
      some "Correct zName not found for DVSNI challenge" ∧
    ∀ (w1 : World) (rest1 : List x509.Certificate),
      w1.B64dec = w.B64dec → w1.Sum256 = w.Sum256 →
      dialOf va w1 identifier input = .ok (cert :: rest1) →
      (validateDvsni va w1 identifier input).challenge =
        (validateDvsni va w identifier input).challenge ∧
      (validateDvsni va w1 identifier input).err =
        (validateDvsni va w identifier input).err := by
  have key : ∀ (w1 : World) (rest1 : List x509.Certificate),
      w1.B64dec = w.B64dec → w1.Sum256 = w.Sum256 →
      dialOf va w1 identifier input = .ok (cert :: rest1) →
      (validateDvsni va w1 identifier input).challenge =
        { input with Status := StatusInvalid } ∧
      (validateDvsni va w1 identifier input).err =
        some "Correct zName not found for DVSNI challenge" := by
    intro w1 rest1 hb hsum hd
    have hR1 : w1.B64dec input.R = .ok R := by rw [hb]; exact hR
    have hS1 : w1.B64dec input.S = .ok S := by rw [hb]; exact hS
    have hz : zNameOf w1 R S = zNameOf w R S := by
      unfold zNameOf
      rw [hsum]
    have hmatch : sanMatches (zNameOf w R S) cert.DNSNames = false := by
      cases hm : sanMatches (zNameOf w R S) cert.DNSNames with
      | false => rfl
      | true =>
        obtain ⟨name, hmem, hbytes⟩ := (sanMatches_iff _ _).mp hm
        exact absurd hbytes (hno name hmem)
    unfold dialOf hostPortOf dialerOf configOf at hd
    unfold validateDvsni
    simp [hid, hR1, hS1, hz, hd, hmatch]
  have h0 := key w rest rfl rfl hdial
  refine ⟨h0.1, h0.2, ?_⟩
  intro w1 rest1 hb hsum hd
  have h1 := key w1 rest1 hb hsum hd
  exact ⟨h1.1.trans h0.1.symm, h1.2.trans h0.2.symm⟩

/-- Witness of C29: the subscriber presents two certificates, the second with the `zName`
of the answered dvsni challenge, the first without it; the probe answers invalid. -/
theorem validateDvsni_first_certificate_witness :
    dialOf { TestMode := false } chainWorld AuthzUpdated.Identifier challenge1Answered =
      .ok [{ DNSNames := ["not-example.com"] },
        { DNSNames := [zNameOf chainWorld challenge1R [1, 2, 3]] }] ∧
    (validateDvsni { TestMode := false } chainWorld AuthzUpdated.Identifier
      challenge1Answered).challenge.Status = StatusInvalid ∧
    (validateDvsni { TestMode := false } chainWorld AuthzUpdated.Identifier
      challenge1Answered).err = some "Correct zName not found for DVSNI challenge" :=
  have h := validateDvsni_first_certificate { TestMode := false } chainWorld
    AuthzUpdated.Identifier challenge1Answered challenge1R [1, 2, 3]
    { DNSNames := ["not-example.com"] }
    [{ DNSNames := [zNameOf chainWorld challenge1R [1, 2, 3]] }]
    (by decide) rfl rfl rfl (by decide!)
  ⟨rfl, by rw [h.1], h.2.1⟩

/-- Claim C30: `validate` does not check `challengeIndex`; for an index from 0 up to the
number of challenges, excluded, the accesses `authz.Challenges[challengeIndex]` succeed,
the run ends without panic and calls back once; for a negative index and for one that is
not below the number of challenges the first access panics: nothing is logged and
`RA.OnValidationUpdate` is not called; `UpdateValidations` returns nil for every index,
having started that one run. -/
theorem validate_index_unchecked (va : ValidationAuthorityImpl) (w : World) (now : Nat)
    (authz : Authorization) (challengeIndex : Int) :
    (0 ≤ challengeIndex → challengeIndex < authz.Challenges.length →
      (validate va w now authz challengeIndex).panicked = false ∧
      (callbacks (validate va w now authz challengeIndex).events).length = 1) ∧
    (challengeIndex < 0 ∨ (authz.Challenges.length : Int) ≤ challengeIndex →
      validate va w now authz challengeIndex = { events := [], panicked := true } ∧
      callbacks (validate va w now authz challengeIndex).events = []) ∧
    UpdateValidations va authz challengeIndex = (none, [(authz, challengeIndex)]) := by
  refine ⟨?_, ?_, rfl⟩
  · intro h0 h1
    obtain ⟨current, hc⟩ := index?_isSome authz.Challenges challengeIndex h0 h1
    by_cases hs : w.IsSane current true = true
    · have hev := validate_events_probe va w now authz challengeIndex current hc hs
      constructor
      · unfold validate
        simp only [hc, hs, Bool.not_true, Bool.false_eq_true, if_false]
      · rw [hev, callbacks_append, (probeOf_silent _ _ _ _).1]
        rfl
    · have hs1 : w.IsSane current true = false := by
        cases h : w.IsSane current true with
        | false => rfl
        | true => exact absurd h hs
      unfold validate
      simp [hc, hs1, callbacks]
  · intro h
    have hnone : index? authz.Challenges challengeIndex = none := by
      unfold index?
      rcases h with h | h
      · rw [if_pos h]
      · have h0 : ¬ challengeIndex < 0 := by omega
        rw [if_neg h0]
        apply List.get?_eq_none.mpr
        omega
    have hrun : validate va w now authz challengeIndex =
        { events := [], panicked := true } := by
      unfold validate
      simp only [hnone]
    exact ⟨hrun, by rw [hrun]; rfl⟩

/-- Witness of C30: `AuthzUpdated` has two challenges; index 1 runs, indices 2 and -1
panic before any callback, and `UpdateValidations` has answered nil. -/
theorem validate_index_unchecked_witness :
    (validate { TestMode := false } testWorld 5 AuthzUpdated 1).panicked = false ∧
    validate { TestMode := false } testWorld 5 AuthzUpdated 2 =
      { events := [], panicked := true } ∧
    validate { TestMode := false } testWorld 5 AuthzUpdated (-1) =
      { events := [], panicked := true } ∧
    UpdateValidations { TestMode := false } AuthzUpdated 2 = (none, [(AuthzUpdated, 2)]) :=
  ⟨((validate_index_unchecked { TestMode := false } testWorld 5 AuthzUpdated 1).1
      (by decide) (by decide)).1,
    ((validate_index_unchecked { TestMode := false } testWorld 5 AuthzUpdated 2).2.1
      (Or.inr (by decide))).1,
    ((validate_index_unchecked { TestMode := false } testWorld 5 AuthzUpdated (-1)).2.1
      (Or.inl (by decide))).1,
    (validate_index_unchecked { TestMode := false } testWorld 5 AuthzUpdated 2).2.2⟩

/-! ## The validation authority: the body of the answer, and `TestMode` -/

/-- What `validateSimpleHTTPS` makes of the outcome of its HTTP exchange, for a DNS
identifier and a non-empty path: the status and the error that it returns. -/
theorem validateSimpleHTTPS_of_fetch (va : ValidationAuthorityImpl) (w : World)
    (identifier : AcmeIdentifier) (input : Challenge)
    (hid : identifier.Type_ = IdentifierDNS) (hp : input.Path ≠ "") :
    ((validateSimpleHTTPS va w identifier input).challenge.Status,
      (validateSimpleHTTPS va w identifier input).err) =
    match fetchOf va w identifier input with
    | .error e => (StatusInvalid, some e)
    | .ok response =>
      if response.StatusCode = 200 then
        match response.Body.err with
        | some readErr => (StatusInvalid, some readErr)
        | none =>
          if response.Body.data = bytes input.Token then (StatusValid, none)
          else (StatusInvalid,
            some ("Incorrect token validating SimpleHTTPS for " ++ urlOf va identifier input))
      else (StatusInvalid,
        some ("Invalid response from " ++ urlOf va identifier input ++ ": " ++
          toString response.StatusCode)) := by
  have hlen : len input.Path ≠ 0 := fun h => hp ((len_eq_zero _).mp h)
  unfold validateSimpleHTTPS fetchOf urlOf hostNameOf clientOf
  simp only [hlen, hid, if_false, ne_eq, not_true_eq_false]
  cases hreq : w.NewRequest "GET"
      ((if va.TestMode = true then "http" else "https") ++ "://" ++
        (if va.TestMode = true then "localhost:5001" else identifier.Value) ++
        "/.well-known/acme-challenge/" ++ input.Path) with
  | error e => rfl
  | ok request =>
    simp only []
    cases hdo : w.Do
        { Transport :=
            { TLSClientConfig := { ServerName := "", InsecureSkipVerify := true },
              DisableKeepAlives := true },
          Timeout := 5 * Second }
        { request with
          Host := if va.TestMode = true then "localhost:5001" else identifier.Value } with
    | error e => rfl
    | ok response =>
      simp only []
      by_cases hcode : response.StatusCode = 200
      · rw [if_pos hcode, if_pos hcode]
        unfold ReadAll
        cases herr : response.Body.err with
        | some readErr => rfl
        | none =>
          simp only []
          by_cases hcmp : ConstantTimeCompare response.Body.data (bytes input.Token) = 1
          · rw [if_pos hcmp, if_pos ((ConstantTimeCompare_eq_one _ _).mp hcmp)]
          · rw [if_neg hcmp, if_neg (fun h => hcmp ((ConstantTimeCompare_eq_one _ _).mpr h))]
      · rw [if_neg hcode, if_neg hcode]

/-- Claim C21, as amended: `validateSimpleHTTPS` reads the body of a 200 answer to the end
of the stream, without a bound on the number of bytes; what it compares with the token is
the whole body, however long: the status is valid exactly when the stream ends without a
read error and all the bytes of the body are the bytes of the token, and a read error
makes it invalid with that error. -/
theorem validateSimpleHTTPS_reads_whole_body (va : ValidationAuthorityImpl) (w : World)
    (identifier : AcmeIdentifier) (input : Challenge) (response : Response)
    (hid : identifier.Type_ = IdentifierDNS) (hp : input.Path ≠ "")
    (hfetch : fetchOf va w identifier input = .ok response)
    (hcode : response.StatusCode = 200) :
    (ReadAll response.Body).1 = response.Body.data ∧
    ((ReadAll response.Body).1).length = response.Body.data.length ∧
    ((validateSimpleHTTPS va w identifier input).challenge.Status = StatusValid ↔
      response.Body.err = none ∧ response.Body.data = bytes input.Token) ∧
    (∀ readErr, response.Body.err = some readErr →
      (validateSimpleHTTPS va w identifier input).challenge.Status = StatusInvalid ∧
      (validateSimpleHTTPS va w identifier input).err = some readErr) := by
  have h := validateSimpleHTTPS_of_fetch va w identifier input hid hp
  rw [hfetch] at h
  simp only [hcode, if_true] at h
  have hne : ¬ StatusInvalid = StatusValid := by decide
  refine ⟨rfl, rfl, ?_, ?_⟩
  · cases herr : response.Body.err with
    | some readErr =>
      rw [herr] at h
      have h1 := congrArg Prod.fst h
      simp only [] at h1
      rw [h1]
      simp [hne]
    | none =>
      rw [herr] at h
      simp only [] at h
      by_cases hcmp : response.Body.data = bytes input.Token
      · rw [if_pos hcmp] at h
        have h1 := congrArg Prod.fst h
        simp only [] at h1
        rw [h1]
        simp [hcmp]
      · rw [if_neg hcmp] at h
        have h1 := congrArg Prod.fst h
        simp only [] at h1
        rw [h1]
        simp [hcmp, hne]
  · intro readErr herr
    rw [herr] at h
    exact ⟨congrArg Prod.fst h, congrArg Prod.snd h⟩

/-- Witness of C21: the subscriber answers 200 with the 43 bytes of the token of
challenge 0; all of them are read and compared. -/
theorem validateSimpleHTTPS_reads_whole_body_witness :
    ((ReadAll { data := bytes challenge0.Token, err := none }).1).length = 43 ∧
    (validateSimpleHTTPS { TestMode := false } (bodyWorld (bytes challenge0.Token))
      AuthzUpdated.Identifier challenge0Updated).challenge.Status = StatusValid :=
  have h := validateSimpleHTTPS_reads_whole_body { TestMode := false }
    (bodyWorld (bytes challenge0.Token)) AuthzUpdated.Identifier challenge0Updated
    { StatusCode := 200, Body := { data := bytes challenge0.Token, err := none } }
    (by decide) (by decide) rfl rfl
  ⟨by decide, h.2.2.1.mpr ⟨rfl, rfl⟩⟩

theorem bytes_longToken (n : Nat) : bytes (longToken n) = List.replicate n 97 := by
  unfold bytes longToken
  induction n with
  | zero => rfl
  | succ n ih =>
    simp only [List.replicate_succ, List.flatMap_cons, ih]
    rfl

/-- The status that the probe of challenge 0 returns when the subscriber answers 200 with
the given body. -/
theorem validateSimpleHTTPS_bodyWorld (data : List Nat) (token : String) :
    (validateSimpleHTTPS { TestMode := false } (bodyWorld data) AuthzUpdated.Identifier
      { challenge0Updated with Token := token }).challenge.Status =
      if data = bytes token then StatusValid else StatusInvalid := by
  have hp : challenge0Updated.Path ≠ "" := by decide
  have h := validateSimpleHTTPS_of_fetch { TestMode := false } (bodyWorld data)
    AuthzUpdated.Identifier { challenge0Updated with Token := token } (by decide) hp
  have hfetch : fetchOf { TestMode := false } (bodyWorld data) AuthzUpdated.Identifier
      { challenge0Updated with Token := token } =
      .ok { StatusCode := 200, Body := { data := data, err := none } } := rfl
  rw [hfetch] at h
  simp only [if_true] at h
  have h1 := congrArg Prod.fst h
  simp only [] at h1
  rw [h1]
  by_cases hcmp : data = bytes token
  · rw [if_pos hcmp, if_pos hcmp]
  · rw [if_neg hcmp, if_neg hcmp]

/-- Counterexample to C21 as stated: no limit `N` exists such that the outcome is settled
by the first `N` bytes of the body; for every `N`, a token of `N + 1` letters and two
bodies of `N + 1` bytes that differ in the last byte only give valid and invalid. -/
theorem validateSimpleHTTPS_reads_whole_body_counterexample :
    ¬ ∃ N : Nat, ∀ (token : String) (data1 data2 : List Nat),
      data1.take N = data2.take N →
      (validateSimpleHTTPS { TestMode := false } (bodyWorld data1) AuthzUpdated.Identifier
        { challenge0Updated with Token := token }).challenge.Status =
      (validateSimpleHTTPS { TestMode := false } (bodyWorld data2) AuthzUpdated.Identifier
        { challenge0Updated with Token := token }).challenge.Status := by
  rintro ⟨N, h⟩
  have htake : (List.replicate (N + 1) 97).take N = (List.replicate N 97 ++ [98]).take N := by
    rw [List.take_replicate, List.take_left' (List.length_replicate N 97)]
    simp
  have h1 := h (longToken (N + 1)) (List.replicate (N + 1) 97) (List.replicate N 97 ++ [98])
    htake
  rw [validateSimpleHTTPS_bodyWorld, validateSimpleHTTPS_bodyWorld, bytes_longToken] at h1
  have hdiff : List.replicate N 97 ++ [98] ≠ List.replicate (N + 1) 97 := by
    intro heq
    have h2 : (98 : Nat) ∈ List.replicate (N + 1) 97 := by
      rw [← heq]
      simp
    have h3 := List.eq_of_mem_replicate h2
    omega
  rw [if_pos rfl, if_neg hdiff] at h1
  exact absurd h1 (by decide)

/-- What `validateDvsni` makes of the outcome of its dial: the status and the error that
it returns. -/
theorem validateDvsni_of_dial (va : ValidationAuthorityImpl) (w : World)
    (identifier : AcmeIdentifier) (input : Challenge) :
    ((validateDvsni va w identifier input).challenge.Status,
      (validateDvsni va w identifier input).err) =
    if identifier.Type_ ≠ "dns" then
      (StatusInvalid, some "Identifier type for DVSNI was not DNS")
    else
      match w.B64dec input.R with
      | .error e => (StatusInvalid, some e)
      | .ok R =>
        match w.B64dec input.S with
        | .error e => (StatusInvalid, some e)
        | .ok S =>
          match dialOf va w identifier input with
          | .error e => (StatusInvalid, some e)
          | .ok [] => (StatusInvalid, some "No certs presented for DVSNI challenge")
          | .ok (cert :: _) =>
            if sanMatches (zNameOf w R S) cert.DNSNames then (StatusValid, none)
            else (StatusInvalid, some "Correct zName not found for DVSNI challenge") := by
  unfold validateDvsni dialOf hostPortOf dialerOf configOf
  by_cases hid : identifier.Type_ ≠ "dns"
  · simp only [if_pos hid]
  · simp only [if_neg hid]
    cases hR : w.B64dec input.R with
    | error e => rfl
    | ok R =>
      simp only []
      cases hS : w.B64dec input.S with
      | error e => rfl
      | ok S =>
        simp only []
        cases hd : w.DialWithDialer { Timeout := 5 * Second } "tcp"
            (if va.TestMode = true then "localhost:5001" else identifier.Value ++ ":443")
            { ServerName := input.Nonce ++ DVSNI_SUFFIX, InsecureSkipVerify := true } with
        | error e => rfl
        | ok certs =>
          cases certs with
          | nil => rfl
          | cons cert rest =>
            simp only []
            by_cases hm : sanMatches (zNameOf w R S) cert.DNSNames = true
            · rw [if_pos hm, if_pos hm]
            · rw [if_neg hm, if_neg hm]

theorem sameAnswer_ok {α : Type} [DecidableEq α] (a : Except String α) (y : α)
    (h : sameAnswer a (.ok y) = true) : a = .ok y := by
  cases a with
  | error e => simp [sameAnswer] at h
  | ok x =>
    simp only [sameAnswer, decide_eq_true_eq] at h
    rw [h]

theorem sameAnswer_error {α : Type} [DecidableEq α] (a : Except String α) (e : String)
    (h : sameAnswer a (.error e) = true) : ∃ e1, a = .error e1 := by
  cases a with
  | error e1 => exact ⟨e1, rfl⟩
  | ok x => simp [sameAnswer] at h

/-- Claim C22, as amended: with `TestMode` on, `validateSimpleHTTPS` requests
"http://localhost:5001/.well-known/acme-challenge/" ++ path with the `Host`
"localhost:5001", and `validateDvsni` dials "localhost:5001", with the same SNI name as
with `TestMode` off; when the network gives the same answer at the two endpoints (the
same response, or a failure at both), the challenge returned is the same with `TestMode`
on and off and the error is nil in the one case exactly when it is nil in the other. The
error itself is the same only where its text does not name the endpoint: after an answer
of the subscriber the error of `validateDvsni` is the same, and that of
`validateSimpleHTTPS` is the same except that its two messages that name the URL name the
URL that was requested; after a failure the error is the transport error, returned
unchanged, as the network worded it for the endpoint that was used. -/
theorem TestMode_changes_endpoint_only (w : World) (identifier : AcmeIdentifier)
    (input : Challenge) :
    urlOf { TestMode := true } identifier input =
      "http://localhost:5001/.well-known/acme-challenge/" ++ input.Path ∧
    hostNameOf { TestMode := true } identifier = "localhost:5001" ∧
    hostPortOf { TestMode := true } identifier = "localhost:5001" ∧
    (identifier.Type_ = IdentifierDNS → input.Path ≠ "" → ∀ request,
      w.NewRequest "GET"
        ("http://localhost:5001/.well-known/acme-challenge/" ++ input.Path) = .ok request →
      networkEvents (validateSimpleHTTPS { TestMode := true } w identifier input).events =
        [Event.Do clientOf { request with Host := "localhost:5001" }]) ∧
    (identifier.Type_ = "dns" → ∀ R S,
      w.B64dec input.R = .ok R → w.B64dec input.S = .ok S →
      networkEvents (validateDvsni { TestMode := true } w identifier input).events =
        [Event.Dial { Timeout := 5 * Second } "tcp" "localhost:5001"
          { ServerName := input.Nonce ++ ".acme.invalid", InsecureSkipVerify := true }]) ∧
    (sameAnswer (fetchOf { TestMode := true } w identifier input)
        (fetchOf { TestMode := false } w identifier input) = true →
      (validateSimpleHTTPS { TestMode := true } w identifier input).challenge =
        (validateSimpleHTTPS { TestMode := false } w identifier input).challenge ∧
      ((validateSimpleHTTPS { TestMode := true } w identifier input).err = none ↔
        (validateSimpleHTTPS { TestMode := false } w identifier input).err = none) ∧
      (∀ response, fetchOf { TestMode := false } w identifier input = .ok response →
        (validateSimpleHTTPS { TestMode := true } w identifier input).err =
            (validateSimpleHTTPS { TestMode := false } w identifier input).err ∨
          ∃ pre suf,
            (validateSimpleHTTPS { TestMode := true } w identifier input).err =
              some (pre ++ urlOf { TestMode := true } identifier input ++ suf) ∧
            (validateSimpleHTTPS { TestMode := false } w identifier input).err =
              some (pre ++ urlOf { TestMode := false } identifier input ++ suf))) ∧
    (identifier.Type_ = IdentifierDNS → input.Path ≠ "" →
      ∀ (va : ValidationAuthorityImpl) (e : String),
      fetchOf va w identifier input = .error e →
      (validateSimpleHTTPS va w identifier input).err = some e) ∧
    (sameAnswer (dialOf { TestMode := true } w identifier input)
        (dialOf { TestMode := false } w identifier input) = true →
      (validateDvsni { TestMode := true } w identifier input).challenge =
        (validateDvsni { TestMode := false } w identifier input).challenge ∧
      ((validateDvsni { TestMode := true } w identifier input).err = none ↔
        (validateDvsni { TestMode := false } w identifier input).err = none) ∧
      (∀ certs, dialOf { TestMode := false } w identifier input = .ok certs →
        (validateDvsni { TestMode := true } w identifier input).err =
          (validateDvsni { TestMode := false } w identifier input).err)) ∧
    (identifier.Type_ = "dns" → ∀ R S,
      w.B64dec input.R = .ok R → w.B64dec input.S = .ok S →
      ∀ (va : ValidationAuthorityImpl) (e : String),
      dialOf va w identifier input = .error e →
      (validateDvsni va w identifier input).err = some e) := by
  have hne : ¬ StatusInvalid = StatusValid := by decide
  refine ⟨rfl, rfl, rfl, ?_, ?_, ?_, ?_, ?_, ?_⟩
  · intro hid hp request hreq
    have hlen : len input.Path ≠ 0 := fun h => hp ((len_eq_zero _).mp h)
    have hreq1 : w.NewRequest "GET" ("http" ++ "://" ++ "localhost:5001" ++
        "/.well-known/acme-challenge/" ++ input.Path) = .ok request := hreq
    unfold validateSimpleHTTPS
    simp only [hlen, hid, if_false, if_true, ne_eq, not_true_eq_false, hreq1]
    repeat' split
    all_goals rfl
  · intro hid R S hR hS
    unfold validateDvsni
    simp only [hid, ne_eq, not_true_eq_false, if_false, if_true, hR, hS]
    repeat' split
    all_goals rfl
  · intro hsame
    have con := validateSimpleHTTPS_challenge { TestMode := true } w identifier input
    have coff := validateSimpleHTTPS_challenge { TestMode := false } w identifier input
    by_cases hlen : len input.Path = 0
    · have e : ∀ va : ValidationAuthorityImpl, validateSimpleHTTPS va w identifier input =
          { challenge := { input with Status := StatusInvalid },
            err := some "No path provided for SimpleHTTPS challenge.",
            events := [] } := by
        intro va
        unfold validateSimpleHTTPS
        simp [hlen]
      rw [e, e]
      exact ⟨rfl, Iff.rfl, fun _ _ => Or.inl rfl⟩
    · by_cases hid : identifier.Type_ = IdentifierDNS
      · have hp : input.Path ≠ "" := fun h => hlen ((len_eq_zero _).mpr h)
        have hon := validateSimpleHTTPS_of_fetch { TestMode := true } w identifier input
          hid hp
        have hoff := validateSimpleHTTPS_of_fetch { TestMode := false } w identifier input
          hid hp
        have fin : ∀ (st : AcmeStatus) (e1 e2 : Option String) (Q : Prop),
            ((validateSimpleHTTPS { TestMode := true } w identifier input).challenge.Status,
              (validateSimpleHTTPS { TestMode := true } w identifier input).err) = (st, e1) →
            ((validateSimpleHTTPS { TestMode := false } w identifier input).challenge.Status,
              (validateSimpleHTTPS { TestMode := false } w identifier input).err) = (st, e2) →
            (e1 = none ↔ e2 = none) →
            (Q → (e1 = e2 ∨ ∃ pre suf,
              e1 = some (pre ++ urlOf { TestMode := true } identifier input ++ suf) ∧
              e2 = some (pre ++ urlOf { TestMode := false } identifier input ++ suf))) →
            (validateSimpleHTTPS { TestMode := true } w identifier input).challenge =
              (validateSimpleHTTPS { TestMode := false } w identifier input).challenge ∧
            ((validateSimpleHTTPS { TestMode := true } w identifier input).err = none ↔
              (validateSimpleHTTPS { TestMode := false } w identifier input).err = none) ∧
            (Q →
              ((validateSimpleHTTPS { TestMode := true } w identifier input).err =
                (validateSimpleHTTPS { TestMode := false } w identifier input).err ∨
              ∃ pre suf,
                (validateSimpleHTTPS { TestMode := true } w identifier input).err =
                  some (pre ++ urlOf { TestMode := true } identifier input ++ suf) ∧
                (validateSimpleHTTPS { TestMode := false } w identifier input).err =
                  some (pre ++ urlOf { TestMode := false } identifier input ++ suf))) := by
          intro st e1 e2 Q h1 h2 hnil hrel
          have s1 := congrArg Prod.fst h1
          have s2 := congrArg Prod.fst h2
          have r1 := congrArg Prod.snd h1
          have r2 := congrArg Prod.snd h2
          simp only [] at s1 s2 r1 r2
          refine ⟨?_, ?_, ?_⟩
          · rw [con, coff, s1, s2]
          · rw [r1, r2]
            exact hnil
          · rw [r1, r2]
            exact hrel
        cases hf : fetchOf { TestMode := false } w identifier input with
        | error e =>
          rw [hf] at hsame hoff
          obtain ⟨e1, hf1⟩ := sameAnswer_error _ _ hsame
          rw [hf1] at hon
          have h3 := fin _ _ _ False hon hoff (by simp) (fun h => h.elim)
          exact ⟨h3.1, h3.2.1, fun response hr => by cases hr⟩
        | ok response =>
          rw [hf] at hsame hoff
          have hf1 := sameAnswer_ok _ _ hsame
          rw [hf1] at hon
          simp only [] at hon hoff
          by_cases hcode : response.StatusCode = 200
          · rw [if_pos hcode] at hon hoff
            cases herr : response.Body.err with
            | some readErr =>
              rw [herr] at hon hoff
              have h3 := fin _ _ _ True hon hoff Iff.rfl (fun _ => Or.inl rfl)
              exact ⟨h3.1, h3.2.1, fun _ _ => h3.2.2 trivial⟩
            | none =>
              rw [herr] at hon hoff
              simp only [] at hon hoff
              by_cases hcmp : response.Body.data = bytes input.Token
              · rw [if_pos hcmp] at hon hoff
                have h3 := fin _ _ _ True hon hoff Iff.rfl (fun _ => Or.inl rfl)
                exact ⟨h3.1, h3.2.1, fun _ _ => h3.2.2 trivial⟩
              · rw [if_neg hcmp] at hon hoff
                have h3 := fin _ _ _ True hon hoff (by simp) (fun _ => Or.inr
                  ⟨"Incorrect token validating SimpleHTTPS for ", "", by simp, by simp⟩)
                exact ⟨h3.1, h3.2.1, fun _ _ => h3.2.2 trivial⟩
          · rw [if_neg hcode] at hon hoff
            have h3 := fin _ _ _ True hon hoff (by simp) (fun _ => Or.inr
              ⟨"Invalid response from ", ": " ++ toString response.StatusCode,
                by simp [String.append_assoc], by simp [String.append_assoc]⟩)
            exact ⟨h3.1, h3.2.1, fun _ _ => h3.2.2 trivial⟩
      · have e : ∀ va : ValidationAuthorityImpl, validateSimpleHTTPS va w identifier input =
            { challenge := { input with Status := StatusInvalid },
              err := some "Identifier type for SimpleHTTPS was not DNS",
              events := [] } := by
          intro va
          unfold validateSimpleHTTPS
          simp [hlen, hid]
        rw [e, e]
        exact ⟨rfl, Iff.rfl, fun _ _ => Or.inl rfl⟩
  · intro hid hp va e hf
    have h := validateSimpleHTTPS_of_fetch va w identifier input hid hp
    rw [hf] at h
    exact congrArg Prod.snd h
  · intro hsame
    have con := validateDvsni_challenge { TestMode := true } w identifier input
    have coff := validateDvsni_challenge { TestMode := false } w identifier input
    have hon := validateDvsni_of_dial { TestMode := true } w identifier input
    have hoff := validateDvsni_of_dial { TestMode := false } w identifier input
    cases hd : dialOf { TestMode := false } w identifier input with
    | ok certs =>
      rw [hd] at hsame
      have hd1 := sameAnswer_ok _ _ hsame
      rw [hd1, ← hd, ← hoff] at hon
      have s1 := congrArg Prod.fst hon
      have r1 := congrArg Prod.snd hon
      simp only [] at s1 r1
      exact ⟨by rw [con, coff, s1], by rw [r1], fun _ _ => r1⟩
    | error e =>
      rw [hd] at hsame hoff
      obtain ⟨e1, hd1⟩ := sameAnswer_error _ _ hsame
      rw [hd1] at hon
      by_cases hid : identifier.Type_ ≠ "dns"
      · rw [if_pos hid] at hon hoff
        have s1 := congrArg Prod.fst hon
        have r1 := congrArg Prod.snd hon
        have s2 := congrArg Prod.fst hoff
        have r2 := congrArg Prod.snd hoff
        simp only [] at s1 r1 s2 r2
        exact ⟨by rw [con, coff, s1, s2], by rw [r1, r2], fun _ h => by cases h⟩
      · rw [if_neg hid] at hon hoff
        cases hR : w.B64dec input.R with
        | error eR =>
          rw [hR] at hon hoff
          have s1 := congrArg Prod.fst hon
          have r1 := congrArg Prod.snd hon
          have s2 := congrArg Prod.fst hoff
          have r2 := congrArg Prod.snd hoff
          simp only [] at s1 r1 s2 r2
          exact ⟨by rw [con, coff, s1, s2], by rw [r1, r2], fun _ h => by cases h⟩
        | ok R =>
          rw [hR] at hon hoff
          simp only [] at hon hoff
          cases hS : w.B64dec input.S with
          | error eS =>
            rw [hS] at hon hoff
            have s1 := congrArg Prod.fst hon
            have r1 := congrArg Prod.snd hon
            have s2 := congrArg Prod.fst hoff
            have r2 := congrArg Prod.snd hoff
            simp only [] at s1 r1 s2 r2
            exact ⟨by rw [con, coff, s1, s2], by rw [r1, r2], fun _ h => by cases h⟩
          | ok S =>
            rw [hS] at hon hoff
            have s1 := congrArg Prod.fst hon
            have r1 := congrArg Prod.snd hon
            have s2 := congrArg Prod.fst hoff
            have r2 := congrArg Prod.snd hoff
            simp only [] at s1 r1 s2 r2
            exact ⟨by rw [con, coff, s1, s2], by rw [r1, r2]; simp,
              fun _ h => by cases h⟩
  · intro hid R S hR hS va e hd
    have h := validateDvsni_of_dial va w identifier input
    have hid1 : ¬ identifier.Type_ ≠ "dns" := fun hn => hn hid
    rw [if_neg hid1, hR, hS, hd] at h
    exact congrArg Prod.snd h

/-- Witness of C22: no endpoint is up and each transport error names the endpoint that
was tried; the probes give the same challenge with `TestMode` on and off, a non-nil error
in both cases, and the error is the transport error of the endpoint used. -/
theorem TestMode_changes_endpoint_only_witness :
    (validateSimpleHTTPS { TestMode := true } refusingWorld AuthzUpdated.Identifier
        challenge0Updated).challenge =
      (validateSimpleHTTPS { TestMode := false } refusingWorld AuthzUpdated.Identifier
        challenge0Updated).challenge ∧
    (validateDvsni { TestMode := true } refusingWorld AuthzUpdated.Identifier
        challenge1Answered).challenge =
      (validateDvsni { TestMode := false } refusingWorld AuthzUpdated.Identifier
        challenge1Answered).challenge ∧
    (validateDvsni { TestMode := true } refusingWorld AuthzUpdated.Identifier
        challenge1Answered).err = some "dial tcp localhost:5001: connection refused" ∧
    (validateDvsni { TestMode := false } refusingWorld AuthzUpdated.Identifier
        challenge1Answered).err =
      some "dial tcp not-example.com:443: connection refused" :=
  have h := TestMode_changes_endpoint_only refusingWorld AuthzUpdated.Identifier
  ⟨((h challenge0Updated).2.2.2.2.2.1 rfl).1,
    ((h challenge1Answered).2.2.2.2.2.2.2.1 rfl).1,
    (h challenge1Answered).2.2.2.2.2.2.2.2 (by decide) challenge1R [1, 2, 3] rfl rfl
      { TestMode := true } _ rfl,
    (h challenge1Answered).2.2.2.2.2.2.2.2 (by decide) challenge1R [1, 2, 3] rfl rfl
      { TestMode := false } _ rfl⟩

/-- Counterexample to C22 as stated. The subscriber answers 404 to every request, so the
network response is the same with `TestMode` on and off: the statuses agree and the
errors of `validateSimpleHTTPS` differ, each naming the URL that was requested. And when
no endpoint is up, the errors of `validateDvsni` differ as well: each is the transport
error, which names the address that was dialed. -/
theorem TestMode_changes_endpoint_only_counterexample :
    fetchOf { TestMode := true } notFoundWorld AuthzUpdated.Identifier challenge0Updated =
      fetchOf { TestMode := false } notFoundWorld AuthzUpdated.Identifier
        challenge0Updated ∧
    (validateSimpleHTTPS { TestMode := true } notFoundWorld AuthzUpdated.Identifier
      challenge0Updated).err =
      some ("Invalid response from " ++
        "http://localhost:5001/.well-known/acme-challenge/Hf5GrX4Q7EBax9hc2jJnfw: 404") ∧
    (validateSimpleHTTPS { TestMode := false } notFoundWorld AuthzUpdated.Identifier
      challenge0Updated).err =
      some ("Invalid response from " ++
        "https://not-example.com/.well-known/acme-challenge/Hf5GrX4Q7EBax9hc2jJnfw: 404") ∧
    (validateSimpleHTTPS { TestMode := true } notFoundWorld AuthzUpdated.Identifier
      challenge0Updated).err ≠
      (validateSimpleHTTPS { TestMode := false } notFoundWorld AuthzUpdated.Identifier
        challenge0Updated).err ∧
    (validateDvsni { TestMode := true } refusingWorld AuthzUpdated.Identifier
      challenge1Answered).err ≠
      (validateDvsni { TestMode := false } refusingWorld AuthzUpdated.Identifier
        challenge1Answered).err ∧
    (validateDvsni { TestMode := true } refusingWorld AuthzUpdated.Identifier
      challenge1Answered).challenge.Status =
      (validateDvsni { TestMode := false } refusingWorld AuthzUpdated.Identifier
        challenge1Answered).challenge.Status :=
  ⟨rfl, by decide, by decide, by decide, by decide, by decide⟩

/-! ## The web front end: method, authentication, registration resolution -/

/-- A request that cannot be read and verified as a JWS fails authentication with
"Unable to read/verify body", whatever the endpoint. -/
theorem authenticate_unverified {α : Type} (ww : WebWorld) (unmarshal : String → Option α)
    (what : String) (request : WebRequest)
    (h : request.Body = none ∨ ∃ body, request.Body = some body ∧ ww.verifyJWS body = none) :
    authenticate ww unmarshal what request =
      .error (.malformed, "Unable to read/verify body") := by
  have hverify : request.Body.bind ww.verifyJWS = none := by
    rcases h with h | ⟨body, hbody, hjws⟩
    · rw [h]
      rfl
    · rw [hbody]
      exact hjws
  unfold authenticate
  simp only [hverify]

/-- A verified request whose payload the endpoint cannot parse fails authentication with
"Error unmarshaling …". -/
theorem authenticate_unparsed {α : Type} (ww : WebWorld) (unmarshal : String → Option α)
    (what : String) (request : WebRequest) (body : String) (key : JsonWebKey)
    (payload : String) (hbody : request.Body = some body)
    (hjws : ww.verifyJWS body = some (key, payload)) (hjson : unmarshal payload = none) :
    authenticate ww unmarshal what request =
      .error (.malformed, "Error unmarshaling " ++ what) := by
  have hverify : request.Body.bind ww.verifyJWS = some (key, payload) := by
    rw [hbody]
    exact hjws
  unfold authenticate
  simp only [hverify, hjson]

/-- A verified request whose payload parses passes authentication. -/
theorem authenticate_ok {α : Type} (ww : WebWorld) (unmarshal : String → Option α)
    (what : String) (request : WebRequest) (body : String) (key : JsonWebKey)
    (payload : String) (parsed : α) (hbody : request.Body = some body)
    (hjws : ww.verifyJWS body = some (key, payload)) (hjson : unmarshal payload = some parsed) :
    authenticate ww unmarshal what request = .ok (key, parsed) := by
  have hverify : request.Body.bind ww.verifyJWS = some (key, payload) := by
    rw [hbody]
    exact hjws
  unfold authenticate
  simp only [hverify, hjson]

/-- Claim C23: each of the handlers `NewRegistration`, `Registration`, `NewAuthorization`
and `NewCertificate` answers a request whose method is not POST with the problem
malformed, detail "Method not allowed", whose body is exactly the JSON text of the tests;
the answer is the same whatever the registration authority, the policy, the random
source and the clock are, and the storage is left as it was: the registration authority
is not called. -/
theorem handlers_method_not_allowed (wfe : WebFrontEndImpl) (ww : WebWorld) (w : World)
    (pa : PolicyAuthority) (rng : Nat → Nat) (now : Nat) (sa : StorageAuthority)
    (request : WebRequest) (h : request.Method ≠ "POST") :
    wfe.NewRegistration ww w rng sa request =
      (.problem .malformed "Method not allowed", sa) ∧
    wfe.Registration ww w sa request = (.problem .malformed "Method not allowed", sa) ∧
    wfe.NewAuthorization ww w pa rng sa request =
      (.problem .malformed "Method not allowed", sa) ∧
    wfe.NewCertificate ww w now sa request =
      (.problem .malformed "Method not allowed", sa) ∧
    (WebResponse.problem .malformed "Method not allowed").document =
      some ("\x7b\x22type\x22:\x22urn:acme:error:malformed\x22," ++
        "\x22detail\x22:\x22Method not allowed\x22\x7d") := by
  refine ⟨?_, ?_, ?_, ?_, by decide⟩
  · unfold WebFrontEndImpl.NewRegistration
    rw [if_pos h]
  · unfold WebFrontEndImpl.Registration
    rw [if_pos h]
  · unfold WebFrontEndImpl.NewAuthorization
    rw [if_pos h]
  · unfold WebFrontEndImpl.NewCertificate
    rw [if_pos h]

/-- Witness of C23: the GET of `TestIssueCertificate` on new-cert and the MAKE-COFFEE of
`TestRegistration` on a registration. -/
theorem handlers_method_not_allowed_witness :
    testWFE.NewCertificate testWeb testWorld testNow testSA
        { Method := "GET", Body := none } =
      (.problem .malformed "Method not allowed", testSA) ∧
    testWFE.Registration testWeb testWorld testSA
        { Method := "MAKE-COFFEE", Body := some "invalid" } =
      (.problem .malformed "Method not allowed", testSA) :=
  ⟨(handlers_method_not_allowed testWFE testWeb testWorld testPA zeroRng testNow testSA
      { Method := "GET", Body := none } (by decide)).2.2.2.1,
    (handlers_method_not_allowed testWFE testWeb testWorld testPA zeroRng testNow testSA
      { Method := "MAKE-COFFEE", Body := some "invalid" } (by decide)).2.1⟩

/-- Claim C24: for a POST to one of the handlers, a body that is missing or that cannot
be read and verified as a JWS gives the problem malformed with the detail "Unable to
read/verify body"; a body that verifies but whose payload the endpoint cannot parse gives
the problem malformed with a detail that begins with "Error unmarshaling": "Error
unmarshaling JSON" for new-reg and new-authz, "Error unmarshaling certificate request"
for new-cert, "Error unmarshaling registration" for the update of a registration. The
storage is left as it was. -/
theorem handlers_authentication (wfe : WebFrontEndImpl) (ww : WebWorld) (w : World)
    (pa : PolicyAuthority) (rng : Nat → Nat) (now : Nat) (sa : StorageAuthority)
    (request : WebRequest) (hpost : request.Method = "POST") :
    (request.Body = none ∨
        (∃ body, request.Body = some body ∧ ww.verifyJWS body = none) →
      wfe.NewRegistration ww w rng sa request =
        (.problem .malformed "Unable to read/verify body", sa) ∧
      wfe.Registration ww w sa request =
        (.problem .malformed "Unable to read/verify body", sa) ∧
      wfe.NewAuthorization ww w pa rng sa request =
        (.problem .malformed "Unable to read/verify body", sa) ∧
      wfe.NewCertificate ww w now sa request =
        (.problem .malformed "Unable to read/verify body", sa)) ∧
    (∀ body key payload, request.Body = some body →
      ww.verifyJWS body = some (key, payload) →
      (ww.unmarshalRegistration payload = none →
        wfe.NewRegistration ww w rng sa request =
          (.problem .malformed "Error unmarshaling JSON", sa) ∧
        wfe.Registration ww w sa request =
          (.problem .malformed "Error unmarshaling registration", sa)) ∧
      (ww.unmarshalAuthorization payload = none →
        wfe.NewAuthorization ww w pa rng sa request =
          (.problem .malformed "Error unmarshaling JSON", sa)) ∧
      (ww.unmarshalCertificateRequest payload = none →
        wfe.NewCertificate ww w now sa request =
          (.problem .malformed "Error unmarshaling certificate request", sa))) ∧
    (WebResponse.problem .malformed "Unable to read/verify body").document =
      some ("\x7b\x22type\x22:\x22urn:acme:error:malformed\x22," ++
        "\x22detail\x22:\x22Unable to read/verify body\x22\x7d") ∧
    (WebResponse.problem .malformed "Error unmarshaling JSON").document =
      some ("\x7b\x22type\x22:\x22urn:acme:error:malformed\x22," ++
        "\x22detail\x22:\x22Error unmarshaling JSON\x22\x7d") ∧
    (WebResponse.problem .malformed "Error unmarshaling certificate request").document =
      some ("\x7b\x22type\x22:\x22urn:acme:error:malformed\x22," ++
        "\x22detail\x22:\x22Error unmarshaling certificate request\x22\x7d") := by
  have hm : ¬ request.Method ≠ "POST" := fun hn => hn hpost
  refine ⟨?_, ?_, by decide, by decide, by decide⟩
  · intro hbad
    refine ⟨?_, ?_, ?_, ?_⟩
    · unfold WebFrontEndImpl.NewRegistration
      rw [if_neg hm, authenticate_unverified ww _ _ request hbad]
    · unfold WebFrontEndImpl.Registration
      rw [if_neg hm, authenticate_unverified ww _ _ request hbad]
    · unfold WebFrontEndImpl.NewAuthorization
      rw [if_neg hm, authenticate_unverified ww _ _ request hbad]
    · unfold WebFrontEndImpl.NewCertificate
      rw [if_neg hm, authenticate_unverified ww _ _ request hbad]
  · intro body key payload hbody hjws
    refine ⟨?_, ?_, ?_⟩
    · intro hjson
      constructor
      · unfold WebFrontEndImpl.NewRegistration
        rw [if_neg hm, authenticate_unparsed ww _ _ request body key payload hbody hjws hjson]
        rfl
      · unfold WebFrontEndImpl.Registration
        rw [if_neg hm, authenticate_unparsed ww _ _ request body key payload hbody hjws hjson]
        rfl
    · intro hjson
      unfold WebFrontEndImpl.NewAuthorization
      rw [if_neg hm, authenticate_unparsed ww _ _ request body key payload hbody hjws hjson]
      rfl
    · intro hjson
      unfold WebFrontEndImpl.NewCertificate
      rw [if_neg hm, authenticate_unparsed ww _ _ request body key payload hbody hjws hjson]
      rfl

/-- Witness of C24, the scenarios of `TestNewRegistration` and `TestIssueCertificate`: a
POST without body, the body "hi", and a well-signed body with the payload foo. -/
theorem handlers_authentication_witness :
    testWFE.NewCertificate testWeb testWorld testNow testSA
        { Method := "POST", Body := none } =
      (.problem .malformed "Unable to read/verify body", testSA) ∧
    testWFE.NewRegistration testWeb testWorld zeroRng testSA
        { Method := "POST", Body := some "hi" } =
      (.problem .malformed "Unable to read/verify body", testSA) ∧
    testWFE.NewRegistration testWeb testWorld zeroRng testSA
        { Method := "POST", Body := some "signed:foo" } =
      (.problem .malformed "Error unmarshaling JSON", testSA) ∧
    testWFE.NewCertificate testWeb testWorld testNow testSA
        { Method := "POST", Body := some "signed by A:foo" } =
      (.problem .malformed "Error unmarshaling certificate request", testSA) :=
  ⟨((handlers_authentication testWFE testWeb testWorld testPA zeroRng testNow testSA
      { Method := "POST", Body := none } rfl).1 (Or.inl rfl)).2.2.2,
    ((handlers_authentication testWFE testWeb testWorld testPA zeroRng testNow testSA
      { Method := "POST", Body := some "hi" } rfl).1 (Or.inr ⟨"hi", rfl, rfl⟩)).1,
    (((handlers_authentication testWFE testWeb testWorld testPA zeroRng testNow testSA
      { Method := "POST", Body := some "signed:foo" } rfl).2.1
      "signed:foo" AccountKeyC "foo" rfl rfl).1 rfl).1,
    ((handlers_authentication testWFE testWeb testWorld testPA zeroRng testNow testSA
      { Method := "POST", Body := some "signed by A:foo" } rfl).2.1
      "signed by A:foo" AccountKeyA "foo" rfl rfl).2.2 rfl⟩

/-- Claim C25, as amended: for a POST whose JWS verifies and whose payload parses, to a
handler that acts on a specific registration (`Registration`, `NewAuthorization`,
`NewCertificate`), when the storage authority finds no registration for the signer key
the answer is the problem unauthorized with the detail "No registration exists matching
provided key"; for such a POST to `NewRegistration`, when the signer key belongs to a
stored registration the answer is the problem malformed with the detail "Registration key
is already in use". In both cases the storage is left as it was: no registration is
created. -/
theorem handlers_registration_resolution (wfe : WebFrontEndImpl) (ww : WebWorld)
    (w : World) (pa : PolicyAuthority) (rng : Nat → Nat) (now : Nat)
    (sa : StorageAuthority) (request : WebRequest) (body : String) (key : JsonWebKey)
    (payload : String) (hpost : request.Method = "POST")
    (hbody : request.Body = some body) (hjws : ww.verifyJWS body = some (key, payload)) :
    (sa.GetRegistrationByKey w key = none →
      resolveRegistration w sa key =
        .error (.unauthorized, "No registration exists matching provided key") ∧
      (∀ update, ww.unmarshalRegistration payload = some update →
        wfe.Registration ww w sa request =
          (.problem .unauthorized "No registration exists matching provided key", sa)) ∧
      (∀ init, ww.unmarshalAuthorization payload = some init →
        wfe.NewAuthorization ww w pa rng sa request =
          (.problem .unauthorized "No registration exists matching provided key", sa)) ∧
      (∀ init, ww.unmarshalCertificateRequest payload = some init →
        wfe.NewCertificate ww w now sa request =
          (.problem .unauthorized "No registration exists matching provided key", sa))) ∧
    (∀ stored init, sa.GetRegistrationByKey w key = some stored →
      ww.unmarshalRegistration payload = some init →
      wfe.NewRegistration ww w rng sa request =
        (.problem .malformed "Registration key is already in use", sa)) ∧
    (WebResponse.problem .unauthorized
        "No registration exists matching provided key").document =
      some ("\x7b\x22type\x22:\x22urn:acme:error:unauthorized\x22," ++
        "\x22detail\x22:\x22No registration exists matching provided key\x22\x7d") ∧
    (WebResponse.problem .malformed "Registration key is already in use").document =
      some ("\x7b\x22type\x22:\x22urn:acme:error:malformed\x22," ++
        "\x22detail\x22:\x22Registration key is already in use\x22\x7d") := by
  have hm : ¬ request.Method ≠ "POST" := fun hn => hn hpost
  refine ⟨?_, ?_, by decide, by decide⟩
  · intro hnone
    have hres : resolveRegistration w sa key =
        .error (.unauthorized, "No registration exists matching provided key") := by
      unfold resolveRegistration
      simp only [hnone]
    refine ⟨hres, ?_, ?_, ?_⟩
    · intro update hjson
      unfold WebFrontEndImpl.Registration
      rw [if_neg hm, authenticate_ok ww _ _ request body key payload update hbody hjws hjson]
      simp only [hres]
    · intro init hjson
      unfold WebFrontEndImpl.NewAuthorization
      rw [if_neg hm, authenticate_ok ww _ _ request body key payload init hbody hjws hjson]
      simp only [hres]
    · intro init hjson
      unfold WebFrontEndImpl.NewCertificate
      rw [if_neg hm, authenticate_ok ww _ _ request body key payload init hbody hjws hjson]
      simp only [hres]
  · intro stored init hsome hjson
    have hin : (sa.GetRegistrationByKey w key).isSome = true := by
      rw [hsome]
      rfl
    unfold WebFrontEndImpl.NewRegistration
    rw [if_neg hm, authenticate_ok ww _ _ request body key payload init hbody hjws hjson]
    simp only [hin, if_true]

/-- Witness of C25: the key `AccountKeyC` is not registered, so an update of a
registration signed with it is refused; the key `AccountKeyA` is the key of registration
1, so a new registration signed with it is refused, and the storage is as before. -/
theorem handlers_registration_resolution_witness :
    testWFE.Registration testWeb testWorld testSA
        { Method := "POST", Body := some "signed:terms" } =
      (.problem .unauthorized "No registration exists matching provided key", testSA) ∧
    testWFE.NewRegistration testWeb testWorld zeroRng testSA
        { Method := "POST", Body := some "signed by A:terms" } =
      (.problem .malformed "Registration key is already in use", testSA) :=
  ⟨((handlers_registration_resolution testWFE testWeb testWorld testPA zeroRng testNow
      testSA { Method := "POST", Body := some "signed:terms" } "signed:terms" AccountKeyC
      "terms" rfl rfl rfl).1 (by decide!)).2.1 (payloadWith agreementURL) rfl,
    (handlers_registration_resolution testWFE testWeb testWorld testPA zeroRng testNow
      testSA { Method := "POST", Body := some "signed by A:terms" } "signed by A:terms"
      AccountKeyA "terms" rfl rfl rfl).2.1
      { ID := 1, Key := AccountKeyA, RecoveryToken := "", Contact := [], Agreement := "" }
      (payloadWith agreementURL) (by decide!) rfl⟩

/-- Counterexample to C25 as stated: the request is verified, under the key `AccountKeyC`
that has no registration, but its payload foo does not parse; the update of a
registration is answered "Error unmarshaling registration", not "No registration exists
matching provided key". Likewise a new registration verified under `AccountKeyA`, the key
of registration 1, with the payload foo is answered "Error unmarshaling JSON", not
"Registration key is already in use". -/
theorem handlers_registration_resolution_counterexample :
    testWeb.verifyJWS "signed:foo" = some (AccountKeyC, "foo") ∧
    testSA.GetRegistrationByKey testWorld AccountKeyC = none ∧
    testWFE.Registration testWeb testWorld testSA
        { Method := "POST", Body := some "signed:foo" } =
      (.problem .malformed "Error unmarshaling registration", testSA) ∧
    testWeb.verifyJWS "signed by A:foo" = some (AccountKeyA, "foo") ∧
    (testSA.GetRegistrationByKey testWorld AccountKeyA).isSome = true ∧
    testWFE.NewRegistration testWeb testWorld zeroRng testSA
        { Method := "POST", Body := some "signed by A:foo" } =
      (.problem .malformed "Error unmarshaling JSON", testSA) :=
  ⟨rfl, by decide!, rfl, rfl, by decide!, rfl⟩

end Boulder
